import Mathlib

/-!
SABR command protocol: word codec, payload value and command packet.

A shallow embedding of `lib/BinaryConverter.cc`, `lib/CommandPayloadValue.cc`,
`lib/DeviceCommand.cc` and the command channel of `lib/RadioDevice.cc`.

Conventions of the embedding:

* a `uint32_t` is a `Nat` below `2 ^ 32`, a `uint8_t` is a `Nat` below `2 ^ 8`; a C cast to a
  narrower or unsigned type is written as an explicit `%`;
* a `uint8_t*` buffer is a `List Nat`, read with `List.getD`;
* a `float` is a `Binary32`: a NaN, an infinity or a whole number of units of `2 ^ (-149)` with a
  sign, with the operations rounding to nearest, ties to even;
* the header `DeviceCommand.h` (bit-field constants, `CommandType`, `DeviceResponseError`) is not
  part of the sources at hand, so the constants are the fields of `PacketConstants`, a parameter
  of every function that uses one of them.
-/

namespace BinaryConverter

/-- `uint32_t ToUInt32(uint8_t* values)`: the four bytes, most significant first, are shifted
into place in 32-bit arithmetic and combined with bitwise or. -/
def ToUInt32 (values : List Nat) : Nat :=
  (((values.getD 0 0 <<< 24) % 2 ^ 32) ||| ((values.getD 1 0 <<< 16) % 2 ^ 32)
    ||| ((values.getD 2 0 <<< 8) % 2 ^ 32) ||| (values.getD 3 0 % 2 ^ 32)) % 2 ^ 32

/-- `uint8_t* GetBytes(uint32_t value)`: a fresh 4-byte array, each entry a `(uint8_t)` cast of a
right shift of the value. -/
def GetBytes (value : Nat) : List Nat :=
  [(value >>> 24) % 2 ^ 8, (value >>> 16) % 2 ^ 8, (value >>> 8) % 2 ^ 8, value % 2 ^ 8]

end BinaryConverter

namespace THR

open BinaryConverter

/-- The `(uint32_t)` cast of a signed `int`. -/
def castUInt32 (value : Int) : Nat := (value % 2 ^ 32).toNat

/-- The `(int)` cast of a `uint32_t`. -/
def castInt32 (value : Nat) : Int :=
  if value % 2 ^ 32 < 2 ^ 31 then ((value % 2 ^ 32 : Nat) : Int)
  else ((value % 2 ^ 32 : Nat) : Int) - 2 ^ 32

/-- Class `CommandPayloadValue`: the two private `uint32_t` members. -/
structure CommandPayloadValue where
  payloadHigh : Nat
  payloadLow : Nat
  deriving DecidableEq, Repr

namespace CommandPayloadValue

/-- `CommandPayloadValue()`. -/
def default : CommandPayloadValue := ⟨0, 0⟩

/-- `CommandPayloadValue(uint64_t value)`. -/
def ofUInt64 (value : Nat) : CommandPayloadValue :=
  ⟨(value >>> 32) % 2 ^ 32, value % 2 ^ 32⟩

/-- `CommandPayloadValue(int value)`. -/
def ofInt (value : Int) : CommandPayloadValue := ⟨0, castUInt32 value⟩

/-- `CommandPayloadValue(bool value)`. -/
def ofBool (value : Bool) : CommandPayloadValue :=
  ⟨0, if value then 1 else 0⟩

/-- `CommandPayloadValue(uint32_t inputPayloadHigh, uint32_t inputPayloadLow)`. -/
def ofWords (inputPayloadHigh inputPayloadLow : Nat) : CommandPayloadValue :=
  ⟨inputPayloadHigh, inputPayloadLow⟩

/-- `GetPayloadHigh`. -/
def GetPayloadHigh (p : CommandPayloadValue) : Nat := p.payloadHigh

/-- `GetPayloadLow`. -/
def GetPayloadLow (p : CommandPayloadValue) : Nat := p.payloadLow

/-- `GetAsUInt64`: `((uint64_t)payloadHigh << 32) | payloadLow`. -/
def GetAsUInt64 (p : CommandPayloadValue) : Nat :=
  ((p.payloadHigh <<< 32) % 2 ^ 64) ||| p.payloadLow

/-- `GetAsUInt32`. -/
def GetAsUInt32 (p : CommandPayloadValue) : Nat := p.payloadLow

/-- `GetAsInt32`. -/
def GetAsInt32 (p : CommandPayloadValue) : Int := castInt32 p.payloadLow

/-- `GetAsBool`. -/
def GetAsBool (p : CommandPayloadValue) : Bool := p.payloadLow != 0

/-- `ToSerializedBytes`: the bytes of the high word copied to offsets 0..3 and those of the low
word to offsets 4..7 of a fresh 8-byte array. -/
def ToSerializedBytes (p : CommandPayloadValue) : List Nat :=
  GetBytes p.payloadHigh ++ GetBytes p.payloadLow

end CommandPayloadValue

/-- Scoped enumeration `RadioChannel` (`SpecsEnums.h`), kept as the value of its underlying
`int`: `ProcessCommand` casts an arbitrary `int` to it. -/
structure RadioChannel where
  raw : Int
  deriving DecidableEq, Repr

namespace RadioChannel

/-- Enumerator `One = 0`, the RX1 port. -/
def One : RadioChannel := ⟨0⟩
/-- Enumerator `Two`, the TX1 port. -/
def Two : RadioChannel := ⟨1⟩
/-- Enumerator `Three`, the RX2 port. -/
def Three : RadioChannel := ⟨2⟩
/-- Enumerator `Four`, the TX2 port. -/
def Four : RadioChannel := ⟨3⟩

end RadioChannel

/-- Scoped enumeration `CommandType`. Its declaration (`DeviceCommand.h`) is not among the
sources; the enumerators are the case labels of the constructor's `switch`, and `unnamed raw` is
a value of the underlying type equal to none of them (the `default:` label). -/
inductive CommandType
  | InitDevice | CaptureEnable | LOFrequency | Gain | GainMode | Bandwidth | SampleRate
  | IRFilterCfg | TransmitEnable | DeviceStatus | MultiplexMode | Reset | ReferenceSource
  | IRFilterUse | AGCParams | CmdCounter | ChipsetID | FirmwareUpdate | Temperature
  | ERMVersion | DebugB | DebugA | Nop
  | unnamed (raw : Int)
  deriving DecidableEq, Repr

/-- Enumeration `DeviceResponseError`; its declaration (`DeviceCommand.h`) is not among the
sources, the enumerators are those the sources use. -/
inductive DeviceResponseError
  | None | ChecksumFailure | FramingError | NotAcknowledged | DeviceNotResponding
  | CommandNotRecognized
  deriving DecidableEq, Repr

/-- The bit-field constants of `DeviceCommand.h`, which is not among the sources: every one is a
32-bit pattern whose value is left open. -/
structure PacketConstants where
  PACKET_PREFIX : Nat
  PACKET_SUFFIX : Nat
  PACKET_DELIMITER_MASK : Nat
  CHECKSUM_FIELD_MASK : Nat
  ACK_NACK_FIELD_MASK : Nat
  DEV_ACK_RESP : Nat
  SET_GET_CMD_FIELD_MASK : Nat
  SET_CMD_BIT : Nat
  GET_CMD_BIT : Nat
  CMD_ID_FIELD_MASK : Nat
  INIT_CMD_ID : Nat
  CAPTURE_IQ_CMD_ID : Nat
  LO_CMD_ID : Nat
  GAIN_CMD_ID : Nat
  GAINMODE_CMD_ID : Nat
  BANDWIDTH_CMD_ID : Nat
  SAMPLERATE_CMD_ID : Nat
  IR_FILTER_CFG_CMD_ID : Nat
  TRANSMIT_IQ_CMD_ID : Nat
  DEV_STAT_CMD_ID : Nat
  MULTIPLEX_MODE_CMD_ID : Nat
  RESET_CMD_ID : Nat
  REFERENCE_SOURCE_CMD_ID : Nat
  IR_FILTER_USE_CMD_ID : Nat
  AGC_PARAMS_CMD_ID : Nat
  CMD_COUNTER_CMD_ID : Nat
  CHIPSET_CMD_ID : Nat
  FIRMWARE_UPDATE_CMD_ID : Nat
  TEMPERATURE_CMD_ID : Nat
  ERM_VERSION_CMD_ID : Nat
  DEBUG_B_CMD_ID : Nat
  DEBUG_A_CMD_ID : Nat
  NOP_CMD_ID : Nat
  deriving DecidableEq, Repr

/-- Class `DeviceCommand`: the private members. -/
structure DeviceCommand where
  header : Nat
  payloadValue : CommandPayloadValue
  footer : Nat
  isValid : Bool
  responseError : DeviceResponseError
  deriving DecidableEq, Repr

namespace DeviceCommand

/-- `DeviceCommand::CalculateChecksum`: the body is `return 0x00000000;`. -/
def CalculateChecksum (_header : Nat) (_payloadValue : CommandPayloadValue) (_footer : Nat) :
    Nat :=
  0x00000000

/-- `DeviceCommand::IsRawPacketValid`: the returned `bool` paired with the value left in the
`responseError` out-parameter. -/
def IsRawPacketValid (c : PacketConstants) (header : Nat) (payloadValue : CommandPayloadValue)
    (footer : Nat) : Bool × DeviceResponseError :=
  let calculatedChecksum := CalculateChecksum header payloadValue footer
  if calculatedChecksum ≠ (c.CHECKSUM_FIELD_MASK &&& footer) then
    (false, DeviceResponseError.ChecksumFailure)
  else if (header &&& c.PACKET_DELIMITER_MASK) ≠ c.PACKET_PREFIX then
    (false, DeviceResponseError.FramingError)
  else if (footer &&& c.PACKET_DELIMITER_MASK) ≠ c.PACKET_SUFFIX then
    (false, DeviceResponseError.FramingError)
  else if (header &&& c.ACK_NACK_FIELD_MASK) ≠ c.DEV_ACK_RESP then
    (false, DeviceResponseError.NotAcknowledged)
  else
    (true, DeviceResponseError.None)

/-- `DeviceCommand(uint32_t inputHeader, CommandPayloadValue inputPayloadValue,
uint32_t inputFooter)`. -/
def ofRaw (c : PacketConstants) (inputHeader : Nat) (inputPayloadValue : CommandPayloadValue)
    (inputFooter : Nat) : DeviceCommand :=
  let r := IsRawPacketValid c inputHeader inputPayloadValue inputFooter
  { header := inputHeader, payloadValue := inputPayloadValue, footer := inputFooter,
    isValid := r.1, responseError := r.2 }

/-- The `switch (commandType)` of the constructor from intent: the command-ID pattern or-ed into
the header, and whether the `default:` label was taken. -/
def commandIdSwitch (c : PacketConstants) : CommandType → Nat × Bool
  | CommandType.InitDevice => (c.INIT_CMD_ID, false)
  | CommandType.CaptureEnable => (c.CAPTURE_IQ_CMD_ID, false)
  | CommandType.LOFrequency => (c.LO_CMD_ID, false)
  | CommandType.Gain => (c.GAIN_CMD_ID, false)
  | CommandType.GainMode => (c.GAINMODE_CMD_ID, false)
  | CommandType.Bandwidth => (c.BANDWIDTH_CMD_ID, false)
  | CommandType.SampleRate => (c.SAMPLERATE_CMD_ID, false)
  | CommandType.IRFilterCfg => (c.IR_FILTER_CFG_CMD_ID, false)
  | CommandType.TransmitEnable => (c.TRANSMIT_IQ_CMD_ID, false)
  | CommandType.DeviceStatus => (c.DEV_STAT_CMD_ID, false)
  | CommandType.MultiplexMode => (c.MULTIPLEX_MODE_CMD_ID, false)
  | CommandType.Reset => (c.RESET_CMD_ID, false)
  | CommandType.ReferenceSource => (c.REFERENCE_SOURCE_CMD_ID, false)
  | CommandType.IRFilterUse => (c.IR_FILTER_USE_CMD_ID, false)
  | CommandType.AGCParams => (c.AGC_PARAMS_CMD_ID, false)
  | CommandType.CmdCounter => (c.CMD_COUNTER_CMD_ID, false)
  | CommandType.ChipsetID => (c.CHIPSET_CMD_ID, false)
  | CommandType.FirmwareUpdate => (c.FIRMWARE_UPDATE_CMD_ID, false)
  | CommandType.Temperature => (c.TEMPERATURE_CMD_ID, false)
  | CommandType.ERMVersion => (c.ERM_VERSION_CMD_ID, false)
  | CommandType.DebugB => (c.DEBUG_B_CMD_ID, false)
  | CommandType.DebugA => (c.DEBUG_A_CMD_ID, false)
  | CommandType.Nop => (c.NOP_CMD_ID, false)
  | CommandType.unnamed _ => (c.NOP_CMD_ID, true)

/-- `DeviceCommand(CommandType commandType, RadioChannel radioChannel, bool isSetCommand,
CommandPayloadValue payloadValue)`, statement by statement. -/
def ofIntent (c : PacketConstants) (commandType : CommandType) (radioChannel : RadioChannel)
    (isSetCommand : Bool) (payloadValue : CommandPayloadValue) : DeviceCommand :=
  let header := c.PACKET_PREFIX
  let footer := c.PACKET_SUFFIX
  let header := header ||| (if isSetCommand then c.SET_CMD_BIT else c.GET_CMD_BIT)
  let sw := commandIdSwitch c commandType
  let header := header ||| sw.1
  let isValid := !sw.2
  let responseError :=
    if sw.2 then DeviceResponseError.CommandNotRecognized else DeviceResponseError.None
  let header := header ||| castUInt32 radioChannel.raw
  let footer := footer ||| CalculateChecksum header payloadValue footer
  { header := header, payloadValue := payloadValue, footer := footer, isValid := isValid,
    responseError := responseError }

/-- `DeviceCommand(DeviceCommand& failedDeviceCommand)`. -/
def ofFailed (failedDeviceCommand : DeviceCommand) : DeviceCommand :=
  { header := failedDeviceCommand.header, payloadValue := failedDeviceCommand.payloadValue,
    footer := failedDeviceCommand.footer, isValid := false,
    responseError := DeviceResponseError.DeviceNotResponding }

/-- `DeviceCommand::IsValid`: the returned `bool` paired with the out-parameter. -/
def IsValid (d : DeviceCommand) : Bool × DeviceResponseError := (d.isValid, d.responseError)

/-- `DeviceCommand::GetPayloadValue`. -/
def GetPayloadValue (d : DeviceCommand) : CommandPayloadValue := d.payloadValue

/-- `DeviceCommand::ToSerializedBytes`: the three copy loops fill offsets 0..3 from the header
bytes, 4..11 from the payload bytes and 12..15 from the footer bytes. -/
def ToSerializedBytes (d : DeviceCommand) : List Nat :=
  let serializedHeader := GetBytes d.header
  let serializedPayload := d.payloadValue.ToSerializedBytes
  let serializedFooter := GetBytes d.footer
  (List.range 4).map (fun i => serializedHeader.getD i 0)
    ++ (List.range 8).map (fun i => serializedPayload.getD i 0)
    ++ (List.range 4).map (fun i => serializedFooter.getD i 0)

end DeviceCommand

/-- `CreateInvalidResponse`. -/
def CreateInvalidResponse (failedDeviceCommand : DeviceCommand) : DeviceCommand :=
  DeviceCommand.ofFailed failedDeviceCommand

/-- `CreateCommand`: the returned `bool` paired with the command left in `radioCommand`. -/
def CreateCommand (c : PacketConstants) (commandType : CommandType)
    (radioChannel : RadioChannel) (isSetCommand : Bool) (payloadValue : CommandPayloadValue) :
    Bool × DeviceCommand :=
  let radioCommand := DeviceCommand.ofIntent c commandType radioChannel isSetCommand payloadValue
  (radioCommand.IsValid.1, radioCommand)

/-- `FromSerializedBytes`: four loops copy offsets 0..3, 4..7, 8..11 and 12..15 into four
4-byte arrays, each decoded with `ToUInt32`. -/
def FromSerializedBytes (c : PacketConstants) (serializedBytes : List Nat) : DeviceCommand :=
  let headerBytes := (List.range 4).map (fun i => serializedBytes.getD i 0)
  let payloadHighBytes := (List.range 4).map (fun i => serializedBytes.getD (4 + i) 0)
  let payloadLowBytes := (List.range 4).map (fun i => serializedBytes.getD (8 + i) 0)
  let footerBytes := (List.range 4).map (fun i => serializedBytes.getD (12 + i) 0)
  let header := ToUInt32 headerBytes
  let payloadHigh := ToUInt32 payloadHighBytes
  let payloadLow := ToUInt32 payloadLowBytes
  let footer := ToUInt32 footerBytes
  DeviceCommand.ofRaw c header (CommandPayloadValue.ofWords payloadHigh payloadLow) footer

/-- The named enumerators of `CommandType`: the values the constructor's `switch` gives a case
label of their own. -/
def CommandType.isNamed : CommandType → Bool
  | CommandType.unnamed _ => false
  | _ => true

/-- The list of the named enumerators of `CommandType`, in the order of the `switch`. -/
def CommandType.named : List CommandType :=
  [CommandType.InitDevice, CommandType.CaptureEnable, CommandType.LOFrequency, CommandType.Gain,
    CommandType.GainMode, CommandType.Bandwidth, CommandType.SampleRate,
    CommandType.IRFilterCfg, CommandType.TransmitEnable, CommandType.DeviceStatus,
    CommandType.MultiplexMode, CommandType.Reset, CommandType.ReferenceSource,
    CommandType.IRFilterUse, CommandType.AGCParams, CommandType.CmdCounter,
    CommandType.ChipsetID, CommandType.FirmwareUpdate, CommandType.Temperature,
    CommandType.ERMVersion, CommandType.DebugB, CommandType.DebugA, CommandType.Nop]

/-- Modelled from the spec: `DeviceCommand.h` is missing, and with it the values of the bit-field
constants. This is one assignment that follows the layout the specification gives (header:
prefix constant, ack/nack bit, set(1)/get(0) bit, command-ID field starting 4 bits in, channel
in the low 2 bits; footer: suffix constant, checksum in the low bits). It only serves to
evaluate the functions at concrete inputs; no general statement depends on these values. -/
def sampleConstants : PacketConstants where
  PACKET_PREFIX := 0xA5000000
  PACKET_SUFFIX := 0x5A000000
  PACKET_DELIMITER_MASK := 0xFF000000
  CHECKSUM_FIELD_MASK := 0x0000FFFF
  ACK_NACK_FIELD_MASK := 0x00020000
  DEV_ACK_RESP := 0x00000000
  SET_GET_CMD_FIELD_MASK := 0x00010000
  SET_CMD_BIT := 0x00010000
  GET_CMD_BIT := 0x00000000
  CMD_ID_FIELD_MASK := 0x00000FF0
  INIT_CMD_ID := 0x010
  CAPTURE_IQ_CMD_ID := 0x020
  LO_CMD_ID := 0x030
  GAIN_CMD_ID := 0x040
  GAINMODE_CMD_ID := 0x050
  BANDWIDTH_CMD_ID := 0x060
  SAMPLERATE_CMD_ID := 0x070
  IR_FILTER_CFG_CMD_ID := 0x080
  TRANSMIT_IQ_CMD_ID := 0x090
  DEV_STAT_CMD_ID := 0x0A0
  MULTIPLEX_MODE_CMD_ID := 0x0B0
  RESET_CMD_ID := 0x0C0
  REFERENCE_SOURCE_CMD_ID := 0x0D0
  IR_FILTER_USE_CMD_ID := 0x0E0
  AGC_PARAMS_CMD_ID := 0x0F0
  CMD_COUNTER_CMD_ID := 0x100
  CHIPSET_CMD_ID := 0x110
  FIRMWARE_UPDATE_CMD_ID := 0x120
  TEMPERATURE_CMD_ID := 0x130
  ERM_VERSION_CMD_ID := 0x140
  DEBUG_B_CMD_ID := 0x150
  DEBUG_A_CMD_ID := 0x160
  NOP_CMD_ID := 0x000

/-- The four enumerators of `RadioChannel`. -/
def RadioChannel.enumerators : List RadioChannel :=
  [RadioChannel.One, RadioChannel.Two, RadioChannel.Three, RadioChannel.Four]

/-- Every pattern the constructor from intent can or into the header on top of the prefix
constant: the set and get bits, the four channel values and the command-ID patterns of the named
command types. -/
def PacketConstants.requestFieldPatterns (c : PacketConstants) : List Nat :=
  [c.SET_CMD_BIT, c.GET_CMD_BIT]
    ++ RadioChannel.enumerators.map (fun ch => castUInt32 ch.raw)
    ++ CommandType.named.map (fun t => (DeviceCommand.commandIdSwitch c t).1)

/-- The header and footer layout of the specification, as conditions on the constants of the
missing `DeviceCommand.h`: the constants are 32-bit words; the prefix and suffix constants lie
inside the delimiter mask; the suffix constant leaves the checksum field empty; the set/get,
command-ID and channel fields lie outside the delimiter field and outside the ack/nack field.
Nothing is said about `DEV_ACK_RESP`: the specification does not give the pattern that stands
for "acknowledged". -/
def PacketConstants.RequestLayout (c : PacketConstants) : Prop :=
  c.PACKET_PREFIX < 2 ^ 32 ∧ c.PACKET_SUFFIX < 2 ^ 32
    ∧ c.PACKET_PREFIX &&& c.PACKET_DELIMITER_MASK = c.PACKET_PREFIX
    ∧ c.PACKET_SUFFIX &&& c.PACKET_DELIMITER_MASK = c.PACKET_SUFFIX
    ∧ c.PACKET_SUFFIX &&& c.CHECKSUM_FIELD_MASK = 0
    ∧ ∀ x ∈ c.requestFieldPatterns,
        x < 2 ^ 32 ∧ x &&& c.PACKET_DELIMITER_MASK = 0 ∧ x &&& c.ACK_NACK_FIELD_MASK = 0

instance (c : PacketConstants) : Decidable c.RequestLayout := by
  unfold PacketConstants.RequestLayout
  exact inferInstance

/-- A single-bit corruption of a frame on the wire: bit `position % 8` (bit 0 the least
significant) of the byte at offset `position / 8` is inverted. -/
def flipBit (frame : List Nat) (position : Nat) : List Nat :=
  frame.set (position / 8) (frame.getD (position / 8) 0 ^^^ (1 <<< (position % 8)))

/-- Whether frame bit `position` (numbered as in `flipBit`) is a bit `IsRawPacketValid` looks at:
a header bit under `PACKET_DELIMITER_MASK` or `ACK_NACK_FIELD_MASK`, or a footer bit under
`PACKET_DELIMITER_MASK` or `CHECKSUM_FIELD_MASK`. Byte `j` of a big-endian word holds the word's
bits `8 * (3 - j) .. 8 * (3 - j) + 7`. -/
def PacketConstants.checkedBit (c : PacketConstants) (position : Nat) : Bool :=
  if position / 8 < 4 then
    (c.PACKET_DELIMITER_MASK ||| c.ACK_NACK_FIELD_MASK).testBit
      (8 * (3 - position / 8) + position % 8)
  else if 12 ≤ position / 8 then
    (c.PACKET_DELIMITER_MASK ||| c.CHECKSUM_FIELD_MASK).testBit
      (8 * (15 - position / 8) + position % 8)
  else false

/-! ### The transaction engine of `lib/RadioDevice.cc`

The USB driver (`FT_WritePipe`, `FT_ReadPipe` of the vendor library `ftd3xx.h`) and the mutex are
external. The driver is a parameter: a `Transport` answers every call from the history of the
command channel and the arguments of the call, so that every behaviour of the device and of the
bus is one value of `Transport`. The history is kept in the device state as `channelLog`, to
which each call of a driver or mutex function appends one event. -/

/-- Enumeration `ErrorFlags` (`ErrorFlags.h`). -/
inductive ErrorFlags
  | None | InvalidParameter | OperationUnsupported | Underflow | Overflow | ResourceUnavailable
  | PermissionDenied | NotResponding | NotInitialized | Unsuccessful | AlreadyRunning | Disposed
  | FramingError | ChecksumFailure | InvalidState
  deriving DecidableEq, Repr

/-- Macro `ERROR_FLAGS_SUCCESS` (`ErrorFlags.h`). -/
def ERROR_FLAGS_SUCCESS (status : ErrorFlags) : Bool := status == ErrorFlags.None

/-- Macro `ERROR_FLAGS_FAILURE` (`ErrorFlags.h`). -/
def ERROR_FLAGS_FAILURE (status : ErrorFlags) : Bool := status != ErrorFlags.None

/-- Status `FT_OK` of the vendor library: the value 0 of `FT_STATUS`. -/
def FT_OK : Nat := 0

/-- Macro `FT_FAILED` of the vendor library: `((status) != FT_OK)`. -/
def FT_FAILED (status : Nat) : Bool := status != FT_OK

/-- Member `CMD_READ_PIPE` of `RadioDevice`. -/
def CMD_READ_PIPE : Nat := 0x83

/-- Member `CMD_WRITE_PIPE` of `RadioDevice`. -/
def CMD_WRITE_PIPE : Nat := 0x03

/-- One call on the command channel: of the mutex `commandSyncObject`, or of the driver with the
pipe, the bytes handed over (for a write) and the length asked for. -/
inductive ChannelEvent
  | lock
  | unlock
  | writePipe (pipe : Nat) (buffer : List Nat) (length : Nat)
  | readPipe (pipe : Nat) (length : Nat)
  deriving DecidableEq, Repr

/-- The external driver. `FT_WritePipe log pipe buffer length` is the status the call returns
after the history `log`; `FT_ReadPipe log pipe length` is the status it returns and the contents
of the caller's buffer after the call. -/
structure Transport where
  FT_WritePipe : List ChannelEvent → Nat → List Nat → Nat → Nat
  FT_ReadPipe : List ChannelEvent → Nat → Nat → Nat × List Nat

/-- Class `RadioDevice`: the members the command channel reads or writes, and the history of
the command channel. -/
structure RadioDevice where
  isSetup : Bool
  ftStatus : Nat
  iqStreamSize : Nat
  channelLog : List ChannelEvent
  deriving DecidableEq, Repr

namespace RadioDevice

/-- `RadioDevice::CommandChannelTransmit`. -/
def CommandChannelTransmit (t : Transport) (dev : RadioDevice) (command : DeviceCommand) :
    RadioDevice × ErrorFlags :=
  let buf := command.ToSerializedBytes
  let ftStatus := t.FT_WritePipe dev.channelLog CMD_WRITE_PIPE buf 16
  let dev := { dev with
    ftStatus := ftStatus
    channelLog := dev.channelLog ++ [ChannelEvent.writePipe CMD_WRITE_PIPE buf 16] }
  if FT_FAILED ftStatus then (dev, ErrorFlags.Unsuccessful) else (dev, ErrorFlags.None)

/-- `RadioDevice::CommandChannelReceive`: the returned flag and the packet left in `response`. -/
def CommandChannelReceive (c : PacketConstants) (t : Transport) (dev : RadioDevice) :
    RadioDevice × ErrorFlags × DeviceCommand :=
  let bufferLength := 16
  let r := t.FT_ReadPipe dev.channelLog CMD_READ_PIPE bufferLength
  let responseFromDeviceByteBuffer := r.2
  let dev := { dev with
    ftStatus := r.1
    channelLog := dev.channelLog ++ [ChannelEvent.readPipe CMD_READ_PIPE bufferLength] }
  if FT_FAILED r.1 then
    (dev, ErrorFlags.Unsuccessful, DeviceCommand.ofRaw c 0 (CommandPayloadValue.ofWords 0 0) 0)
  else
    (dev, ErrorFlags.None, FromSerializedBytes c responseFromDeviceByteBuffer)

/-- `RadioDevice::CommandChannelTransact`: the returned flag and the packet left in
`response`. -/
def CommandChannelTransact (c : PacketConstants) (t : Transport) (dev : RadioDevice)
    (command : DeviceCommand) : RadioDevice × ErrorFlags × DeviceCommand :=
  let tx := CommandChannelTransmit t dev command
  if tx.2 ≠ ErrorFlags.None then (tx.1, tx.2, CreateInvalidResponse command)
  else CommandChannelReceive c t tx.1

/-- `RadioDevice::ProcessCommand`: the device afterwards and, when the call returns, the
returned flag with the value left in `responsePayload`. The result is `none` when the call does
not return: the `default:` label of the response-error `switch` is a `throw;` outside any
handler, which ends the program. After `commandSyncObject.unlock()` no statement changes the
device, so the device afterwards is the same on every path that reaches the unlock. -/
def ProcessCommand (c : PacketConstants) (t : Transport) (dev : RadioDevice)
    (commandType : CommandType) (radioChannel : Int) (isSetCommand : Bool)
    (commandPayload : CommandPayloadValue) :
    RadioDevice × Option (ErrorFlags × CommandPayloadValue) :=
  let responsePayload := CommandPayloadValue.default
  if !dev.isSetup then (dev, some (ErrorFlags.NotInitialized, responsePayload))
  else
    let created := CreateCommand c commandType ⟨radioChannel⟩ isSetCommand commandPayload
    if !created.1 then (dev, some (ErrorFlags.Unsuccessful, responsePayload))
    else
      let dev := { dev with channelLog := dev.channelLog ++ [ChannelEvent.lock] }
      let tr := CommandChannelTransact c t dev created.2
      let dev := { tr.1 with channelLog := tr.1.channelLog ++ [ChannelEvent.unlock] }
      (dev,
        if ERROR_FLAGS_FAILURE tr.2.1 then some (ErrorFlags.NotResponding, responsePayload)
        else
          let valid := tr.2.2.IsValid
          if !valid.1 then
            match valid.2 with
            | DeviceResponseError.ChecksumFailure =>
              some (ErrorFlags.ChecksumFailure, responsePayload)
            | DeviceResponseError.FramingError => some (ErrorFlags.FramingError, responsePayload)
            | DeviceResponseError.NotAcknowledged =>
              some (ErrorFlags.InvalidState, responsePayload)
            | _ => none
          else some (ErrorFlags.None, tr.2.2.GetPayloadValue))

end RadioDevice

/-- The 16 request bytes `ProcessCommand` hands to the driver: the serialization of the packet
built from the arguments of the call. -/
def requestBytes (c : PacketConstants) (commandType : CommandType) (radioChannel : Int)
    (isSetCommand : Bool) (commandPayload : CommandPayloadValue) : List Nat :=
  (DeviceCommand.ofIntent c commandType ⟨radioChannel⟩ isSetCommand
    commandPayload).ToSerializedBytes

/-- The status the driver returns to the write of a transaction started on `dev` with the
request `request`. -/
def Transport.writeStatus (t : Transport) (dev : RadioDevice) (request : List Nat) : Nat :=
  t.FT_WritePipe (dev.channelLog ++ [ChannelEvent.lock]) CMD_WRITE_PIPE request 16

/-- The status and the buffer contents the driver returns to the read of a transaction started
on `dev` with the request `request`. -/
def Transport.readResult (t : Transport) (dev : RadioDevice) (request : List Nat) :
    Nat × List Nat :=
  t.FT_ReadPipe
    (dev.channelLog ++ [ChannelEvent.lock, ChannelEvent.writePipe CMD_WRITE_PIPE request 16])
    CMD_READ_PIPE 16

/-- A driver that answers every write with `writeStatus` and every read with `readStatus` and
the buffer `readBuffer`, used to evaluate the engine at concrete inputs. -/
def Transport.constant (writeStatus readStatus : Nat) (readBuffer : List Nat) : Transport where
  FT_WritePipe := fun _ _ _ _ => writeStatus
  FT_ReadPipe := fun _ _ _ => (readStatus, readBuffer)

/-- A device in the state `SetupDevice` leaves on success (`isSetup = true`), with the initial
value of `iqStreamSize` and an empty history. -/
def RadioDevice.sampleSetUp : RadioDevice :=
  { isSetup := true, ftStatus := 0, iqStreamSize := 1048576, channelLog := [] }

/-- A device as constructed (`isSetup = false`, `iqStreamSize = MED_RATE_STREAM_SIZE_BYTES`),
with an empty history; `ftStatus`, which has no initializer, is taken as 0. -/
def RadioDevice.sampleNotSetUp : RadioDevice :=
  { isSetup := false, ftStatus := 0, iqStreamSize := 1048576, channelLog := [] }

/-! ### The parameter operations of `lib/RadioDevice.cc`

Each operation returns the device afterwards and, when the call returns, the returned flag with
the values left in its reference parameters; it is `none` when the transaction inside does not
return. -/

namespace RadioDevice

/-- Member `FAST_RATE_STREAM_SIZE_BYTES`. -/
def FAST_RATE_STREAM_SIZE_BYTES : Nat := 4194304

/-- Member `MED_RATE_STREAM_SIZE_BYTES`, the initial value of `iqStreamSize`. -/
def MED_RATE_STREAM_SIZE_BYTES : Nat := 1048576

/-- Member `MED_LOW_RATE_STREAM_SIZE_BYTES`. -/
def MED_LOW_RATE_STREAM_SIZE_BYTES : Nat := 262144

/-- Member `SLOW_RATE_STREAM_SIZE_BYTES`. -/
def SLOW_RATE_STREAM_SIZE_BYTES : Nat := 65536

/-- `RadioDevice::GetIQStreamSize`. -/
def GetIQStreamSize (dev : RadioDevice) : Nat := dev.iqStreamSize

/-- `RadioDevice::SetLOFrequency`, with `frequency` a `uint64_t`. -/
def SetLOFrequency (c : PacketConstants) (t : Transport) (dev : RadioDevice)
    (radioChannel : Int) (frequency : Nat) : RadioDevice × Option ErrorFlags :=
  if frequency < 70000000 ∨ frequency > 6000000000 then
    (dev, some ErrorFlags.InvalidParameter)
  else
    let r := ProcessCommand c t dev CommandType.LOFrequency radioChannel true
      (CommandPayloadValue.ofUInt64 frequency)
    (r.1, r.2.map fun x => x.1)

/-- The `if (sampleRate % 2 != 0)` block of `RadioDevice::GetSampleRate`, on the `uint64_t`
variable `sampleRate`: `+= 1` and `-= 1` are 64-bit operations. -/
def GetSampleRate.correct (sampleRate : Nat) : Nat :=
  if sampleRate % 2 ≠ 0 then
    if sampleRate &&& 0x02 = 0x02 then (sampleRate + 1) % 2 ^ 64
    else (sampleRate + (2 ^ 64 - 1)) % 2 ^ 64
  else sampleRate

/-- `RadioDevice::GetSampleRate`: the flag and the value left in `sampleRate`. -/
def GetSampleRate (c : PacketConstants) (t : Transport) (dev : RadioDevice)
    (radioChannel : Int) : RadioDevice × Option (ErrorFlags × Nat) :=
  let r := ProcessCommand c t dev CommandType.SampleRate radioChannel false
    CommandPayloadValue.default
  (r.1, r.2.map fun x => (x.1, GetSampleRate.correct x.2.GetAsUInt64))

/-- `RadioDevice::SetSampleRate`, with `sampleRate` a `uint64_t`. -/
def SetSampleRate (c : PacketConstants) (t : Transport) (dev : RadioDevice)
    (radioChannel : Int) (sampleRate : Nat) : RadioDevice × Option ErrorFlags :=
  let r := ProcessCommand c t dev CommandType.SampleRate radioChannel true
    (CommandPayloadValue.ofUInt64 sampleRate)
  match r.2 with
  | none => (r.1, none)
  | some (result, _) =>
    if ERROR_FLAGS_SUCCESS result then
      let optimalNewStreamSize :=
        if sampleRate ≤ 1000000 then SLOW_RATE_STREAM_SIZE_BYTES
        else if sampleRate ≤ 2000000 then MED_LOW_RATE_STREAM_SIZE_BYTES
        else if sampleRate < 30000000 then MED_RATE_STREAM_SIZE_BYTES
        else FAST_RATE_STREAM_SIZE_BYTES
      ({ r.1 with iqStreamSize := optimalNewStreamSize }, some result)
    else (r.1, some result)

/-- `RadioDevice::GetReferenceSource`: the flag and the value left in `isInternal`. -/
def GetReferenceSource (dev : RadioDevice) : RadioDevice × ErrorFlags × Bool :=
  (dev, ErrorFlags.OperationUnsupported, true)

/-- `RadioDevice::SetReferenceSource`. -/
def SetReferenceSource (dev : RadioDevice) (_isInternal : Bool) : RadioDevice × ErrorFlags :=
  (dev, ErrorFlags.OperationUnsupported)

/-- `RadioDevice::SetAdditionalAGCParameters`; the `int*` argument is a null pointer (`none`)
or an array. -/
def SetAdditionalAGCParameters (dev : RadioDevice) (_radioChannel : Int)
    (_paramList : Option (List Int)) : RadioDevice × ErrorFlags :=
  (dev, ErrorFlags.OperationUnsupported)

/-- `RadioDevice::GetERMSoftwareVersion`: the flag and the value left in `version`. -/
def GetERMSoftwareVersion (c : PacketConstants) (t : Transport) (dev : RadioDevice) :
    RadioDevice × Option (ErrorFlags × Nat) :=
  let version := 0
  let r := ProcessCommand c t dev CommandType.ERMVersion 0 false CommandPayloadValue.default
  (r.1, r.2.map fun x =>
    if ERROR_FLAGS_SUCCESS x.1 then (x.1, x.2.GetPayloadHigh &&& 0x00007FFF)
    else (x.1, version))

/-- `RadioDevice::GetERMHardwareVersion`: the flag and the value left in `version`. -/
def GetERMHardwareVersion (c : PacketConstants) (t : Transport) (dev : RadioDevice) :
    RadioDevice × Option (ErrorFlags × Nat) :=
  let version := 0
  let r := ProcessCommand c t dev CommandType.ERMVersion 0 false CommandPayloadValue.default
  (r.1, r.2.map fun x =>
    if ERROR_FLAGS_SUCCESS x.1 then (x.1, x.2.GetPayloadLow &&& 0x0000FFFF)
    else (x.1, version))

/-- `RadioDevice::GetFPGAType`: the flag and the value left in `type`. -/
def GetFPGAType (c : PacketConstants) (t : Transport) (dev : RadioDevice) :
    RadioDevice × Option (ErrorFlags × Nat) :=
  let type := 0
  let r := ProcessCommand c t dev CommandType.ERMVersion 0 false CommandPayloadValue.default
  (r.1, r.2.map fun x =>
    if ERROR_FLAGS_SUCCESS x.1 then (x.1, x.2.GetPayloadHigh >>> 16) else (x.1, type))

/-- `RadioDevice::IsDeviceInRecoveryMode`: the flag and the value left in
`isInRecoveryMode`. -/
def IsDeviceInRecoveryMode (c : PacketConstants) (t : Transport) (dev : RadioDevice) :
    RadioDevice × Option (ErrorFlags × Bool) :=
  let isInRecoveryMode := false
  let r := ProcessCommand c t dev CommandType.ERMVersion 0 false CommandPayloadValue.default
  (r.1, r.2.map fun x =>
    if ERROR_FLAGS_SUCCESS x.1 then
      let softwareVersionWord := x.2.GetPayloadHigh
      if softwareVersionWord &&& 0x00008000 = 0x00008000 then (x.1, true) else (x.1, false)
    else (x.1, isInRecoveryMode))

end RadioDevice

/-- Whether an event of the command channel is a write to the transport. -/
def ChannelEvent.isWrite : ChannelEvent → Bool
  | ChannelEvent.writePipe _ _ _ => true
  | _ => false

/-- The number of writes to the transport in a history: the number of transactions started. -/
def writeCount (log : List ChannelEvent) : Nat := log.countP ChannelEvent.isWrite

/-- A valid response frame under the sample constants, with payload
`(0x00038123, 0x00000042)`. -/
def sampleResponse : List Nat :=
  [0xA5, 0x00, 0x01, 0x40, 0x00, 0x03, 0x81, 0x23, 0x00, 0x00, 0x00, 0x42, 0x5A, 0x00, 0x00, 0x00]

/-! ### Further operations of `lib/RadioDevice.cc` -/

/-- The `(uint64_t)` cast of a signed `int`. -/
def castUInt64 (value : Int) : Nat := (value % 2 ^ 64).toNat

/-! ### The C type `float`

`SetTransmitAttenuation` and `GetDeviceTemperature` compute with `float`. The model below is
the IEEE-754 binary32 format with the default rounding, the arithmetic of `float` where an
expression of type `float` is evaluated in its own format. -/

/-- Floor of the binary logarithm, by halving; `fuel` bounds the number of halvings and the
callers pass `n` itself. -/
def ilog2 : Nat → Nat → Nat
  | 0, _ => 0
  | fuel + 1, n => if n < 2 then 0 else ilog2 fuel (n / 2) + 1

/-- The quotient `n / d` rounded to the nearest integer, a tie to the even one. -/
def roundHalfEven (n d : Nat) : Nat :=
  let q := n / d
  let r := n % d
  if 2 * r < d then q else if d < 2 * r then q + 1 else if q % 2 = 0 then q else q + 1

/-- A value of the C type `float` in the IEEE-754 binary32 format: a NaN, an infinity, or the
finite value `(-1)^negative * units * 2^(-149)`. Every finite binary32 value is a whole number
of units, `2^(-149)` being the smallest positive one; the largest is `(2^24 - 1) * 2^253`
units. The two zeros are `finite false 0` and `finite true 0`. -/
inductive Binary32
  | nan
  | inf (negative : Bool)
  | finite (negative : Bool) (units : Nat)
  deriving DecidableEq, Repr

namespace Binary32

/-- Rounding of the real number `(-1)^negative * (n / d) * 2^(-149)`, `d > 0`, to binary32, to
nearest with ties to even: a binary32 value has 24 significant bits, so the spacing is one unit
below `2^24` units (the subnormal numbers and the first binade) and `2^s` units in the binade
that starts at `2^(23 + s)` units; a result above the largest finite value is an infinity. -/
def round (negative : Bool) (n d : Nat) : Binary32 :=
  let q := n / d
  let s := if q < 2 ^ 24 then 0 else ilog2 q q - 23
  let m := roundHalfEven n (d * 2 ^ s)
  if (2 ^ 24 - 1) * 2 ^ 253 < m * 2 ^ s then inf negative else finite negative (m * 2 ^ s)

/-- Conversion of an `int` to `float`. -/
def ofInt (value : Int) : Binary32 :=
  round (decide (value < 0)) (value.natAbs * 2 ^ 149) 1

/-- The operator `*` on `float`. -/
def mul : Binary32 → Binary32 → Binary32
  | nan, _ => nan
  | _, nan => nan
  | inf a, inf b => inf (xor a b)
  | inf a, finite b y => if y = 0 then nan else inf (xor a b)
  | finite a x, inf b => if x = 0 then nan else inf (xor a b)
  | finite a x, finite b y => round (xor a b) (x * y) (2 ^ 149)

/-- The operator `/` on `float`. -/
def div : Binary32 → Binary32 → Binary32
  | nan, _ => nan
  | _, nan => nan
  | inf _, inf _ => nan
  | inf a, finite b _ => inf (xor a b)
  | finite a _, inf b => finite (xor a b) 0
  | finite a x, finite b y =>
    if y = 0 then (if x = 0 then nan else inf (xor a b))
    else round (xor a b) (x * 2 ^ 149) y

/-- The operator `<=` on `float`: false when an operand is a NaN; the two zeros are equal. -/
def le : Binary32 → Binary32 → Bool
  | nan, _ => false
  | _, nan => false
  | inf a, inf b => a || !b
  | inf a, finite _ _ => a
  | finite _ _, inf b => !b
  | finite a x, finite b y =>
    match a, b with
    | false, false => decide (x ≤ y)
    | true, true => decide (y ≤ x)
    | true, false => true
    | false, true => decide (x = 0 ∧ y = 0)

/-- The operator `>=` on `float`. -/
def ge (a b : Binary32) : Bool := le b a

/-- Conversion of a `float` to `int`: the value with its fraction discarded. The behaviour is
undefined (`none`) for a NaN, an infinity and a value whose integral part is no `int`. -/
def toInt : Binary32 → Option Int
  | nan => none
  | inf _ => none
  | finite false x => if x / 2 ^ 149 < 2 ^ 31 then some ((x / 2 ^ 149 : Nat) : Int) else none
  | finite true x => if x / 2 ^ 149 ≤ 2 ^ 31 then some (-((x / 2 ^ 149 : Nat) : Int)) else none

end Binary32

/-- Enumeration `IQChannelConfig` (`RadioDevice.h`), kept as its numeric value. -/
structure IQChannelConfig where
  raw : Nat
  deriving DecidableEq, Repr

/-- The twelve enumerators of `IQChannelConfig`, `Default = 0` to `R3T1 = 11`, in the order of
the declaration. -/
def IQChannelConfig.enumerators : List IQChannelConfig :=
  (List.range 12).map IQChannelConfig.mk

namespace RadioDevice

/-- `RadioDevice::InitDevice`. -/
def InitDevice (c : PacketConstants) (t : Transport) (dev : RadioDevice) :
    RadioDevice × Option ErrorFlags :=
  let r := ProcessCommand c t dev CommandType.InitDevice 0 true CommandPayloadValue.default
  (r.1, r.2.map fun x => x.1)

/-- `RadioDevice::ResetDevice`; the body does not mention `softReset`. -/
def ResetDevice (c : PacketConstants) (t : Transport) (dev : RadioDevice) (_softReset : Bool) :
    RadioDevice × Option ErrorFlags :=
  let r := ProcessCommand c t dev CommandType.Reset 0 true CommandPayloadValue.default
  match r.2 with
  | none => (r.1, none)
  | some (result, _) =>
    if ERROR_FLAGS_SUCCESS result then InitDevice c t r.1 else (r.1, some result)

/-- `RadioDevice::GetMultiplexMode`: the flag and the values left in `isTDM` and
`channelConfig`. -/
def GetMultiplexMode (c : PacketConstants) (t : Transport) (dev : RadioDevice) :
    RadioDevice × Option (ErrorFlags × Bool × IQChannelConfig) :=
  let r := ProcessCommand c t dev CommandType.MultiplexMode 0 false CommandPayloadValue.default
  (r.1, r.2.map fun x =>
    let channelConfig : IQChannelConfig := ⟨x.2.GetPayloadHigh⟩
    let isTDM := x.2.GetAsBool
    (x.1, isTDM, channelConfig))

/-- `RadioDevice::SetMultiplexMode`, with the payload
`CommandPayloadValue((uint32_t)channelConfig, (uint32_t)isTDM)`. -/
def SetMultiplexMode (c : PacketConstants) (t : Transport) (dev : RadioDevice) (isTDM : Bool)
    (channelConfig : IQChannelConfig) : RadioDevice × Option ErrorFlags :=
  let r := ProcessCommand c t dev CommandType.MultiplexMode 0 true
    (CommandPayloadValue.ofWords (channelConfig.raw % 2 ^ 32) (if isTDM then 1 else 0))
  (r.1, r.2.map fun x => x.1)

/-- `RadioDevice::GetDeviceStatus`: the flag and the numeric value of the enumeration value
left in `deviceStatus`. -/
def GetDeviceStatus (c : PacketConstants) (t : Transport) (dev : RadioDevice) :
    RadioDevice × Option (ErrorFlags × Int) :=
  let r := ProcessCommand c t dev CommandType.DeviceStatus 0 false CommandPayloadValue.default
  (r.1, r.2.map fun x => (x.1, x.2.GetAsInt32))

/-- `RadioDevice::GetLOFrequency`: the flag and the value left in `frequency`. -/
def GetLOFrequency (c : PacketConstants) (t : Transport) (dev : RadioDevice)
    (radioChannel : Int) : RadioDevice × Option (ErrorFlags × Nat) :=
  let r := ProcessCommand c t dev CommandType.LOFrequency radioChannel false
    CommandPayloadValue.default
  (r.1, r.2.map fun x => (x.1, x.2.GetAsUInt64))

/-- `RadioDevice::GetGain`: the flag and the value left in `gain`. -/
def GetGain (c : PacketConstants) (t : Transport) (dev : RadioDevice) (radioChannel : Int) :
    RadioDevice × Option (ErrorFlags × Int) :=
  let r := ProcessCommand c t dev CommandType.Gain radioChannel false
    CommandPayloadValue.default
  (r.1, r.2.map fun x => (x.1, x.2.GetAsInt32))

/-- The request payload of `RadioDevice::SetGain`: `CommandPayloadValue((uint64_t)gain)`, the
64-bit constructor applied to the converted `int`. -/
def SetGain.payload (gain : Int) : CommandPayloadValue :=
  CommandPayloadValue.ofUInt64 (castUInt64 gain)

/-- `RadioDevice::SetGain`. -/
def SetGain (c : PacketConstants) (t : Transport) (dev : RadioDevice) (radioChannel : Int)
    (gain : Int) : RadioDevice × Option ErrorFlags :=
  let r := ProcessCommand c t dev CommandType.Gain radioChannel true (SetGain.payload gain)
  (r.1, r.2.map fun x => x.1)

/-- `RadioDevice::GetGainMode`: the flag and the numeric value of the enumeration value left
in `gainMode`. -/
def GetGainMode (c : PacketConstants) (t : Transport) (dev : RadioDevice) (radioChannel : Int) :
    RadioDevice × Option (ErrorFlags × Int) :=
  let r := ProcessCommand c t dev CommandType.GainMode radioChannel false
    CommandPayloadValue.default
  (r.1, r.2.map fun x => (x.1, x.2.GetAsInt32))

/-- The request payload of `RadioDevice::GetTransmitAttenuation`. The argument is
`new CommandPayloadValue(0)`, a pointer, where a `CommandPayloadValue` is expected: of the
converting constructors only the `bool` one accepts a pointer, and a pointer returned by `new`
is not null, so the argument is `CommandPayloadValue(true)`. -/
def GetTransmitAttenuation.payload : CommandPayloadValue := CommandPayloadValue.ofBool true

/-- The transaction of `RadioDevice::GetTransmitAttenuation`, with the `int` read from the
response (`tempAttenuation`); the division by `1000.0f` that follows does not bear on the
request and is left out here. -/
def GetTransmitAttenuation.transaction (c : PacketConstants) (t : Transport)
    (dev : RadioDevice) (radioChannel : Int) : RadioDevice × Option (ErrorFlags × Int) :=
  let r := ProcessCommand c t dev CommandType.Gain radioChannel false
    GetTransmitAttenuation.payload
  (r.1, r.2.map fun x => (x.1, x.2.GetAsInt32))

/-- Constant `MIN_ATTENUATION = 0.0f` (`RadioDevice.h`). -/
def MIN_ATTENUATION : Binary32 := Binary32.finite false 0

/-- Constant `MAX_ATTENUATION = 89.75f` (`RadioDevice.h`): `89.75 = 359 * 2^(-2)`, that is
`359 * 2^147` units. -/
def MAX_ATTENUATION : Binary32 := Binary32.finite false (359 * 2 ^ 147)

/-- `RadioDevice::SetTransmitAttenuation`. In `attenuation * 1000` the `int` 1000 is converted
to `float` and the product is a `float`; the result is `none` where the conversion
`(int)(...)` has no defined behaviour. -/
def SetTransmitAttenuation (c : PacketConstants) (t : Transport) (dev : RadioDevice)
    (radioChannel : Int) (attenuation : Binary32) : RadioDevice × Option ErrorFlags :=
  if Binary32.ge attenuation MIN_ATTENUATION && Binary32.le attenuation MAX_ATTENUATION then
    match Binary32.toInt (Binary32.mul attenuation (Binary32.ofInt 1000)) with
    | none => (dev, none)
    | some attenIndex =>
      let r := ProcessCommand c t dev CommandType.Gain radioChannel true
        (CommandPayloadValue.ofInt attenIndex)
      (r.1, r.2.map fun x => x.1)
  else (dev, some ErrorFlags.InvalidParameter)

/-- `RadioDevice::GetComplexBandwidth`: the flag and the value left in `bandwidth`. -/
def GetComplexBandwidth (c : PacketConstants) (t : Transport) (dev : RadioDevice)
    (radioChannel : Int) : RadioDevice × Option (ErrorFlags × Nat) :=
  let r := ProcessCommand c t dev CommandType.Bandwidth radioChannel false
    CommandPayloadValue.default
  (r.1, r.2.map fun x => (x.1, x.2.GetAsUInt64))

/-- The transaction of `RadioDevice::GetDeviceTemperature`, with the `int` read from the
response; `GetDeviceTemperature` below adds the arithmetic on `float` that follows. -/
def GetDeviceTemperature.transaction (c : PacketConstants) (t : Transport)
    (dev : RadioDevice) : RadioDevice × Option (ErrorFlags × Int) :=
  let r := ProcessCommand c t dev CommandType.Temperature 0 false CommandPayloadValue.default
  (r.1, r.2.map fun x => (x.1, x.2.GetAsInt32))

/-- `RadioDevice::GetDeviceTemperature`: the flag and the value left in `tempCelsius`. The
literal `1000.0f` is `1000 * 2^149` units and `-99.0f` is `99 * 2^149` units with the sign
set. -/
def GetDeviceTemperature (c : PacketConstants) (t : Transport) (dev : RadioDevice) :
    RadioDevice × Option (ErrorFlags × Binary32) :=
  let r := ProcessCommand c t dev CommandType.Temperature 0 false CommandPayloadValue.default
  (r.1, r.2.map fun x =>
    let tempCelsius :=
      Binary32.div (Binary32.ofInt x.2.GetAsInt32) (Binary32.finite false (1000 * 2 ^ 149))
    if ERROR_FLAGS_FAILURE x.1 then (x.1, Binary32.finite true (99 * 2 ^ 149))
    else (x.1, tempCelsius))

/-- A device as the class constructs it: `isSetup = false`,
`iqStreamSize = MED_RATE_STREAM_SIZE_BYTES`, no call made yet; `ftStatus` has no initializer. -/
def constructed (ftStatus : Nat) : RadioDevice :=
  { isSetup := false, ftStatus := ftStatus, iqStreamSize := MED_RATE_STREAM_SIZE_BYTES,
    channelLog := [] }

end RadioDevice

/-- One call a client makes on a `RadioDevice`, with the driver that answers during the call.
The operations embedded above are listed by name. `transaction` is one call of
`ProcessCommand` with any arguments: the remaining operations that talk to the device over the
command channel (`SetGainMode`, `SetTransmitAttenuation`, `SetComplexBandwidth`,
`StartCapture`, `StopCapture`, `StartTransmit`, `StopTransmit`) make at most one such call and
then assign `isCaptureEnabled` or `isTransmitEnabled` only. `driver` stands for the operations
that call the driver outside the command channel (`Setup`, `CloseDevice`, `ReceiveSamples`,
`TransmitSamples`): of the members of the embedding they assign `isSetup` and `ftStatus`
only. -/
inductive Operation
  | transaction (t : Transport) (commandType : CommandType) (radioChannel : Int)
      (isSetCommand : Bool) (commandPayload : CommandPayloadValue)
  | driver (isSetup : Bool) (ftStatus : Nat)
  | InitDevice (t : Transport)
  | ResetDevice (t : Transport) (softReset : Bool)
  | GetMultiplexMode (t : Transport)
  | SetMultiplexMode (t : Transport) (isTDM : Bool) (channelConfig : IQChannelConfig)
  | GetDeviceStatus (t : Transport)
  | GetLOFrequency (t : Transport) (radioChannel : Int)
  | SetLOFrequency (t : Transport) (radioChannel : Int) (frequency : Nat)
  | GetGain (t : Transport) (radioChannel : Int)
  | SetGain (t : Transport) (radioChannel : Int) (gain : Int)
  | GetGainMode (t : Transport) (radioChannel : Int)
  | GetTransmitAttenuation (t : Transport) (radioChannel : Int)
  | GetComplexBandwidth (t : Transport) (radioChannel : Int)
  | GetSampleRate (t : Transport) (radioChannel : Int)
  | SetSampleRate (t : Transport) (radioChannel : Int) (sampleRate : Nat)
  | GetDeviceTemperature (t : Transport)
  | GetReferenceSource
  | SetReferenceSource (isInternal : Bool)
  | SetAdditionalAGCParameters (radioChannel : Int) (paramList : Option (List Int))
  | GetERMSoftwareVersion (t : Transport)
  | GetERMHardwareVersion (t : Transport)
  | GetFPGAType (t : Transport)
  | IsDeviceInRecoveryMode (t : Transport)

/-- The device after one call. -/
def Operation.apply (c : PacketConstants) (dev : RadioDevice) : Operation → RadioDevice
  | Operation.transaction t commandType radioChannel isSetCommand commandPayload =>
    (RadioDevice.ProcessCommand c t dev commandType radioChannel isSetCommand commandPayload).1
  | Operation.driver isSetup ftStatus => { dev with isSetup := isSetup, ftStatus := ftStatus }
  | Operation.InitDevice t => (RadioDevice.InitDevice c t dev).1
  | Operation.ResetDevice t softReset => (RadioDevice.ResetDevice c t dev softReset).1
  | Operation.GetMultiplexMode t => (RadioDevice.GetMultiplexMode c t dev).1
  | Operation.SetMultiplexMode t isTDM channelConfig =>
    (RadioDevice.SetMultiplexMode c t dev isTDM channelConfig).1
  | Operation.GetDeviceStatus t => (RadioDevice.GetDeviceStatus c t dev).1
  | Operation.GetLOFrequency t radioChannel => (RadioDevice.GetLOFrequency c t dev radioChannel).1
  | Operation.SetLOFrequency t radioChannel frequency =>
    (RadioDevice.SetLOFrequency c t dev radioChannel frequency).1
  | Operation.GetGain t radioChannel => (RadioDevice.GetGain c t dev radioChannel).1
  | Operation.SetGain t radioChannel gain => (RadioDevice.SetGain c t dev radioChannel gain).1
  | Operation.GetGainMode t radioChannel => (RadioDevice.GetGainMode c t dev radioChannel).1
  | Operation.GetTransmitAttenuation t radioChannel =>
    (RadioDevice.GetTransmitAttenuation.transaction c t dev radioChannel).1
  | Operation.GetComplexBandwidth t radioChannel =>
    (RadioDevice.GetComplexBandwidth c t dev radioChannel).1
  | Operation.GetSampleRate t radioChannel => (RadioDevice.GetSampleRate c t dev radioChannel).1
  | Operation.SetSampleRate t radioChannel sampleRate =>
    (RadioDevice.SetSampleRate c t dev radioChannel sampleRate).1
  | Operation.GetDeviceTemperature t => (RadioDevice.GetDeviceTemperature.transaction c t dev).1
  | Operation.GetReferenceSource => (RadioDevice.GetReferenceSource dev).1
  | Operation.SetReferenceSource isInternal => (RadioDevice.SetReferenceSource dev isInternal).1
  | Operation.SetAdditionalAGCParameters radioChannel paramList =>
    (RadioDevice.SetAdditionalAGCParameters dev radioChannel paramList).1
  | Operation.GetERMSoftwareVersion t => (RadioDevice.GetERMSoftwareVersion c t dev).1
  | Operation.GetERMHardwareVersion t => (RadioDevice.GetERMHardwareVersion c t dev).1
  | Operation.GetFPGAType t => (RadioDevice.GetFPGAType c t dev).1
  | Operation.IsDeviceInRecoveryMode t => (RadioDevice.IsDeviceInRecoveryMode c t dev).1

/-- The device after a sequence of steps. -/
def runOperations (c : PacketConstants) (ops : List Operation) (dev : RadioDevice) :
    RadioDevice :=
  ops.foldl (Operation.apply c) dev

end THR

/-! ### The sample conversion of `lib/sabr_sink_impl.cc` and `lib/sabr_source_impl.cc` -/

namespace sabrSDR

/-- The `(uint8_t)` cast of an `int`. -/
def castUInt8 (value : Int) : Nat := (value % 2 ^ 8).toNat

/-- The conversion of an `int` to `short`. -/
def castInt16 (value : Int) : Int :=
  if value % 2 ^ 16 < 2 ^ 15 then value % 2 ^ 16 else value % 2 ^ 16 - 2 ^ 16

/-- The body of the inner loop of `sabr_sink_impl::work`: the four bytes written at `byteIndex`
for the `short` values `currI` and `currQ` (`>>` on a negative `short` is the arithmetic
shift). -/
def sabr_sink_impl.sampleBytes (currI currQ : Int) : List Nat :=
  [castUInt8 (currI >>> (8 : Nat)), castUInt8 currI, castUInt8 (currQ >>> (8 : Nat)),
    castUInt8 currQ]

/-- The body of the loop of `sabr_source_impl::work`: the `short` values `currI` and `currQ`
read at `currIndex` of `rawSamples`. The elements are `uint8_t`, so the `int` operands of `<<`
and `|` are not negative and the two operators are taken on `Nat`. -/
def sabr_source_impl.sample (rawSamples : List Nat) (currIndex : Nat) : Int × Int :=
  let currI := castInt16
    ((rawSamples.getD currIndex 0 <<< 8 ||| rawSamples.getD (currIndex + 1) 0 : Nat) : Int)
  let currQ := castInt16
    ((rawSamples.getD (currIndex + 2) 0 <<< 8 ||| rawSamples.getD (currIndex + 3) 0 : Nat) : Int)
  (currI, currQ)

end sabrSDR

/-! ## Word codec: auxiliary facts -/

namespace BinaryConverter

/-- A value below `2 ^ i` or-ed under a multiple of `2 ^ i` is added to it. -/
theorem or_eq_add_of_lt (a b i : Nat) (hb : b < 2 ^ i) : (2 ^ i * a) ||| b = 2 ^ i * a + b :=
  (Nat.mul_add_lt_is_or hb a).symm

/-- The decoded word of four bytes, as a sum of weighted bytes. -/
theorem ToUInt32_bytes (b0 b1 b2 b3 : Nat) (h0 : b0 < 2 ^ 8) (h1 : b1 < 2 ^ 8)
    (h2 : b2 < 2 ^ 8) (h3 : b3 < 2 ^ 8) :
    ToUInt32 [b0, b1, b2, b3] = 2 ^ 24 * b0 + 2 ^ 16 * b1 + 2 ^ 8 * b2 + b3 := by
  have e0 : (b0 <<< 24) % 2 ^ 32 = 2 ^ 24 * b0 := by rw [Nat.shiftLeft_eq]; omega
  have e1 : (b1 <<< 16) % 2 ^ 32 = 2 ^ 16 * b1 := by rw [Nat.shiftLeft_eq]; omega
  have e2 : (b2 <<< 8) % 2 ^ 32 = 2 ^ 8 * b2 := by rw [Nat.shiftLeft_eq]; omega
  have e3 : b3 % 2 ^ 32 = b3 := by omega
  simp only [ToUInt32, List.getD_cons_zero, List.getD_cons_succ, e0, e1, e2, e3]
  rw [or_eq_add_of_lt b0 (2 ^ 16 * b1) 24 (by omega)]
  have r1 : 2 ^ 24 * b0 + 2 ^ 16 * b1 = 2 ^ 16 * (2 ^ 8 * b0 + b1) := by omega
  rw [r1, or_eq_add_of_lt _ (2 ^ 8 * b2) 16 (by omega)]
  have r2 : 2 ^ 16 * (2 ^ 8 * b0 + b1) + 2 ^ 8 * b2
      = 2 ^ 8 * (2 ^ 16 * b0 + 2 ^ 8 * b1 + b2) := by
    omega
  rw [r2, or_eq_add_of_lt _ b3 8 (by omega)]
  omega

/-- Every entry of an encoded word is a byte. -/
theorem GetBytes_lt (w x : Nat) (hx : x ∈ GetBytes w) : x < 2 ^ 8 := by
  simp only [GetBytes, List.mem_cons, List.mem_singleton, List.not_mem_nil, or_false] at hx
  rcases hx with h | h | h | h <;> rw [h] <;> exact Nat.mod_lt _ (by norm_num)

/-- Decoding the encoding of a 32-bit word gives the word back. -/
theorem ToUInt32_GetBytes (w : Nat) (hw : w < 2 ^ 32) : ToUInt32 (GetBytes w) = w := by
  have s24 : w >>> 24 = w / 2 ^ 24 := Nat.shiftRight_eq_div_pow w 24
  have s16 : w >>> 16 = w / 2 ^ 16 := Nat.shiftRight_eq_div_pow w 16
  have s8 : w >>> 8 = w / 2 ^ 8 := Nat.shiftRight_eq_div_pow w 8
  unfold GetBytes
  rw [ToUInt32_bytes _ _ _ _ (Nat.mod_lt _ (by norm_num)) (Nat.mod_lt _ (by norm_num))
    (Nat.mod_lt _ (by norm_num)) (Nat.mod_lt _ (by norm_num)), s24, s16, s8]
  omega

/-- Encoding the word decoded from four bytes gives the bytes back. -/
theorem GetBytes_ToUInt32_bytes (b0 b1 b2 b3 : Nat) (h0 : b0 < 2 ^ 8) (h1 : b1 < 2 ^ 8)
    (h2 : b2 < 2 ^ 8) (h3 : b3 < 2 ^ 8) :
    GetBytes (ToUInt32 [b0, b1, b2, b3]) = [b0, b1, b2, b3] := by
  rw [ToUInt32_bytes b0 b1 b2 b3 h0 h1 h2 h3]
  simp only [GetBytes, Nat.shiftRight_eq_div_pow]
  have q0 : (2 ^ 24 * b0 + 2 ^ 16 * b1 + 2 ^ 8 * b2 + b3) / 2 ^ 24 % 2 ^ 8 = b0 := by omega
  have q1 : (2 ^ 24 * b0 + 2 ^ 16 * b1 + 2 ^ 8 * b2 + b3) / 2 ^ 16 % 2 ^ 8 = b1 := by omega
  have q2 : (2 ^ 24 * b0 + 2 ^ 16 * b1 + 2 ^ 8 * b2 + b3) / 2 ^ 8 % 2 ^ 8 = b2 := by omega
  have q3 : (2 ^ 24 * b0 + 2 ^ 16 * b1 + 2 ^ 8 * b2 + b3) % 2 ^ 8 = b3 := by omega
  rw [q0, q1, q2, q3]

/-- Bit `i` of a decoded word is bit `i % 8` of the byte at offset `3 - i / 8`. -/
theorem ToUInt32_testBit (b0 b1 b2 b3 : Nat) (h0 : b0 < 2 ^ 8) (h1 : b1 < 2 ^ 8)
    (h2 : b2 < 2 ^ 8) (h3 : b3 < 2 ^ 8) (i : Nat) :
    (ToUInt32 [b0, b1, b2, b3]).testBit i
      = if i < 8 then b3.testBit i else if i < 16 then b2.testBit (i - 8)
        else if i < 24 then b1.testBit (i - 16) else b0.testBit (i - 24) := by
  have e : 2 ^ 24 * b0 + 2 ^ 16 * b1 + 2 ^ 8 * b2 + b3
      = 2 ^ 8 * (2 ^ 8 * (2 ^ 8 * b0 + b1) + b2) + b3 := by omega
  rw [ToUInt32_bytes b0 b1 b2 b3 h0 h1 h2 h3, e, Nat.testBit_mul_pow_two_add _ h3]
  by_cases c1 : i < 8
  · rw [if_pos c1, if_pos c1]
  · rw [if_neg c1, if_neg c1, Nat.testBit_mul_pow_two_add _ h2]
    by_cases c2 : i < 16
    · have p2 : i - 8 < 8 := by omega
      rw [if_pos c2, if_pos p2]
    · have n2 : ¬ (i - 8 < 8) := by omega
      rw [if_neg c2, if_neg n2, Nat.testBit_mul_pow_two_add _ h1]
      by_cases c3 : i < 24
      · have p3 : i - 8 - 8 < 8 := by omega
        have e2 : i - 8 - 8 = i - 16 := by omega
        rw [if_pos c3, if_pos p3, e2]
      · have n3 : ¬ (i - 8 - 8 < 8) := by omega
        have e3 : i - 8 - 8 - 8 = i - 24 := by omega
        rw [if_neg c3, if_neg n3, e3]

/-- A byte with one of its eight bits inverted is a byte. -/
theorem xor_two_pow_lt (b k : Nat) (hb : b < 2 ^ 8) (hk : k < 8) : b ^^^ 2 ^ k < 2 ^ 8 :=
  Nat.xor_lt_two_pow hb (Nat.pow_lt_pow_right (by norm_num) hk)

/-- Inverting bit `k` of the byte at offset `m` of a 4-byte array inverts bit
`8 * (3 - m) + k` of the decoded word. -/
theorem ToUInt32_flip (b0 b1 b2 b3 k : Nat) (h0 : b0 < 2 ^ 8) (h1 : b1 < 2 ^ 8)
    (h2 : b2 < 2 ^ 8) (h3 : b3 < 2 ^ 8) (hk : k < 8) :
    ToUInt32 [b0 ^^^ 2 ^ k, b1, b2, b3] = ToUInt32 [b0, b1, b2, b3] ^^^ 2 ^ (24 + k)
    ∧ ToUInt32 [b0, b1 ^^^ 2 ^ k, b2, b3] = ToUInt32 [b0, b1, b2, b3] ^^^ 2 ^ (16 + k)
    ∧ ToUInt32 [b0, b1, b2 ^^^ 2 ^ k, b3] = ToUInt32 [b0, b1, b2, b3] ^^^ 2 ^ (8 + k)
    ∧ ToUInt32 [b0, b1, b2, b3 ^^^ 2 ^ k] = ToUInt32 [b0, b1, b2, b3] ^^^ 2 ^ k := by
  have x0 := xor_two_pow_lt b0 k h0 hk
  have x1 := xor_two_pow_lt b1 k h1 hk
  have x2 := xor_two_pow_lt b2 k h2 hk
  have x3 := xor_two_pow_lt b3 k h3 hk
  refine ⟨?_, ?_, ?_, ?_⟩ <;>
  · apply Nat.eq_of_testBit_eq
    intro i
    simp only [Nat.testBit_xor, Nat.testBit_two_pow, ToUInt32_testBit, h0, h1, h2, h3, x0, x1,
      x2, x3]
    split_ifs
    all_goals first
      | rfl
      | (have hd : ¬ (24 + k = i) := by omega
         simp only [hd, decide_False, Bool.xor_false])
      | (have hd : ¬ (16 + k = i) := by omega
         simp only [hd, decide_False, Bool.xor_false])
      | (have hd : ¬ (8 + k = i) := by omega
         simp only [hd, decide_False, Bool.xor_false])
      | (have hd : ¬ (k = i) := by omega
         simp only [hd, decide_False, Bool.xor_false])
      | (have hd : (k = i - 24) = (24 + k = i) := by apply propext; omega
         simp only [hd])
      | (have hd : (k = i - 16) = (16 + k = i) := by apply propext; omega
         simp only [hd])
      | (have hd : (k = i - 8) = (8 + k = i) := by apply propext; omega
         simp only [hd])

/-- Inverting bit `n` of a word leaves its masked value alone exactly when the mask does not
cover bit `n`. -/
theorem xor_two_pow_and_eq_iff (x m n : Nat) :
    (x ^^^ 2 ^ n) &&& m = x &&& m ↔ m.testBit n = false := by
  constructor
  · intro h
    have hb := congrArg (fun y => Nat.testBit y n) h
    simp only [Nat.testBit_and, Nat.testBit_xor, Nat.testBit_two_pow_self] at hb
    cases hx : x.testBit n <;> cases hm : m.testBit n <;> simp_all
  · intro h
    apply Nat.eq_of_testBit_eq
    intro i
    simp only [Nat.testBit_and, Nat.testBit_xor, Nat.testBit_two_pow]
    by_cases hi : n = i
    · subst hi
      simp [h]
    · simp [hi]

/-- The same, for a word whose masked value is known. -/
theorem masked_flip_iff (x m n v : Nat) (hx : x &&& m = v) :
    (x ^^^ 2 ^ n) &&& m = v ↔ m.testBit n = false := by
  rw [← hx]
  exact xor_two_pow_and_eq_iff x m n

/-- Or-ing in a pattern that lies outside a mask does not change the masked value. -/
theorem or_and_of_and_zero (a b m : Nat) (hb : b &&& m = 0) : (a ||| b) &&& m = a &&& m := by
  rw [Nat.and_comm, Nat.and_or_distrib_left, Nat.and_comm m b, hb, Nat.or_zero, Nat.and_comm]

end BinaryConverter

/-! ## Command packet: auxiliary facts -/

namespace THR

open BinaryConverter DeviceCommand

/-- The verdict of the constructor from raw words, in terms of the four checks. -/
theorem ofRaw_isValid_iff (c : PacketConstants) (h : Nat) (p : CommandPayloadValue) (f : Nat) :
    (DeviceCommand.ofRaw c h p f).isValid = true
      ↔ (c.CHECKSUM_FIELD_MASK &&& f = 0 ∧ h &&& c.PACKET_DELIMITER_MASK = c.PACKET_PREFIX
          ∧ f &&& c.PACKET_DELIMITER_MASK = c.PACKET_SUFFIX
          ∧ h &&& c.ACK_NACK_FIELD_MASK = c.DEV_ACK_RESP) := by
  simp only [DeviceCommand.ofRaw, IsRawPacketValid, CalculateChecksum]
  split_ifs <;> simp_all [eq_comm]

/-- The constructor from raw words reports no error exactly when it reports a valid packet. -/
theorem ofRaw_error_none_iff (c : PacketConstants) (h : Nat) (p : CommandPayloadValue)
    (f : Nat) :
    (DeviceCommand.ofRaw c h p f).responseError = DeviceResponseError.None
      ↔ (DeviceCommand.ofRaw c h p f).isValid = true := by
  simp only [DeviceCommand.ofRaw, IsRawPacketValid]
  split_ifs <;> simp_all

/-- A named command type is a member of the list of named command types. -/
theorem named_mem (t : CommandType) (ht : t.isNamed = true) : t ∈ CommandType.named := by
  cases t <;> simp_all [CommandType.isNamed, CommandType.named]

/-- The serialized packet is the concatenation of the four encoded words. -/
theorem ToSerializedBytes_eq_append (d : DeviceCommand) :
    d.ToSerializedBytes = GetBytes d.header ++ (GetBytes d.payloadValue.payloadHigh
      ++ (GetBytes d.payloadValue.payloadLow ++ GetBytes d.footer)) := by
  simp [DeviceCommand.ToSerializedBytes, CommandPayloadValue.ToSerializedBytes, GetBytes,
    List.range, List.range.loop]

/-- Deserialization of a 16-byte frame decodes the four 4-byte spans in order. -/
theorem FromSerializedBytes_frame (c : PacketConstants)
    (b0 b1 b2 b3 b4 b5 b6 b7 b8 b9 b10 b11 b12 b13 b14 b15 : Nat) :
    FromSerializedBytes c [b0, b1, b2, b3, b4, b5, b6, b7, b8, b9, b10, b11, b12, b13, b14, b15]
      = DeviceCommand.ofRaw c (ToUInt32 [b0, b1, b2, b3])
          (CommandPayloadValue.ofWords (ToUInt32 [b4, b5, b6, b7]) (ToUInt32 [b8, b9, b10, b11]))
          (ToUInt32 [b12, b13, b14, b15]) := by
  simp [FromSerializedBytes, List.range, List.range.loop]

/-- Deserialization of a serialized packet decodes the four encoded words. -/
theorem FromSerializedBytes_ToSerializedBytes_eq (c : PacketConstants) (d : DeviceCommand) :
    FromSerializedBytes c d.ToSerializedBytes
      = DeviceCommand.ofRaw c (ToUInt32 (GetBytes d.header))
          (CommandPayloadValue.ofWords (ToUInt32 (GetBytes d.payloadValue.payloadHigh))
            (ToUInt32 (GetBytes d.payloadValue.payloadLow)))
          (ToUInt32 (GetBytes d.footer)) := by
  rw [ToSerializedBytes_eq_append]
  simp only [GetBytes, List.cons_append, List.nil_append, FromSerializedBytes_frame]

/-- A list of length 16 is a list of sixteen entries. -/
theorem list_length_sixteen (b : List Nat) (hlen : b.length = 16) :
    ∃ b0 b1 b2 b3 b4 b5 b6 b7 b8 b9 b10 b11 b12 b13 b14 b15 : Nat,
      b = [b0, b1, b2, b3, b4, b5, b6, b7, b8, b9, b10, b11, b12, b13, b14, b15] := by
  match b, hlen with
  | [b0, b1, b2, b3, b4, b5, b6, b7, b8, b9, b10, b11, b12, b13, b14, b15], _ =>
    exact ⟨b0, b1, b2, b3, b4, b5, b6, b7, b8, b9, b10, b11, b12, b13, b14, b15, rfl⟩

/-- On a valid packet, inverting header bit `n` keeps the packet valid exactly when neither
the delimiter mask nor the ack/nack mask covers bit `n`. -/
theorem ofRaw_flip_header (c : PacketConstants) (h : Nat) (p : CommandPayloadValue) (f n : Nat)
    (hv : (DeviceCommand.ofRaw c h p f).isValid = true) :
    (DeviceCommand.ofRaw c (h ^^^ 2 ^ n) p f).isValid = true
      ↔ (c.PACKET_DELIMITER_MASK ||| c.ACK_NACK_FIELD_MASK).testBit n = false := by
  rw [ofRaw_isValid_iff] at hv ⊢
  obtain ⟨h1, h2, h3, h4⟩ := hv
  rw [masked_flip_iff _ _ _ _ h2, masked_flip_iff _ _ _ _ h4, Nat.testBit_or,
    Bool.or_eq_false_iff]
  tauto

/-- On a valid packet, inverting footer bit `n` keeps the packet valid exactly when neither
the delimiter mask nor the checksum mask covers bit `n`. -/
theorem ofRaw_flip_footer (c : PacketConstants) (h : Nat) (p : CommandPayloadValue) (f n : Nat)
    (hv : (DeviceCommand.ofRaw c h p f).isValid = true) :
    (DeviceCommand.ofRaw c h p (f ^^^ 2 ^ n)).isValid = true
      ↔ (c.PACKET_DELIMITER_MASK ||| c.CHECKSUM_FIELD_MASK).testBit n = false := by
  rw [ofRaw_isValid_iff] at hv ⊢
  obtain ⟨h1, h2, h3, h4⟩ := hv
  rw [Nat.and_comm] at h1
  rw [Nat.and_comm c.CHECKSUM_FIELD_MASK, masked_flip_iff _ _ _ _ h1,
    masked_flip_iff _ _ _ _ h3, Nat.testBit_or, Bool.or_eq_false_iff]
  tauto

end THR

/-! ## The claims about the command packet and the word codec -/

namespace THR

open BinaryConverter DeviceCommand

/-- C1: the packet reconstructed from raw words is valid with error `None` exactly when the
recomputed checksum equals the checksum field of the footer, the header carries the prefix
constant, the footer carries the suffix constant and the ack/nack field of the header holds
`DEV_ACK_RESP`; in every other case it is invalid with an error other than `None`. -/
theorem raw_packet_valid_iff_all_checks (c : PacketConstants) (h : Nat)
    (p : CommandPayloadValue) (f : Nat) :
    (((DeviceCommand.ofRaw c h p f).isValid = true
        ∧ (DeviceCommand.ofRaw c h p f).responseError = DeviceResponseError.None)
      ↔ (CalculateChecksum h p f = f &&& c.CHECKSUM_FIELD_MASK
          ∧ h &&& c.PACKET_DELIMITER_MASK = c.PACKET_PREFIX
          ∧ f &&& c.PACKET_DELIMITER_MASK = c.PACKET_SUFFIX
          ∧ h &&& c.ACK_NACK_FIELD_MASK = c.DEV_ACK_RESP))
    ∧ (¬ (CalculateChecksum h p f = f &&& c.CHECKSUM_FIELD_MASK
          ∧ h &&& c.PACKET_DELIMITER_MASK = c.PACKET_PREFIX
          ∧ f &&& c.PACKET_DELIMITER_MASK = c.PACKET_SUFFIX
          ∧ h &&& c.ACK_NACK_FIELD_MASK = c.DEV_ACK_RESP)
        → (DeviceCommand.ofRaw c h p f).isValid = false
          ∧ (DeviceCommand.ofRaw c h p f).responseError ≠ DeviceResponseError.None) := by
  simp only [DeviceCommand.ofRaw, IsRawPacketValid, Nat.and_comm c.CHECKSUM_FIELD_MASK f]
  split_ifs <;> simp_all

/-- C2: parsing raw words reports the first failing check in the order checksum, prefix,
suffix, ack: a checksum mismatch gives `ChecksumFailure` whatever the other checks would say;
otherwise a wrong prefix gives `FramingError`; otherwise a wrong suffix gives `FramingError`;
otherwise a wrong ack/nack field gives `NotAcknowledged`. -/
theorem raw_packet_first_failing_check (c : PacketConstants) (h : Nat)
    (p : CommandPayloadValue) (f : Nat) :
    (CalculateChecksum h p f ≠ f &&& c.CHECKSUM_FIELD_MASK →
        (DeviceCommand.ofRaw c h p f).isValid = false
        ∧ (DeviceCommand.ofRaw c h p f).responseError = DeviceResponseError.ChecksumFailure)
    ∧ (CalculateChecksum h p f = f &&& c.CHECKSUM_FIELD_MASK →
        h &&& c.PACKET_DELIMITER_MASK ≠ c.PACKET_PREFIX →
        (DeviceCommand.ofRaw c h p f).isValid = false
        ∧ (DeviceCommand.ofRaw c h p f).responseError = DeviceResponseError.FramingError)
    ∧ (CalculateChecksum h p f = f &&& c.CHECKSUM_FIELD_MASK →
        h &&& c.PACKET_DELIMITER_MASK = c.PACKET_PREFIX →
        f &&& c.PACKET_DELIMITER_MASK ≠ c.PACKET_SUFFIX →
        (DeviceCommand.ofRaw c h p f).isValid = false
        ∧ (DeviceCommand.ofRaw c h p f).responseError = DeviceResponseError.FramingError)
    ∧ (CalculateChecksum h p f = f &&& c.CHECKSUM_FIELD_MASK →
        h &&& c.PACKET_DELIMITER_MASK = c.PACKET_PREFIX →
        f &&& c.PACKET_DELIMITER_MASK = c.PACKET_SUFFIX →
        h &&& c.ACK_NACK_FIELD_MASK ≠ c.DEV_ACK_RESP →
        (DeviceCommand.ofRaw c h p f).isValid = false
        ∧ (DeviceCommand.ofRaw c h p f).responseError = DeviceResponseError.NotAcknowledged) := by
  simp only [DeviceCommand.ofRaw, IsRawPacketValid, Nat.and_comm c.CHECKSUM_FIELD_MASK f]
  split_ifs <;> simp_all

/-- C2 at concrete words, under the sample constants: header `0` and footer `1` fail all four
checks and the error is `ChecksumFailure`; header `0` and footer `0` pass the checksum check,
fail the other three and the error is `FramingError`. -/
theorem raw_packet_first_failing_check_witness :
    (CalculateChecksum 0 ⟨0, 0⟩ 1 ≠ 1 &&& sampleConstants.CHECKSUM_FIELD_MASK
      ∧ 0 &&& sampleConstants.PACKET_DELIMITER_MASK ≠ sampleConstants.PACKET_PREFIX
      ∧ 1 &&& sampleConstants.PACKET_DELIMITER_MASK ≠ sampleConstants.PACKET_SUFFIX
      ∧ (DeviceCommand.ofRaw sampleConstants 0 ⟨0, 0⟩ 1).responseError
          = DeviceResponseError.ChecksumFailure)
    ∧ (CalculateChecksum 0 ⟨0, 0⟩ 0 = 0 &&& sampleConstants.CHECKSUM_FIELD_MASK
      ∧ 0 &&& sampleConstants.PACKET_DELIMITER_MASK ≠ sampleConstants.PACKET_PREFIX
      ∧ 0 &&& sampleConstants.PACKET_DELIMITER_MASK ≠ sampleConstants.PACKET_SUFFIX
      ∧ (DeviceCommand.ofRaw sampleConstants 0 ⟨0, 0⟩ 0).responseError
          = DeviceResponseError.FramingError) :=
  ⟨⟨by decide, by decide, by decide,
      ((raw_packet_first_failing_check sampleConstants 0 ⟨0, 0⟩ 1).1 (by decide)).2⟩,
    ⟨by decide, by decide, by decide,
      ((raw_packet_first_failing_check sampleConstants 0 ⟨0, 0⟩ 0).2.1 (by decide)
        (by decide)).2⟩⟩

/-- C3: for every recognized command type, channel, set/get flag and payload, the packet built
from intent has header `PACKET_PREFIX | (isSet ? SET_CMD_BIT : GET_CMD_BIT) | commandId |
channel`, where `commandId` is the entry of the command type in the table below (the constant
its `case` label ors in) and `channel` the `(uint32_t)` value of the channel, which is 0..3 for
the four enumerators; it carries the given payload unchanged; and its footer is
`PACKET_SUFFIX | CalculateChecksum(header, payload, PACKET_SUFFIX)`. -/
theorem intent_packet_header_payload_footer (c : PacketConstants) (t : CommandType)
    (ch : RadioChannel) (isSet : Bool) (p : CommandPayloadValue) (ht : t.isNamed = true) :
    ∃ commandId : Nat,
      (t, commandId) ∈
        [(CommandType.InitDevice, c.INIT_CMD_ID),
          (CommandType.CaptureEnable, c.CAPTURE_IQ_CMD_ID),
          (CommandType.LOFrequency, c.LO_CMD_ID),
          (CommandType.Gain, c.GAIN_CMD_ID),
          (CommandType.GainMode, c.GAINMODE_CMD_ID),
          (CommandType.Bandwidth, c.BANDWIDTH_CMD_ID),
          (CommandType.SampleRate, c.SAMPLERATE_CMD_ID),
          (CommandType.IRFilterCfg, c.IR_FILTER_CFG_CMD_ID),
          (CommandType.TransmitEnable, c.TRANSMIT_IQ_CMD_ID),
          (CommandType.DeviceStatus, c.DEV_STAT_CMD_ID),
          (CommandType.MultiplexMode, c.MULTIPLEX_MODE_CMD_ID),
          (CommandType.Reset, c.RESET_CMD_ID),
          (CommandType.ReferenceSource, c.REFERENCE_SOURCE_CMD_ID),
          (CommandType.IRFilterUse, c.IR_FILTER_USE_CMD_ID),
          (CommandType.AGCParams, c.AGC_PARAMS_CMD_ID),
          (CommandType.CmdCounter, c.CMD_COUNTER_CMD_ID),
          (CommandType.ChipsetID, c.CHIPSET_CMD_ID),
          (CommandType.FirmwareUpdate, c.FIRMWARE_UPDATE_CMD_ID),
          (CommandType.Temperature, c.TEMPERATURE_CMD_ID),
          (CommandType.ERMVersion, c.ERM_VERSION_CMD_ID),
          (CommandType.DebugB, c.DEBUG_B_CMD_ID),
          (CommandType.DebugA, c.DEBUG_A_CMD_ID),
          (CommandType.Nop, c.NOP_CMD_ID)]
      ∧ (DeviceCommand.ofIntent c t ch isSet p).header
          = c.PACKET_PREFIX ||| (if isSet then c.SET_CMD_BIT else c.GET_CMD_BIT)
              ||| commandId ||| castUInt32 ch.raw
      ∧ (DeviceCommand.ofIntent c t ch isSet p).payloadValue = p
      ∧ (DeviceCommand.ofIntent c t ch isSet p).footer
          = c.PACKET_SUFFIX
              ||| CalculateChecksum
                (c.PACKET_PREFIX ||| (if isSet then c.SET_CMD_BIT else c.GET_CMD_BIT)
                  ||| commandId ||| castUInt32 ch.raw) p c.PACKET_SUFFIX
      ∧ (ch ∈ RadioChannel.enumerators → (castUInt32 ch.raw : Int) = ch.raw) := by
  have hch : ch ∈ RadioChannel.enumerators → (castUInt32 ch.raw : Int) = ch.raw := by
    intro hch
    simp only [RadioChannel.enumerators, List.mem_cons, List.mem_singleton, List.not_mem_nil,
      or_false] at hch
    rcases hch with h | h | h | h <;> rw [h] <;> decide
  cases t with
  | unnamed raw => simp [CommandType.isNamed] at ht
  | _ => exact ⟨_, by simp [commandIdSwitch], rfl, rfl, rfl, hch⟩

/-- C3 at the sample constants: the set request `CaptureEnable` on channel `Two` with payload
`(0, 1)` has header `0xA5010021` (prefix `0xA5000000`, set bit `0x00010000`, command ID
`0x020`, channel 1), and the get request `TransmitEnable` on channel `Four` has header
`0xA5000093`. -/
theorem intent_packet_header_payload_footer_witness :
    (DeviceCommand.ofIntent sampleConstants CommandType.CaptureEnable RadioChannel.Two true
        (CommandPayloadValue.ofBool true)).header = 0xA5010021
    ∧ (DeviceCommand.ofIntent sampleConstants CommandType.TransmitEnable RadioChannel.Four false
        CommandPayloadValue.default).header = 0xA5000093
    ∧ ∃ commandId : Nat,
      (CommandType.CaptureEnable, commandId) ∈
        [(CommandType.InitDevice, sampleConstants.INIT_CMD_ID),
          (CommandType.CaptureEnable, sampleConstants.CAPTURE_IQ_CMD_ID),
          (CommandType.LOFrequency, sampleConstants.LO_CMD_ID),
          (CommandType.Gain, sampleConstants.GAIN_CMD_ID),
          (CommandType.GainMode, sampleConstants.GAINMODE_CMD_ID),
          (CommandType.Bandwidth, sampleConstants.BANDWIDTH_CMD_ID),
          (CommandType.SampleRate, sampleConstants.SAMPLERATE_CMD_ID),
          (CommandType.IRFilterCfg, sampleConstants.IR_FILTER_CFG_CMD_ID),
          (CommandType.TransmitEnable, sampleConstants.TRANSMIT_IQ_CMD_ID),
          (CommandType.DeviceStatus, sampleConstants.DEV_STAT_CMD_ID),
          (CommandType.MultiplexMode, sampleConstants.MULTIPLEX_MODE_CMD_ID),
          (CommandType.Reset, sampleConstants.RESET_CMD_ID),
          (CommandType.ReferenceSource, sampleConstants.REFERENCE_SOURCE_CMD_ID),
          (CommandType.IRFilterUse, sampleConstants.IR_FILTER_USE_CMD_ID),
          (CommandType.AGCParams, sampleConstants.AGC_PARAMS_CMD_ID),
          (CommandType.CmdCounter, sampleConstants.CMD_COUNTER_CMD_ID),
          (CommandType.ChipsetID, sampleConstants.CHIPSET_CMD_ID),
          (CommandType.FirmwareUpdate, sampleConstants.FIRMWARE_UPDATE_CMD_ID),
          (CommandType.Temperature, sampleConstants.TEMPERATURE_CMD_ID),
          (CommandType.ERMVersion, sampleConstants.ERM_VERSION_CMD_ID),
          (CommandType.DebugB, sampleConstants.DEBUG_B_CMD_ID),
          (CommandType.DebugA, sampleConstants.DEBUG_A_CMD_ID),
          (CommandType.Nop, sampleConstants.NOP_CMD_ID)]
      ∧ (DeviceCommand.ofIntent sampleConstants CommandType.CaptureEnable RadioChannel.Two true
          (CommandPayloadValue.ofBool true)).header
          = sampleConstants.PACKET_PREFIX
              ||| (if true then sampleConstants.SET_CMD_BIT else sampleConstants.GET_CMD_BIT)
              ||| commandId ||| castUInt32 RadioChannel.Two.raw
      ∧ (DeviceCommand.ofIntent sampleConstants CommandType.CaptureEnable RadioChannel.Two true
          (CommandPayloadValue.ofBool true)).payloadValue = CommandPayloadValue.ofBool true
      ∧ (DeviceCommand.ofIntent sampleConstants CommandType.CaptureEnable RadioChannel.Two true
          (CommandPayloadValue.ofBool true)).footer
          = sampleConstants.PACKET_SUFFIX
              ||| CalculateChecksum
                (sampleConstants.PACKET_PREFIX
                  ||| (if true then sampleConstants.SET_CMD_BIT else sampleConstants.GET_CMD_BIT)
                  ||| commandId ||| castUInt32 RadioChannel.Two.raw)
                (CommandPayloadValue.ofBool true) sampleConstants.PACKET_SUFFIX
      ∧ (RadioChannel.Two ∈ RadioChannel.enumerators →
          (castUInt32 RadioChannel.Two.raw : Int) = RadioChannel.Two.raw) :=
  ⟨by decide, by decide,
    intent_packet_header_payload_footer sampleConstants CommandType.CaptureEnable
      RadioChannel.Two true (CommandPayloadValue.ofBool true) (by decide)⟩

/-- C4: a packet built from intent is valid with error `None` exactly when its command type is
one of the 23 named command types of the catalog (`Nop` included), and `CreateCommand` returns
that validity; for every other value the header carries the `Nop` command-ID pattern, the packet
is invalid with error `CommandNotRecognized`, and `CreateCommand` returns false. -/
theorem intent_packet_valid_iff_named (c : PacketConstants) (t : CommandType)
    (ch : RadioChannel) (isSet : Bool) (p : CommandPayloadValue) :
    (((DeviceCommand.ofIntent c t ch isSet p).isValid = true
        ∧ (DeviceCommand.ofIntent c t ch isSet p).responseError = DeviceResponseError.None)
      ↔ t.isNamed = true)
    ∧ ((CreateCommand c t ch isSet p).1 = true ↔ t.isNamed = true)
    ∧ (t.isNamed = true ↔ t ∈ CommandType.named)
    ∧ CommandType.Nop ∈ CommandType.named
    ∧ ∀ raw : Int,
        (DeviceCommand.ofIntent c (CommandType.unnamed raw) ch isSet p).header
            = c.PACKET_PREFIX ||| (if isSet then c.SET_CMD_BIT else c.GET_CMD_BIT)
                ||| c.NOP_CMD_ID ||| castUInt32 ch.raw
        ∧ (DeviceCommand.ofIntent c (CommandType.unnamed raw) ch isSet p).isValid = false
        ∧ (DeviceCommand.ofIntent c (CommandType.unnamed raw) ch isSet p).responseError
            = DeviceResponseError.CommandNotRecognized
        ∧ (CreateCommand c (CommandType.unnamed raw) ch isSet p).1 = false := by
  refine ⟨?_, ?_, ?_, by decide, fun raw => ⟨rfl, rfl, rfl, rfl⟩⟩
  · cases t <;> simp [DeviceCommand.ofIntent, commandIdSwitch, CommandType.isNamed]
  · cases t <;>
      simp [CreateCommand, DeviceCommand.IsValid, DeviceCommand.ofIntent, commandIdSwitch,
        CommandType.isNamed]
  · cases t <;> simp [CommandType.isNamed, CommandType.named]

/-- C5: `ToSerializedBytes` yields exactly 16 bytes: offsets 0..3 hold the header, 4..7 the
payload high word, 8..11 the payload low word and 12..15 the footer, and the byte at offset `k`
of a word `w` is `(w >> (24 - 8k)) & 0xFF`. -/
theorem serialized_bytes_layout (d : DeviceCommand) :
    d.ToSerializedBytes.length = 16
    ∧ ∀ k : Fin 4,
        d.ToSerializedBytes.getD k.val 0 = (d.header >>> (24 - 8 * k.val)) &&& 0xFF
        ∧ d.ToSerializedBytes.getD (4 + k.val) 0
            = (d.payloadValue.payloadHigh >>> (24 - 8 * k.val)) &&& 0xFF
        ∧ d.ToSerializedBytes.getD (8 + k.val) 0
            = (d.payloadValue.payloadLow >>> (24 - 8 * k.val)) &&& 0xFF
        ∧ d.ToSerializedBytes.getD (12 + k.val) 0
            = (d.footer >>> (24 - 8 * k.val)) &&& 0xFF := by
  have hmask : ∀ x : Nat, x &&& 0xFF = x % 2 ^ 8 := fun x => Nat.and_pow_two_sub_one_eq_mod x 8
  refine ⟨rfl, fun k => ?_⟩
  simp only [hmask]
  fin_cases k <;>
    simp [DeviceCommand.ToSerializedBytes, CommandPayloadValue.ToSerializedBytes, GetBytes,
      List.range, List.range.loop]

/-- C6: deserialization undoes serialization on the wire fields. For every packet `d` of 32-bit
words, `FromSerializedBytes (d.ToSerializedBytes)` has the header, payload high word, payload
low word and footer of `d`; and for every buffer `b` of 16 bytes,
`(FromSerializedBytes b).ToSerializedBytes = b`. -/
theorem serialize_deserialize_roundtrip (c : PacketConstants) (d : DeviceCommand)
    (hh : d.header < 2 ^ 32) (hph : d.payloadValue.payloadHigh < 2 ^ 32)
    (hpl : d.payloadValue.payloadLow < 2 ^ 32) (hf : d.footer < 2 ^ 32) (b : List Nat)
    (hlen : b.length = 16) (hb : ∀ x ∈ b, x < 2 ^ 8) :
    ((FromSerializedBytes c d.ToSerializedBytes).header = d.header
      ∧ (FromSerializedBytes c d.ToSerializedBytes).payloadValue.payloadHigh
          = d.payloadValue.payloadHigh
      ∧ (FromSerializedBytes c d.ToSerializedBytes).payloadValue.payloadLow
          = d.payloadValue.payloadLow
      ∧ (FromSerializedBytes c d.ToSerializedBytes).footer = d.footer)
    ∧ (FromSerializedBytes c b).ToSerializedBytes = b := by
  constructor
  · rw [FromSerializedBytes_ToSerializedBytes_eq, ToUInt32_GetBytes _ hh,
      ToUInt32_GetBytes _ hph, ToUInt32_GetBytes _ hpl, ToUInt32_GetBytes _ hf]
    exact ⟨rfl, rfl, rfl, rfl⟩
  · obtain ⟨b0, b1, b2, b3, b4, b5, b6, b7, b8, b9, b10, b11, b12, b13, b14, b15, rfl⟩ :=
      list_length_sixteen b hlen
    simp only [List.mem_cons, List.mem_singleton, forall_eq_or_imp, forall_eq,
      List.not_mem_nil, false_implies, implies_true, and_true] at hb
    obtain ⟨h0, h1, h2, h3, h4, h5, h6, h7, h8, h9, h10, h11, h12, h13, h14, h15⟩ := hb
    rw [FromSerializedBytes_frame, ToSerializedBytes_eq_append]
    simp only [DeviceCommand.ofRaw, CommandPayloadValue.ofWords]
    rw [GetBytes_ToUInt32_bytes _ _ _ _ h0 h1 h2 h3, GetBytes_ToUInt32_bytes _ _ _ _ h4 h5 h6 h7,
      GetBytes_ToUInt32_bytes _ _ _ _ h8 h9 h10 h11,
      GetBytes_ToUInt32_bytes _ _ _ _ h12 h13 h14 h15]
    rfl

/-- C6 at a concrete packet (header `0xA5010042`, payload `(0x12345678, 0x9ABCDEF0)`, footer
`0x5A000000`) and a concrete 16-byte buffer. -/
theorem serialize_deserialize_roundtrip_witness :
    (FromSerializedBytes sampleConstants
        (DeviceCommand.ToSerializedBytes ⟨0xA5010042, ⟨0x12345678, 0x9ABCDEF0⟩, 0x5A000000, true,
          DeviceResponseError.None⟩)).header = 0xA5010042
    ∧ (FromSerializedBytes sampleConstants
        [0xFF, 1, 2, 3, 4, 5, 6, 7, 8, 9, 10, 11, 12, 13, 14, 0x80]).ToSerializedBytes
        = [0xFF, 1, 2, 3, 4, 5, 6, 7, 8, 9, 10, 11, 12, 13, 14, 0x80] :=
  ⟨(serialize_deserialize_roundtrip sampleConstants
      ⟨0xA5010042, ⟨0x12345678, 0x9ABCDEF0⟩, 0x5A000000, true, DeviceResponseError.None⟩
      (by decide) (by decide) (by decide) (by decide)
      [0xFF, 1, 2, 3, 4, 5, 6, 7, 8, 9, 10, 11, 12, 13, 14, 0x80] (by decide) (by decide)).1.1,
    (serialize_deserialize_roundtrip sampleConstants
      ⟨0xA5010042, ⟨0x12345678, 0x9ABCDEF0⟩, 0x5A000000, true, DeviceResponseError.None⟩
      (by decide) (by decide) (by decide) (by decide)
      [0xFF, 1, 2, 3, 4, 5, 6, 7, 8, 9, 10, 11, 12, 13, 14, 0x80] (by decide) (by decide)).2⟩

/-- The verdict on a request parsed from its own bytes, for every assignment of the constants
with the layout `RequestLayout`: for a named command type and a channel among the four
enumerators, the checksum, prefix and suffix checks pass, and the ack/nack field of the header
is that of the bare prefix constant (the constructor from intent sets no ack/nack bit). So the
parsed packet is valid with error `None` when `DEV_ACK_RESP` is that pattern, and invalid with
error `NotAcknowledged` otherwise. -/
theorem built_packet_parse_verdict (c : PacketConstants) (t : CommandType) (ch : RadioChannel)
    (isSet : Bool) (p : CommandPayloadValue) (hc : c.RequestLayout) (ht : t.isNamed = true)
    (hch : ch ∈ RadioChannel.enumerators) :
    (FromSerializedBytes c (DeviceCommand.ofIntent c t ch isSet p).ToSerializedBytes).IsValid
      = if c.PACKET_PREFIX &&& c.ACK_NACK_FIELD_MASK = c.DEV_ACK_RESP then
          (true, DeviceResponseError.None)
        else (false, DeviceResponseError.NotAcknowledged) := by
  obtain ⟨hP, hS, hPD, hSD, hSC, hpat⟩ := hc
  have hsg := hpat (if isSet then c.SET_CMD_BIT else c.GET_CMD_BIT) (by
    cases isSet <;> simp [PacketConstants.requestFieldPatterns])
  have hid := hpat (commandIdSwitch c t).1 (by
    simp only [PacketConstants.requestFieldPatterns, List.mem_append, List.mem_map]
    exact Or.inr ⟨t, named_mem t ht, rfl⟩)
  have hcv := hpat (castUInt32 ch.raw) (by
    simp only [PacketConstants.requestFieldPatterns, List.mem_append, List.mem_map]
    exact Or.inl (Or.inr ⟨ch, hch, rfl⟩))
  have hhead : (DeviceCommand.ofIntent c t ch isSet p).header
      = c.PACKET_PREFIX ||| (if isSet then c.SET_CMD_BIT else c.GET_CMD_BIT)
          ||| (commandIdSwitch c t).1 ||| castUInt32 ch.raw := rfl
  have hfoot : (DeviceCommand.ofIntent c t ch isSet p).footer = c.PACKET_SUFFIX := by
    simp [DeviceCommand.ofIntent, CalculateChecksum]
  have hlt : (DeviceCommand.ofIntent c t ch isSet p).header < 2 ^ 32 := by
    rw [hhead]
    exact Nat.or_lt_two_pow (Nat.or_lt_two_pow (Nat.or_lt_two_pow hP hsg.1) hid.1) hcv.1
  have hdel : (c.PACKET_PREFIX ||| (if isSet then c.SET_CMD_BIT else c.GET_CMD_BIT)
      ||| (commandIdSwitch c t).1 ||| castUInt32 ch.raw) &&& c.PACKET_DELIMITER_MASK
      = c.PACKET_PREFIX := by
    rw [or_and_of_and_zero _ _ _ hcv.2.1, or_and_of_and_zero _ _ _ hid.2.1,
      or_and_of_and_zero _ _ _ hsg.2.1, hPD]
  have hack : (c.PACKET_PREFIX ||| (if isSet then c.SET_CMD_BIT else c.GET_CMD_BIT)
      ||| (commandIdSwitch c t).1 ||| castUInt32 ch.raw) &&& c.ACK_NACK_FIELD_MASK
      = c.PACKET_PREFIX &&& c.ACK_NACK_FIELD_MASK := by
    rw [or_and_of_and_zero _ _ _ hcv.2.2, or_and_of_and_zero _ _ _ hid.2.2,
      or_and_of_and_zero _ _ _ hsg.2.2]
  have hsc : c.CHECKSUM_FIELD_MASK &&& c.PACKET_SUFFIX = 0 := by
    rw [Nat.and_comm]
    exact hSC
  rw [FromSerializedBytes_ToSerializedBytes_eq, ToUInt32_GetBytes _ hlt, hfoot,
    ToUInt32_GetBytes _ hS, hhead]
  simp only [DeviceCommand.IsValid, ofRaw, IsRawPacketValid, CalculateChecksum, hsc, hdel, hSD,
    hack, ne_eq, not_true_eq_false, if_false]
  by_cases h : c.PACKET_PREFIX &&& c.ACK_NACK_FIELD_MASK = c.DEV_ACK_RESP <;> simp [h]

/-- C8 as stated fails: under the sample constants the frame
`A5 00 00 42 | 00 00 00 00 | 00 00 00 07 | 5A 00 00 00` parses as valid, and so does the frame
with bit 88 inverted (the lowest bit of the payload low word, `07` turned into `06`). -/
theorem single_bit_flip_undetected :
    [0xA5, 0x00, 0x00, 0x42, 0, 0, 0, 0, 0, 0, 0, 7, 0x5A, 0, 0, 0].length = 16
    ∧ (∀ x ∈ [0xA5, 0x00, 0x00, 0x42, 0, 0, 0, 0, 0, 0, 0, 7, 0x5A, 0, 0, 0], x < 2 ^ 8)
    ∧ 88 < 128
    ∧ (FromSerializedBytes sampleConstants
        [0xA5, 0x00, 0x00, 0x42, 0, 0, 0, 0, 0, 0, 0, 7, 0x5A, 0, 0, 0]).isValid = true
    ∧ flipBit [0xA5, 0x00, 0x00, 0x42, 0, 0, 0, 0, 0, 0, 0, 7, 0x5A, 0, 0, 0] 88
        = [0xA5, 0x00, 0x00, 0x42, 0, 0, 0, 0, 0, 0, 0, 6, 0x5A, 0, 0, 0]
    ∧ (FromSerializedBytes sampleConstants
        (flipBit [0xA5, 0x00, 0x00, 0x42, 0, 0, 0, 0, 0, 0, 0, 7, 0x5A, 0, 0, 0] 88)).isValid
        = true := by
  decide

/-- C8, amended: for every 16-byte frame that parses as valid and every bit position 0..127,
the frame with that bit inverted parses as valid exactly when the bit is not one the validity
checks read. So an inverted header bit under `PACKET_DELIMITER_MASK` or `ACK_NACK_FIELD_MASK`,
or footer bit under `PACKET_DELIMITER_MASK` or `CHECKSUM_FIELD_MASK`, is caught, and an inverted
bit anywhere else, the 64 payload bits included, is not. This holds for every assignment of the
constants. -/
theorem single_bit_flip_detected_iff_checked (c : PacketConstants) (frame : List Nat)
    (position : Nat) (hlen : frame.length = 16) (hb : ∀ x ∈ frame, x < 2 ^ 8)
    (hv : (FromSerializedBytes c frame).isValid = true) (hp : position < 128) :
    ((FromSerializedBytes c (flipBit frame position)).isValid = true
      ↔ c.checkedBit position = false)
    ∧ (32 ≤ position → position < 96 →
        (FromSerializedBytes c (flipBit frame position)).isValid = true) := by
  have main : (FromSerializedBytes c (flipBit frame position)).isValid = true
      ↔ c.checkedBit position = false := by
    obtain ⟨b0, b1, b2, b3, b4, b5, b6, b7, b8, b9, b10, b11, b12, b13, b14, b15, rfl⟩ :=
      list_length_sixteen frame hlen
    simp only [List.mem_cons, List.mem_singleton, forall_eq_or_imp, forall_eq,
      List.not_mem_nil, false_implies, implies_true, and_true] at hb
    obtain ⟨h0, h1, h2, h3, h4, h5, h6, h7, h8, h9, h10, h11, h12, h13, h14, h15⟩ := hb
    have hk : position % 8 < 8 := Nat.mod_lt _ (by norm_num)
    have hj : position / 8 < 16 := by omega
    rw [FromSerializedBytes_frame] at hv
    have hH := ToUInt32_flip b0 b1 b2 b3 (position % 8) h0 h1 h2 h3 hk
    have hF := ToUInt32_flip b12 b13 b14 b15 (position % 8) h12 h13 h14 h15 hk
    unfold flipBit PacketConstants.checkedBit
    generalize position / 8 = j at hj ⊢
    generalize position % 8 = k at hk hH hF ⊢
    rw [Nat.one_shiftLeft]
    interval_cases j <;>
      simp only [List.set, List.getD_cons_zero, List.getD_cons_succ, FromSerializedBytes_frame]
    · simp [hH.1, ofRaw_flip_header c _ _ _ _ hv]
    · simp [hH.2.1, ofRaw_flip_header c _ _ _ _ hv]
    · simp [hH.2.2.1, ofRaw_flip_header c _ _ _ _ hv]
    · simp [hH.2.2.2, ofRaw_flip_header c _ _ _ _ hv]
    · simpa [ofRaw_isValid_iff] using hv
    · simpa [ofRaw_isValid_iff] using hv
    · simpa [ofRaw_isValid_iff] using hv
    · simpa [ofRaw_isValid_iff] using hv
    · simpa [ofRaw_isValid_iff] using hv
    · simpa [ofRaw_isValid_iff] using hv
    · simpa [ofRaw_isValid_iff] using hv
    · simpa [ofRaw_isValid_iff] using hv
    · simp [hF.1, ofRaw_flip_footer c _ _ _ _ hv]
    · simp [hF.2.1, ofRaw_flip_footer c _ _ _ _ hv]
    · simp [hF.2.2.1, ofRaw_flip_footer c _ _ _ _ hv]
    · simp [hF.2.2.2, ofRaw_flip_footer c _ _ _ _ hv]
  refine ⟨main, fun h32 h96 => main.2 ?_⟩
  have n4 : ¬ (position / 8 < 4) := by omega
  have n12 : ¬ (12 ≤ position / 8) := by omega
  simp [PacketConstants.checkedBit, n4, n12]

/-- C8, amended, at the sample constants and the valid frame
`A5 00 00 42 | 00 00 00 00 | 00 00 00 07 | 5A 00 00 00`: inverting bit 7 (the top bit of the
header, under the delimiter mask) is caught. -/
theorem single_bit_flip_detected_iff_checked_witness :
    sampleConstants.checkedBit 7 = true
    ∧ ((FromSerializedBytes sampleConstants
          (flipBit [0xA5, 0x00, 0x00, 0x42, 0, 0, 0, 0, 0, 0, 0, 7, 0x5A, 0, 0, 0] 7)).isValid
          = true
        ↔ sampleConstants.checkedBit 7 = false) :=
  ⟨by decide,
    (single_bit_flip_detected_iff_checked sampleConstants
      [0xA5, 0x00, 0x00, 0x42, 0, 0, 0, 0, 0, 0, 0, 7, 0x5A, 0, 0, 0] 7 (by decide) (by decide)
      (by decide) (by decide)).1⟩

/-- C9: for every 32-bit word `w`, `ToUInt32 (GetBytes w) = w`. -/
theorem word_decode_encode (w : Nat) (hw : w < 2 ^ 32) : ToUInt32 (GetBytes w) = w :=
  ToUInt32_GetBytes w hw

/-- C9 at the words `0xDEADBEEF` and `0xFFFFFFFF`. -/
theorem word_decode_encode_witness :
    ToUInt32 (GetBytes 0xDEADBEEF) = 0xDEADBEEF ∧ ToUInt32 (GetBytes 0xFFFFFFFF) = 0xFFFFFFFF :=
  ⟨word_decode_encode 0xDEADBEEF (by decide), word_decode_encode 0xFFFFFFFF (by decide)⟩

/-- C10: the word codec is inverse in the other direction as well. For every array `b` of 4
bytes, `ToUInt32 b` is a 32-bit word and `GetBytes (ToUInt32 b) = b`; and for every 32-bit word
`w`, `GetBytes w` is an array of 4 bytes with `ToUInt32 (GetBytes w) = w`: the two functions are
mutually inverse bijections between 32-bit words and 4-byte arrays. -/
theorem word_encode_decode (b : List Nat) (hlen : b.length = 4) (hb : ∀ x ∈ b, x < 2 ^ 8)
    (w : Nat) (hw : w < 2 ^ 32) :
    (ToUInt32 b < 2 ^ 32 ∧ GetBytes (ToUInt32 b) = b)
    ∧ ((GetBytes w).length = 4 ∧ (∀ x ∈ GetBytes w, x < 2 ^ 8) ∧ ToUInt32 (GetBytes w) = w) := by
  refine ⟨⟨Nat.mod_lt _ (by norm_num), ?_⟩, rfl, GetBytes_lt w, ToUInt32_GetBytes w hw⟩
  match b, hlen with
  | [b0, b1, b2, b3], _ =>
    exact GetBytes_ToUInt32_bytes b0 b1 b2 b3 (hb b0 (by simp)) (hb b1 (by simp))
      (hb b2 (by simp)) (hb b3 (by simp))

/-- C10 at the bytes `DE AD BE EF` and the word `0x01020304`. -/
theorem word_encode_decode_witness :
    GetBytes (ToUInt32 [0xDE, 0xAD, 0xBE, 0xEF]) = [0xDE, 0xAD, 0xBE, 0xEF]
    ∧ ToUInt32 (GetBytes 0x01020304) = 0x01020304 :=
  ⟨(word_encode_decode [0xDE, 0xAD, 0xBE, 0xEF] rfl (by decide) 0x01020304 (by decide)).1.2,
    (word_encode_decode [0xDE, 0xAD, 0xBE, 0xEF] rfl (by decide) 0x01020304 (by decide)).2.2.2⟩

end THR

/-! ## Transaction engine: auxiliary facts -/

namespace THR

open BinaryConverter DeviceCommand RadioDevice

/-- `CreateCommand` returns whether the command type is a named one, and leaves the packet built
from intent. -/
theorem CreateCommand_named (c : PacketConstants) (t : CommandType) (ch : Int) (isSet : Bool)
    (p : CommandPayloadValue) :
    (CreateCommand c t ⟨ch⟩ isSet p).1 = t.isNamed
    ∧ (CreateCommand c t ⟨ch⟩ isSet p).2 = DeviceCommand.ofIntent c t ⟨ch⟩ isSet p := by
  refine ⟨?_, rfl⟩
  cases t <;> rfl

/-- An invalid packet built from raw words carries one of the three errors of the checks. -/
theorem ofRaw_invalid_error (c : PacketConstants) (h : Nat) (p : CommandPayloadValue) (f : Nat)
    (hv : (DeviceCommand.ofRaw c h p f).isValid = false) :
    (DeviceCommand.ofRaw c h p f).responseError = DeviceResponseError.ChecksumFailure
    ∨ (DeviceCommand.ofRaw c h p f).responseError = DeviceResponseError.FramingError
    ∨ (DeviceCommand.ofRaw c h p f).responseError = DeviceResponseError.NotAcknowledged := by
  revert hv
  simp only [DeviceCommand.ofRaw, IsRawPacketValid]
  split_ifs <;> simp

/-- The payload of a packet parsed from a 16-byte buffer is decoded from offsets 4..7 and
8..11. -/
theorem FromSerializedBytes_payload (c : PacketConstants) (b : List Nat)
    (hlen : b.length = 16) :
    (FromSerializedBytes c b).payloadValue
      = ⟨ToUInt32 ((b.drop 4).take 4), ToUInt32 ((b.drop 8).take 4)⟩ := by
  obtain ⟨b0, b1, b2, b3, b4, b5, b6, b7, b8, b9, b10, b11, b12, b13, b14, b15, rfl⟩ :=
    list_length_sixteen b hlen
  rw [FromSerializedBytes_frame]
  rfl

/-- `ProcessCommand` on a device that is not set up. -/
theorem ProcessCommand_not_set_up (c : PacketConstants) (t : Transport) (dev : RadioDevice)
    (ct : CommandType) (ch : Int) (isSet : Bool) (p : CommandPayloadValue)
    (hs : dev.isSetup = false) :
    ProcessCommand c t dev ct ch isSet p
      = (dev, some (ErrorFlags.NotInitialized, CommandPayloadValue.default)) := by
  simp [ProcessCommand, hs]

/-- `ProcessCommand` on a set-up device with a command type that is not a named one. -/
theorem ProcessCommand_unnamed (c : PacketConstants) (t : Transport) (dev : RadioDevice)
    (ct : CommandType) (ch : Int) (isSet : Bool) (p : CommandPayloadValue)
    (hs : dev.isSetup = true) (hn : ct.isNamed = false) :
    ProcessCommand c t dev ct ch isSet p
      = (dev, some (ErrorFlags.Unsuccessful, CommandPayloadValue.default)) := by
  simp [ProcessCommand, hs, (CreateCommand_named c ct ch isSet p).1, hn]

/-- The request handed to the driver is 16 bytes long. -/
theorem serialized_length (c : PacketConstants) (ct : CommandType) (ch : Int) (isSet : Bool)
    (p : CommandPayloadValue) : (requestBytes c ct ch isSet p).length = 16 := rfl

/-- `ProcessCommand` on a set-up device with a named command type, when the write fails. -/
theorem ProcessCommand_write_failed (c : PacketConstants) (t : Transport) (dev : RadioDevice)
    (ct : CommandType) (ch : Int) (isSet : Bool) (p : CommandPayloadValue)
    (hs : dev.isSetup = true) (hn : ct.isNamed = true)
    (hw : FT_FAILED (t.writeStatus dev (requestBytes c ct ch isSet p)) = true) :
    ProcessCommand c t dev ct ch isSet p
      = ({ dev with
            ftStatus := t.writeStatus dev (requestBytes c ct ch isSet p)
            channelLog := dev.channelLog ++ [ChannelEvent.lock,
              ChannelEvent.writePipe CMD_WRITE_PIPE (requestBytes c ct ch isSet p) 16,
              ChannelEvent.unlock] },
          some (ErrorFlags.NotResponding, CommandPayloadValue.default)) := by
  simp only [Transport.writeStatus, requestBytes] at hw
  simp [ProcessCommand, hs, (CreateCommand_named c ct ch isSet p), hn, CommandChannelTransact,
    CommandChannelTransmit, hw, ERROR_FLAGS_FAILURE, Transport.writeStatus, requestBytes]

/-- `ProcessCommand` on a set-up device with a named command type, when the write succeeds. -/
theorem ProcessCommand_write_ok (c : PacketConstants) (t : Transport) (dev : RadioDevice)
    (ct : CommandType) (ch : Int) (isSet : Bool) (p : CommandPayloadValue)
    (hs : dev.isSetup = true) (hn : ct.isNamed = true)
    (hw : FT_FAILED (t.writeStatus dev (requestBytes c ct ch isSet p)) = false) :
    ProcessCommand c t dev ct ch isSet p
      = ({ dev with
            ftStatus := (t.readResult dev (requestBytes c ct ch isSet p)).1
            channelLog := dev.channelLog ++ [ChannelEvent.lock,
              ChannelEvent.writePipe CMD_WRITE_PIPE (requestBytes c ct ch isSet p) 16,
              ChannelEvent.readPipe CMD_READ_PIPE 16, ChannelEvent.unlock] },
        if FT_FAILED (t.readResult dev (requestBytes c ct ch isSet p)).1 then
          some (ErrorFlags.NotResponding, CommandPayloadValue.default)
        else if (FromSerializedBytes c
            (t.readResult dev (requestBytes c ct ch isSet p)).2).isValid
        then some (ErrorFlags.None,
          (FromSerializedBytes c
            (t.readResult dev (requestBytes c ct ch isSet p)).2).payloadValue)
        else match (FromSerializedBytes c
            (t.readResult dev (requestBytes c ct ch isSet p)).2).responseError with
          | DeviceResponseError.ChecksumFailure =>
            some (ErrorFlags.ChecksumFailure, CommandPayloadValue.default)
          | DeviceResponseError.FramingError =>
            some (ErrorFlags.FramingError, CommandPayloadValue.default)
          | DeviceResponseError.NotAcknowledged =>
            some (ErrorFlags.InvalidState, CommandPayloadValue.default)
          | _ => none) := by
  simp only [Transport.writeStatus, requestBytes] at hw
  cases hr : FT_FAILED (t.readResult dev (requestBytes c ct ch isSet p)).1
  · cases hv : (FromSerializedBytes c
        (t.readResult dev (requestBytes c ct ch isSet p)).2).isValid
    · simp only [Transport.readResult, requestBytes] at hr hv
      simp [ProcessCommand, hs, (CreateCommand_named c ct ch isSet p), hn,
        CommandChannelTransact, CommandChannelTransmit, hw, Transport.readResult, requestBytes,
        CommandChannelReceive, hr, hv, ERROR_FLAGS_FAILURE, DeviceCommand.IsValid]
    · simp only [Transport.readResult, requestBytes] at hr hv
      simp [ProcessCommand, hs, (CreateCommand_named c ct ch isSet p), hn,
        CommandChannelTransact, CommandChannelTransmit, hw, Transport.readResult, requestBytes,
        CommandChannelReceive, hr, hv, ERROR_FLAGS_FAILURE, DeviceCommand.IsValid,
        DeviceCommand.GetPayloadValue]
  · simp only [Transport.readResult, requestBytes] at hr
    simp [ProcessCommand, hs, (CreateCommand_named c ct ch isSet p), hn,
      CommandChannelTransact, CommandChannelTransmit, hw, Transport.readResult, requestBytes,
      CommandChannelReceive, hr, ERROR_FLAGS_FAILURE]

end THR

/-! ## The claims about the payload value and the transaction engine -/

namespace THR

open BinaryConverter DeviceCommand RadioDevice

/-- C11: for every payload value `p` (two 32-bit words), `p.ToSerializedBytes` is the 8 bytes
`GetBytes high` followed by `GetBytes low`, and decoding bytes 0..3 and bytes 4..7 with
`ToUInt32` gives back `p.GetPayloadHigh` and `p.GetPayloadLow`. -/
theorem payload_serialize_roundtrip (p : CommandPayloadValue) (hh : p.payloadHigh < 2 ^ 32)
    (hl : p.payloadLow < 2 ^ 32) :
    p.ToSerializedBytes = GetBytes p.GetPayloadHigh ++ GetBytes p.GetPayloadLow
    ∧ p.ToSerializedBytes.length = 8
    ∧ ToUInt32 (p.ToSerializedBytes.take 4) = p.GetPayloadHigh
    ∧ ToUInt32 ((p.ToSerializedBytes.drop 4).take 4) = p.GetPayloadLow := by
  refine ⟨rfl, rfl, ?_, ?_⟩
  · have e : p.ToSerializedBytes.take 4 = GetBytes p.payloadHigh := rfl
    rw [e]
    exact ToUInt32_GetBytes _ hh
  · have e : (p.ToSerializedBytes.drop 4).take 4 = GetBytes p.payloadLow := rfl
    rw [e]
    exact ToUInt32_GetBytes _ hl

/-- C11 at the payload `(0x12345678, 0x9ABCDEF0)`. -/
theorem payload_serialize_roundtrip_witness :
    CommandPayloadValue.ToSerializedBytes ⟨0x12345678, 0x9ABCDEF0⟩
        = [0x12, 0x34, 0x56, 0x78, 0x9A, 0xBC, 0xDE, 0xF0]
    ∧ ToUInt32 ((CommandPayloadValue.ToSerializedBytes ⟨0x12345678, 0x9ABCDEF0⟩).take 4)
        = 0x12345678
    ∧ ToUInt32 (((CommandPayloadValue.ToSerializedBytes ⟨0x12345678, 0x9ABCDEF0⟩).drop 4).take 4)
        = 0x9ABCDEF0 :=
  ⟨by decide,
    (payload_serialize_roundtrip ⟨0x12345678, 0x9ABCDEF0⟩ (by decide) (by decide)).2.2.1,
    (payload_serialize_roundtrip ⟨0x12345678, 0x9ABCDEF0⟩ (by decide) (by decide)).2.2.2⟩

/-- C12: the 64-bit view is `(high << 32) | low` and round-trips with the 64-bit constructor.
For every 64-bit `v`, `CommandPayloadValue(v).GetAsUInt64() = v`, with high word `v >> 32` and
low word `v mod 2^32`; and for every pair of 32-bit words,
`CommandPayloadValue(high, low).GetAsUInt64() = high * 2^32 + low`. -/
theorem payload_uint64_view_roundtrip (v high low : Nat) (hv : v < 2 ^ 64)
    (hh : high < 2 ^ 32) (hl : low < 2 ^ 32) :
    ((CommandPayloadValue.ofUInt64 v).GetAsUInt64 = v
      ∧ (CommandPayloadValue.ofUInt64 v).payloadHigh = v >>> 32
      ∧ (CommandPayloadValue.ofUInt64 v).payloadLow = v % 2 ^ 32)
    ∧ (CommandPayloadValue.ofWords high low).GetAsUInt64 = (high <<< 32) ||| low
    ∧ (CommandPayloadValue.ofWords high low).GetAsUInt64 = high * 2 ^ 32 + low := by
  have key : ∀ h l : Nat, h < 2 ^ 32 → l < 2 ^ 32 →
      ((h <<< 32) % 2 ^ 64) ||| l = h * 2 ^ 32 + l := by
    intro h l hh hl
    have e : (h <<< 32) % 2 ^ 64 = 2 ^ 32 * h := by rw [Nat.shiftLeft_eq]; omega
    rw [e, or_eq_add_of_lt h l 32 hl]
    omega
  have s : v >>> 32 = v / 2 ^ 32 := Nat.shiftRight_eq_div_pow v 32
  refine ⟨⟨?_, ?_, rfl⟩, ?_, ?_⟩
  · simp only [CommandPayloadValue.ofUInt64, CommandPayloadValue.GetAsUInt64]
    rw [key _ _ (Nat.mod_lt _ (by norm_num)) (Nat.mod_lt _ (by norm_num)), s]
    omega
  · simp only [CommandPayloadValue.ofUInt64, s]
    omega
  · simp only [CommandPayloadValue.ofWords, CommandPayloadValue.GetAsUInt64]
    have e : (high <<< 32) % 2 ^ 64 = high <<< 32 := by rw [Nat.shiftLeft_eq]; omega
    rw [e]
  · simp only [CommandPayloadValue.ofWords, CommandPayloadValue.GetAsUInt64]
    exact key high low hh hl

/-- C12 at `v = 6000000000` (the largest local-oscillator frequency) and at the pair
`(0xFFFFFFFF, 0xFFFFFFFF)`. -/
theorem payload_uint64_view_roundtrip_witness :
    ((CommandPayloadValue.ofUInt64 6000000000).GetAsUInt64 = 6000000000
      ∧ (CommandPayloadValue.ofUInt64 6000000000).payloadHigh = 6000000000 >>> 32
      ∧ (CommandPayloadValue.ofUInt64 6000000000).payloadLow = 6000000000 % 2 ^ 32)
    ∧ (CommandPayloadValue.ofWords 0xFFFFFFFF 0xFFFFFFFF).GetAsUInt64
        = 0xFFFFFFFF * 2 ^ 32 + 0xFFFFFFFF :=
  ⟨(payload_uint64_view_roundtrip 6000000000 0xFFFFFFFF 0xFFFFFFFF (by decide) (by decide)
      (by decide)).1,
    (payload_uint64_view_roundtrip 6000000000 0xFFFFFFFF 0xFFFFFFFF (by decide) (by decide)
      (by decide)).2.2⟩

/-- C13: the bool, int32 and uint32 views depend only on the low word. Two payload values with
the same low word, whatever their high words, have the same `GetAsBool`, `GetAsInt32` and
`GetAsUInt32`; `GetAsUInt32` is `GetPayloadLow`, and `GetAsBool` is true exactly when the low
word is non-zero. -/
theorem payload_narrow_views_read_low_word (p q : CommandPayloadValue)
    (h : p.GetPayloadLow = q.GetPayloadLow) :
    p.GetAsBool = q.GetAsBool ∧ p.GetAsInt32 = q.GetAsInt32 ∧ p.GetAsUInt32 = q.GetAsUInt32
    ∧ p.GetAsUInt32 = p.GetPayloadLow
    ∧ (p.GetAsBool = true ↔ p.GetPayloadLow ≠ 0) := by
  simp only [CommandPayloadValue.GetPayloadLow] at h
  simp [CommandPayloadValue.GetAsBool, CommandPayloadValue.GetAsInt32,
    CommandPayloadValue.GetAsUInt32, CommandPayloadValue.GetPayloadLow, h]

/-- C13 at the payloads `(0, 0xFFFFFFFF)` and `(0xDEADBEEF, 0xFFFFFFFF)`: both read as `true`,
`-1` and `0xFFFFFFFF`. -/
theorem payload_narrow_views_read_low_word_witness :
    CommandPayloadValue.GetAsBool ⟨0, 0xFFFFFFFF⟩
        = CommandPayloadValue.GetAsBool ⟨0xDEADBEEF, 0xFFFFFFFF⟩
    ∧ CommandPayloadValue.GetAsInt32 ⟨0, 0xFFFFFFFF⟩
        = CommandPayloadValue.GetAsInt32 ⟨0xDEADBEEF, 0xFFFFFFFF⟩
    ∧ CommandPayloadValue.GetAsInt32 ⟨0xDEADBEEF, 0xFFFFFFFF⟩ = -1
    ∧ CommandPayloadValue.GetAsUInt32 ⟨0, 0xFFFFFFFF⟩
        = CommandPayloadValue.GetAsUInt32 ⟨0xDEADBEEF, 0xFFFFFFFF⟩ :=
  ⟨(payload_narrow_views_read_low_word ⟨0, 0xFFFFFFFF⟩ ⟨0xDEADBEEF, 0xFFFFFFFF⟩ rfl).1,
    (payload_narrow_views_read_low_word ⟨0, 0xFFFFFFFF⟩ ⟨0xDEADBEEF, 0xFFFFFFFF⟩ rfl).2.1,
    by decide,
    (payload_narrow_views_read_low_word ⟨0, 0xFFFFFFFF⟩ ⟨0xDEADBEEF, 0xFFFFFFFF⟩ rfl).2.2.1⟩

/-- C14: the payload constructors give `(0, 0)` from nothing, `(0, 1)` from `true`, `(0, 0)`
from `false`, `(0, v mod 2^32)` from a signed 32-bit `v` and `(high, low)` from an explicit
pair; so `CommandPayloadValue(b).GetAsBool() = b` for every bool `b` and
`CommandPayloadValue(v).GetAsInt32() = v` for every signed 32-bit `v`. -/
theorem payload_constructors (b : Bool) (v : Int) (high low : Nat) (hlo : -2 ^ 31 ≤ v)
    (hhi : v < 2 ^ 31) :
    CommandPayloadValue.default = ⟨0, 0⟩
    ∧ CommandPayloadValue.ofBool true = ⟨0, 1⟩
    ∧ CommandPayloadValue.ofBool false = ⟨0, 0⟩
    ∧ (CommandPayloadValue.ofInt v).payloadHigh = 0
    ∧ ((CommandPayloadValue.ofInt v).payloadLow : Int) = v % 2 ^ 32
    ∧ CommandPayloadValue.ofWords high low = ⟨high, low⟩
    ∧ (CommandPayloadValue.ofBool b).GetAsBool = b
    ∧ (CommandPayloadValue.ofInt v).GetAsInt32 = v := by
  refine ⟨rfl, rfl, rfl, rfl, ?_, rfl, ?_, ?_⟩
  · simp only [CommandPayloadValue.ofInt, castUInt32]
    omega
  · cases b <;> rfl
  · simp only [CommandPayloadValue.ofInt, CommandPayloadValue.GetAsInt32, castUInt32, castInt32]
    split_ifs <;> omega

/-- C14 at `v = -2^31`, the least signed 32-bit value: the payload is `(0, 0x80000000)` and reads
back as `-2^31`. -/
theorem payload_constructors_witness :
    CommandPayloadValue.ofInt (-2 ^ 31) = ⟨0, 0x80000000⟩
    ∧ (CommandPayloadValue.ofInt (-2 ^ 31)).GetAsInt32 = -2 ^ 31
    ∧ (CommandPayloadValue.ofBool true).GetAsBool = true :=
  ⟨by decide,
    (payload_constructors true (-2 ^ 31) 0 0 (by decide) (by decide)).2.2.2.2.2.2.2,
    (payload_constructors true (-2 ^ 31) 0 0 (by decide) (by decide)).2.2.2.2.2.2.1⟩

/-- C15: when the device is not set up, `ProcessCommand` returns `NotInitialized` for every
command type, channel, set/get flag, payload and driver, leaves `(0, 0)` in the response payload
and leaves the device as it was: its history gains no event, so nothing is written to and
nothing is read from the transport. -/
theorem process_not_set_up_no_transport (c : PacketConstants) (t : Transport)
    (dev : RadioDevice) (ct : CommandType) (ch : Int) (isSet : Bool) (p : CommandPayloadValue)
    (hs : dev.isSetup = false) :
    (ProcessCommand c t dev ct ch isSet p).2
        = some (ErrorFlags.NotInitialized, CommandPayloadValue.default)
    ∧ (ProcessCommand c t dev ct ch isSet p).1 = dev
    ∧ (ProcessCommand c t dev ct ch isSet p).1.channelLog = dev.channelLog := by
  rw [ProcessCommand_not_set_up c t dev ct ch isSet p hs]
  exact ⟨rfl, rfl, rfl⟩

/-- C15 at a device that is not set up, with a driver that would answer every call with
success. -/
theorem process_not_set_up_no_transport_witness :
    (ProcessCommand sampleConstants (Transport.constant 0 0 []) RadioDevice.sampleNotSetUp
        CommandType.Gain 0 false CommandPayloadValue.default).2
        = some (ErrorFlags.NotInitialized, CommandPayloadValue.default)
    ∧ (ProcessCommand sampleConstants (Transport.constant 0 0 []) RadioDevice.sampleNotSetUp
        CommandType.Gain 0 false CommandPayloadValue.default).1.channelLog = [] :=
  ⟨(process_not_set_up_no_transport sampleConstants (Transport.constant 0 0 [])
      RadioDevice.sampleNotSetUp CommandType.Gain 0 false CommandPayloadValue.default rfl).1,
    (process_not_set_up_no_transport sampleConstants (Transport.constant 0 0 [])
      RadioDevice.sampleNotSetUp CommandType.Gain 0 false CommandPayloadValue.default rfl).2.2⟩

/-- C16: on a set-up device, `ProcessCommand` with a command type outside the named ones
returns `Unsuccessful` and leaves the device as it was: its history gains no event, so nothing
is written to and nothing is read from the transport. -/
theorem process_unrecognized_no_transport (c : PacketConstants) (t : Transport)
    (dev : RadioDevice) (ct : CommandType) (ch : Int) (isSet : Bool) (p : CommandPayloadValue)
    (hs : dev.isSetup = true) (hn : ct.isNamed = false) :
    (ProcessCommand c t dev ct ch isSet p).2
        = some (ErrorFlags.Unsuccessful, CommandPayloadValue.default)
    ∧ (ProcessCommand c t dev ct ch isSet p).1 = dev
    ∧ (ProcessCommand c t dev ct ch isSet p).1.channelLog = dev.channelLog := by
  rw [ProcessCommand_unnamed c t dev ct ch isSet p hs hn]
  exact ⟨rfl, rfl, rfl⟩

/-- C16 at a set-up device and the command type value 999, which no enumerator has. -/
theorem process_unrecognized_no_transport_witness :
    (ProcessCommand sampleConstants (Transport.constant 0 0 []) RadioDevice.sampleSetUp
        (CommandType.unnamed 999) 0 true CommandPayloadValue.default).2
        = some (ErrorFlags.Unsuccessful, CommandPayloadValue.default)
    ∧ (ProcessCommand sampleConstants (Transport.constant 0 0 []) RadioDevice.sampleSetUp
        (CommandType.unnamed 999) 0 true CommandPayloadValue.default).1.channelLog = [] :=
  ⟨(process_unrecognized_no_transport sampleConstants (Transport.constant 0 0 [])
      RadioDevice.sampleSetUp (CommandType.unnamed 999) 0 true CommandPayloadValue.default rfl
      rfl).1,
    (process_unrecognized_no_transport sampleConstants (Transport.constant 0 0 [])
      RadioDevice.sampleSetUp (CommandType.unnamed 999) 0 true CommandPayloadValue.default rfl
      rfl).2.2⟩

/-- C17: on a set-up device with a named command type, the request is 16 bytes and the events
`ProcessCommand` appends to the history are: when the write fails, the lock, one write of the
request bytes and the unlock, and the call returns `NotResponding` without a read; when the
write succeeds, the lock, one write of the request bytes, one read of 16 bytes and the unlock,
and the call returns `NotResponding` if that read fails. No operation occurs twice. -/
theorem process_one_write_then_one_read (c : PacketConstants) (t : Transport)
    (dev : RadioDevice) (ct : CommandType) (ch : Int) (isSet : Bool) (p : CommandPayloadValue)
    (hs : dev.isSetup = true) (hn : ct.isNamed = true) :
    (requestBytes c ct ch isSet p).length = 16
    ∧ (FT_FAILED (t.writeStatus dev (requestBytes c ct ch isSet p)) = true →
        (ProcessCommand c t dev ct ch isSet p).1.channelLog
            = dev.channelLog ++ [ChannelEvent.lock,
                ChannelEvent.writePipe CMD_WRITE_PIPE (requestBytes c ct ch isSet p) 16,
                ChannelEvent.unlock]
        ∧ (ProcessCommand c t dev ct ch isSet p).2
            = some (ErrorFlags.NotResponding, CommandPayloadValue.default))
    ∧ (FT_FAILED (t.writeStatus dev (requestBytes c ct ch isSet p)) = false →
        (ProcessCommand c t dev ct ch isSet p).1.channelLog
            = dev.channelLog ++ [ChannelEvent.lock,
                ChannelEvent.writePipe CMD_WRITE_PIPE (requestBytes c ct ch isSet p) 16,
                ChannelEvent.readPipe CMD_READ_PIPE 16, ChannelEvent.unlock]
        ∧ (FT_FAILED (t.readResult dev (requestBytes c ct ch isSet p)).1 = true →
            (ProcessCommand c t dev ct ch isSet p).2
              = some (ErrorFlags.NotResponding, CommandPayloadValue.default))) := by
  refine ⟨(serialized_length c ct ch isSet p), fun hw => ?_, fun hw => ?_⟩
  · rw [ProcessCommand_write_failed c t dev ct ch isSet p hs hn hw]
    exact ⟨rfl, rfl⟩
  · rw [ProcessCommand_write_ok c t dev ct ch isSet p hs hn hw]
    refine ⟨rfl, fun hr => ?_⟩
    simp only [hr, if_true]

/-- C17 at a set-up device: with a driver whose write fails (status 1) the history is lock,
write, unlock; with a driver whose write succeeds and whose read fails it is lock, write, read,
unlock; both calls return `NotResponding`. -/
theorem process_one_write_then_one_read_witness :
    ((ProcessCommand sampleConstants (Transport.constant 1 0 []) RadioDevice.sampleSetUp
        CommandType.Gain 2 false CommandPayloadValue.default).1.channelLog
        = [ChannelEvent.lock,
            ChannelEvent.writePipe 3 [0xA5, 0, 0, 0x42, 0, 0, 0, 0, 0, 0, 0, 0, 0x5A, 0, 0, 0] 16,
            ChannelEvent.unlock]
      ∧ (ProcessCommand sampleConstants (Transport.constant 1 0 []) RadioDevice.sampleSetUp
        CommandType.Gain 2 false CommandPayloadValue.default).2
        = some (ErrorFlags.NotResponding, CommandPayloadValue.default))
    ∧ ((ProcessCommand sampleConstants (Transport.constant 0 1 []) RadioDevice.sampleSetUp
        CommandType.Gain 2 false CommandPayloadValue.default).1.channelLog
        = [ChannelEvent.lock,
            ChannelEvent.writePipe 3 [0xA5, 0, 0, 0x42, 0, 0, 0, 0, 0, 0, 0, 0, 0x5A, 0, 0, 0] 16,
            ChannelEvent.readPipe 0x83 16, ChannelEvent.unlock]
      ∧ (ProcessCommand sampleConstants (Transport.constant 0 1 []) RadioDevice.sampleSetUp
        CommandType.Gain 2 false CommandPayloadValue.default).2
        = some (ErrorFlags.NotResponding, CommandPayloadValue.default)) :=
  ⟨(process_one_write_then_one_read sampleConstants (Transport.constant 1 0 [])
      RadioDevice.sampleSetUp CommandType.Gain 2 false CommandPayloadValue.default rfl
      rfl).2.1 (by decide),
    ((process_one_write_then_one_read sampleConstants (Transport.constant 0 1 [])
      RadioDevice.sampleSetUp CommandType.Gain 2 false CommandPayloadValue.default rfl
      rfl).2.2 (by decide)).1,
    ((process_one_write_then_one_read sampleConstants (Transport.constant 0 1 [])
      RadioDevice.sampleSetUp CommandType.Gain 2 false CommandPayloadValue.default rfl
      rfl).2.2 (by decide)).2 (by decide)⟩

/-- C18: when the device is set up, the command type is named, the write and the read succeed
and the received bytes parse as an invalid packet, `ProcessCommand` returns `ChecksumFailure`
for the packet error `ChecksumFailure`, `FramingError` for `FramingError` and `InvalidState` for
`NotAcknowledged`, and the packet error is one of these three. -/
theorem process_maps_packet_error (c : PacketConstants) (t : Transport) (dev : RadioDevice)
    (ct : CommandType) (ch : Int) (isSet : Bool) (p : CommandPayloadValue)
    (hs : dev.isSetup = true) (hn : ct.isNamed = true)
    (hw : FT_FAILED (t.writeStatus dev (requestBytes c ct ch isSet p)) = false)
    (hr : FT_FAILED (t.readResult dev (requestBytes c ct ch isSet p)).1 = false)
    (hv : (FromSerializedBytes c
      (t.readResult dev (requestBytes c ct ch isSet p)).2).isValid = false) :
    ((FromSerializedBytes c (t.readResult dev (requestBytes c ct ch isSet p)).2).responseError
        = DeviceResponseError.ChecksumFailure →
      (ProcessCommand c t dev ct ch isSet p).2
        = some (ErrorFlags.ChecksumFailure, CommandPayloadValue.default))
    ∧ ((FromSerializedBytes c (t.readResult dev (requestBytes c ct ch isSet p)).2).responseError
        = DeviceResponseError.FramingError →
      (ProcessCommand c t dev ct ch isSet p).2
        = some (ErrorFlags.FramingError, CommandPayloadValue.default))
    ∧ ((FromSerializedBytes c (t.readResult dev (requestBytes c ct ch isSet p)).2).responseError
        = DeviceResponseError.NotAcknowledged →
      (ProcessCommand c t dev ct ch isSet p).2
        = some (ErrorFlags.InvalidState, CommandPayloadValue.default))
    ∧ ((FromSerializedBytes c (t.readResult dev (requestBytes c ct ch isSet p)).2).responseError
          = DeviceResponseError.ChecksumFailure
        ∨ (FromSerializedBytes c
            (t.readResult dev (requestBytes c ct ch isSet p)).2).responseError
          = DeviceResponseError.FramingError
        ∨ (FromSerializedBytes c
            (t.readResult dev (requestBytes c ct ch isSet p)).2).responseError
          = DeviceResponseError.NotAcknowledged) := by
  rw [ProcessCommand_write_ok c t dev ct ch isSet p hs hn hw]
  simp only [hr, hv, Bool.false_eq_true, if_false]
  refine ⟨fun he => ?_, fun he => ?_, fun he => ?_, ?_⟩
  · rw [he]
  · rw [he]
  · rw [he]
  · exact ofRaw_invalid_error c _ _ _ hv

/-- C18 at a set-up device whose driver delivers the frames
`A5 00 00 42 | .. | 5A 00 00 01` (checksum field not zero), sixteen zero bytes (no prefix) and
`A5 02 00 42 | .. | 5A 00 00 00` (ack/nack bit set): the calls return `ChecksumFailure`,
`FramingError` and `InvalidState`. -/
theorem process_maps_packet_error_witness :
    (ProcessCommand sampleConstants
        (Transport.constant 0 0 [0xA5, 0, 0, 0x42, 0, 0, 0, 0, 0, 0, 0, 7, 0x5A, 0, 0, 1])
        RadioDevice.sampleSetUp CommandType.Gain 2 false CommandPayloadValue.default).2
        = some (ErrorFlags.ChecksumFailure, CommandPayloadValue.default)
    ∧ (ProcessCommand sampleConstants
        (Transport.constant 0 0 [0, 0, 0, 0, 0, 0, 0, 0, 0, 0, 0, 0, 0, 0, 0, 0])
        RadioDevice.sampleSetUp CommandType.Gain 2 false CommandPayloadValue.default).2
        = some (ErrorFlags.FramingError, CommandPayloadValue.default)
    ∧ (ProcessCommand sampleConstants
        (Transport.constant 0 0 [0xA5, 2, 0, 0x42, 0, 0, 0, 0, 0, 0, 0, 7, 0x5A, 0, 0, 0])
        RadioDevice.sampleSetUp CommandType.Gain 2 false CommandPayloadValue.default).2
        = some (ErrorFlags.InvalidState, CommandPayloadValue.default) :=
  ⟨(process_maps_packet_error sampleConstants
      (Transport.constant 0 0 [0xA5, 0, 0, 0x42, 0, 0, 0, 0, 0, 0, 0, 7, 0x5A, 0, 0, 1])
      RadioDevice.sampleSetUp CommandType.Gain 2 false CommandPayloadValue.default rfl rfl
      (by decide) (by decide) (by decide)).1 (by decide),
    (process_maps_packet_error sampleConstants
      (Transport.constant 0 0 [0, 0, 0, 0, 0, 0, 0, 0, 0, 0, 0, 0, 0, 0, 0, 0])
      RadioDevice.sampleSetUp CommandType.Gain 2 false CommandPayloadValue.default rfl rfl
      (by decide) (by decide) (by decide)).2.1 (by decide),
    (process_maps_packet_error sampleConstants
      (Transport.constant 0 0 [0xA5, 2, 0, 0x42, 0, 0, 0, 0, 0, 0, 0, 7, 0x5A, 0, 0, 0])
      RadioDevice.sampleSetUp CommandType.Gain 2 false CommandPayloadValue.default rfl rfl
      (by decide) (by decide) (by decide)).2.2.1 (by decide)⟩

/-- C19: when the device is set up, the command type is named, the write and the read succeed
and the 16 received bytes `b` parse as a valid packet, `ProcessCommand` returns `None` and the
response payload is `(ToUInt32 b[4..7], ToUInt32 b[8..11])`. -/
theorem process_valid_response_payload (c : PacketConstants) (t : Transport)
    (dev : RadioDevice) (ct : CommandType) (ch : Int) (isSet : Bool) (p : CommandPayloadValue)
    (hs : dev.isSetup = true) (hn : ct.isNamed = true)
    (hw : FT_FAILED (t.writeStatus dev (requestBytes c ct ch isSet p)) = false)
    (hr : FT_FAILED (t.readResult dev (requestBytes c ct ch isSet p)).1 = false)
    (hlen : (t.readResult dev (requestBytes c ct ch isSet p)).2.length = 16)
    (hv : (FromSerializedBytes c
      (t.readResult dev (requestBytes c ct ch isSet p)).2).isValid = true) :
    (ProcessCommand c t dev ct ch isSet p).2
      = some (ErrorFlags.None,
          ⟨ToUInt32 (((t.readResult dev (requestBytes c ct ch isSet p)).2.drop 4).take 4),
            ToUInt32 (((t.readResult dev (requestBytes c ct ch isSet p)).2.drop 8).take 4)⟩) := by
  rw [ProcessCommand_write_ok c t dev ct ch isSet p hs hn hw]
  simp only [hr, hv, Bool.false_eq_true, if_false, if_true]
  rw [FromSerializedBytes_payload c _ hlen]

/-- C19 at a set-up device whose driver delivers the frame
`A5 00 00 42 | 00 00 00 01 | 00 00 00 07 | 5A 00 00 00`: the call returns `None` with the
response payload `(1, 7)`. -/
theorem process_valid_response_payload_witness :
    (ProcessCommand sampleConstants
        (Transport.constant 0 0 [0xA5, 0, 0, 0x42, 0, 0, 0, 1, 0, 0, 0, 7, 0x5A, 0, 0, 0])
        RadioDevice.sampleSetUp CommandType.Gain 2 false CommandPayloadValue.default).2
        = some (ErrorFlags.None, ⟨1, 7⟩) :=
  process_valid_response_payload sampleConstants
    (Transport.constant 0 0 [0xA5, 0, 0, 0x42, 0, 0, 0, 1, 0, 0, 0, 7, 0x5A, 0, 0, 0])
    RadioDevice.sampleSetUp CommandType.Gain 2 false CommandPayloadValue.default rfl rfl
    (by decide) (by decide) (by decide) (by decide)

end THR

/-! ## Parameter operations: auxiliary facts -/

namespace THR

open BinaryConverter DeviceCommand RadioDevice

/-- An invalid packet parsed from bytes carries one of the three errors of the checks. -/
theorem FromSerializedBytes_invalid_error (c : PacketConstants) (b : List Nat)
    (hv : (FromSerializedBytes c b).isValid = false) :
    (FromSerializedBytes c b).responseError = DeviceResponseError.ChecksumFailure
    ∨ (FromSerializedBytes c b).responseError = DeviceResponseError.FramingError
    ∨ (FromSerializedBytes c b).responseError = DeviceResponseError.NotAcknowledged :=
  ofRaw_invalid_error c _ _ _ hv

/-- `ProcessCommand` changes neither `isSetup` nor `iqStreamSize`. -/
theorem ProcessCommand_frame (c : PacketConstants) (t : Transport) (dev : RadioDevice)
    (ct : CommandType) (ch : Int) (isSet : Bool) (p : CommandPayloadValue) :
    (ProcessCommand c t dev ct ch isSet p).1.isSetup = dev.isSetup
    ∧ (ProcessCommand c t dev ct ch isSet p).1.iqStreamSize = dev.iqStreamSize := by
  cases hs : dev.isSetup
  · rw [ProcessCommand_not_set_up c t dev ct ch isSet p hs]
    exact ⟨hs, rfl⟩
  · cases hn : ct.isNamed
    · rw [ProcessCommand_unnamed c t dev ct ch isSet p hs hn]
      exact ⟨hs, rfl⟩
    · cases hw : FT_FAILED (t.writeStatus dev (requestBytes c ct ch isSet p))
      · rw [ProcessCommand_write_ok c t dev ct ch isSet p hs hn hw]
        exact ⟨hs, rfl⟩
      · rw [ProcessCommand_write_failed c t dev ct ch isSet p hs hn hw]
        exact ⟨hs, rfl⟩

/-- `ProcessCommand` always returns: the `throw;` of the response-error `switch` is never
reached. -/
theorem ProcessCommand_returns (c : PacketConstants) (t : Transport) (dev : RadioDevice)
    (ct : CommandType) (ch : Int) (isSet : Bool) (p : CommandPayloadValue) :
    ∃ result responsePayload,
      (ProcessCommand c t dev ct ch isSet p).2 = some (result, responsePayload) := by
  cases hs : dev.isSetup
  · rw [ProcessCommand_not_set_up c t dev ct ch isSet p hs]
    exact ⟨_, _, rfl⟩
  · cases hn : ct.isNamed
    · rw [ProcessCommand_unnamed c t dev ct ch isSet p hs hn]
      exact ⟨_, _, rfl⟩
    · cases hw : FT_FAILED (t.writeStatus dev (requestBytes c ct ch isSet p))
      · rw [ProcessCommand_write_ok c t dev ct ch isSet p hs hn hw]
        cases hr : FT_FAILED (t.readResult dev (requestBytes c ct ch isSet p)).1
        · cases hv : (FromSerializedBytes c
              (t.readResult dev (requestBytes c ct ch isSet p)).2).isValid
          · simp only [Bool.false_eq_true, if_false]
            rcases FromSerializedBytes_invalid_error c _ hv with he | he | he <;> rw [he] <;>
              exact ⟨_, _, rfl⟩
          · simp only [Bool.false_eq_true, if_false, if_true]
            exact ⟨_, _, rfl⟩
        · simp only [if_true]
          exact ⟨_, _, rfl⟩
      · rw [ProcessCommand_write_failed c t dev ct ch isSet p hs hn hw]
        exact ⟨_, _, rfl⟩

/-- On a set-up device, a transaction of a named command type adds one write to the history. -/
theorem ProcessCommand_writeCount (c : PacketConstants) (t : Transport) (dev : RadioDevice)
    (ct : CommandType) (ch : Int) (isSet : Bool) (p : CommandPayloadValue)
    (hs : dev.isSetup = true) (hn : ct.isNamed = true) :
    writeCount (ProcessCommand c t dev ct ch isSet p).1.channelLog
      = writeCount dev.channelLog + 1 := by
  cases hw : FT_FAILED (t.writeStatus dev (requestBytes c ct ch isSet p))
  · rw [ProcessCommand_write_ok c t dev ct ch isSet p hs hn hw]
    simp [writeCount, List.countP_append, List.countP_cons, ChannelEvent.isWrite]
  · rw [ProcessCommand_write_failed c t dev ct ch isSet p hs hn hw]
    simp [writeCount, List.countP_append, List.countP_cons, ChannelEvent.isWrite]

/-- The flag and the chunk size `SetSampleRate` leaves, in terms of the transaction inside. -/
theorem SetSampleRate_of_result (c : PacketConstants) (t : Transport) (dev : RadioDevice)
    (ch : Int) (rate : Nat) (result : ErrorFlags) (rp : CommandPayloadValue)
    (h : (ProcessCommand c t dev CommandType.SampleRate ch true
      (CommandPayloadValue.ofUInt64 rate)).2 = some (result, rp)) :
    (SetSampleRate c t dev ch rate).2 = some result
    ∧ (SetSampleRate c t dev ch rate).1.iqStreamSize
        = if result = ErrorFlags.None then
            (if rate ≤ 1000000 then 65536 else if rate ≤ 2000000 then 262144
              else if rate < 30000000 then 1048576 else 4194304)
          else dev.iqStreamSize := by
  have hf := (ProcessCommand_frame c t dev CommandType.SampleRate ch true
    (CommandPayloadValue.ofUInt64 rate)).2
  simp only [SetSampleRate, h]
  by_cases hr : result = ErrorFlags.None
  · subst hr
    simp [ERROR_FLAGS_SUCCESS, SLOW_RATE_STREAM_SIZE_BYTES, MED_LOW_RATE_STREAM_SIZE_BYTES,
      MED_RATE_STREAM_SIZE_BYTES, FAST_RATE_STREAM_SIZE_BYTES]
  · simp [ERROR_FLAGS_SUCCESS, hr, hf]

/-- The test `IsDeviceInRecoveryMode` makes is the test of bit 15. -/
theorem and_0x8000_eq_iff (w : Nat) :
    (w &&& 0x00008000 = 0x00008000) ↔ w.testBit 15 = true := by
  have e := Nat.and_two_pow w 15
  have e2 : (0x00008000 : Nat) = 2 ^ 15 := by norm_num
  rw [e2, e]
  cases w.testBit 15 <;> simp

/-- Bits 16 and up, bit 15 and bits 0..14 of a word make up the word. -/
theorem version_word_partition (w : Nat) :
    w = ((w >>> 16) <<< 16) ||| (if w.testBit 15 then 0x8000 else 0) ||| (w &&& 0x7FFF) := by
  have e1 : w &&& 0x7FFF = w % 2 ^ 15 := Nat.and_pow_two_sub_one_eq_mod w 15
  have e2 : (w >>> 16) <<< 16 = 2 ^ 16 * (w / 2 ^ 16) := by
    rw [Nat.shiftLeft_eq, Nat.shiftRight_eq_div_pow, Nat.mul_comm]
  have e3 : (if w.testBit 15 then 0x8000 else 0) = 2 ^ 15 * (w / 2 ^ 15 % 2) := by
    rw [Nat.testBit_to_div_mod]
    have hb : w / 2 ^ 15 % 2 = 0 ∨ w / 2 ^ 15 % 2 = 1 := by omega
    rcases hb with h | h <;> rw [h] <;> simp
  rw [e1, e2, e3, or_eq_add_of_lt _ _ 16 (by omega)]
  have r : 2 ^ 16 * (w / 2 ^ 16) + 2 ^ 15 * (w / 2 ^ 15 % 2)
      = 2 ^ 15 * (2 * (w / 2 ^ 16) + w / 2 ^ 15 % 2) := by omega
  rw [r, or_eq_add_of_lt _ _ 15 (Nat.mod_lt _ (by norm_num))]
  omega

end THR

/-! ## The claims about the failed response and the parameter operations -/

namespace THR

open BinaryConverter DeviceCommand RadioDevice

/-- C21, evaluated on the code: when the transmit fails, the response `CommandChannelTransact`
leaves is the synthetic failed packet (invalid, `DeviceNotResponding`); when the transmit
succeeds and the receive fails, it is the packet built from the raw words `0, (0, 0), 0`, whose
error is the verdict of `IsRawPacketValid` on these words and never `DeviceNotResponding`. -/
theorem transact_no_response_packet (c : PacketConstants) (t : Transport) (dev : RadioDevice)
    (command : DeviceCommand) :
    (FT_FAILED (t.FT_WritePipe dev.channelLog CMD_WRITE_PIPE command.ToSerializedBytes 16)
        = true →
      (CommandChannelTransact c t dev command).2.1 = ErrorFlags.Unsuccessful
      ∧ (CommandChannelTransact c t dev command).2.2 = CreateInvalidResponse command
      ∧ (CommandChannelTransact c t dev command).2.2.isValid = false
      ∧ (CommandChannelTransact c t dev command).2.2.responseError
          = DeviceResponseError.DeviceNotResponding)
    ∧ (FT_FAILED (t.FT_WritePipe dev.channelLog CMD_WRITE_PIPE command.ToSerializedBytes 16)
        = false →
      FT_FAILED (t.FT_ReadPipe (dev.channelLog
        ++ [ChannelEvent.writePipe CMD_WRITE_PIPE command.ToSerializedBytes 16])
        CMD_READ_PIPE 16).1 = true →
      (CommandChannelTransact c t dev command).2.1 = ErrorFlags.Unsuccessful
      ∧ (CommandChannelTransact c t dev command).2.2
          = DeviceCommand.ofRaw c 0 (CommandPayloadValue.ofWords 0 0) 0
      ∧ (CommandChannelTransact c t dev command).2.2.responseError
          ≠ DeviceResponseError.DeviceNotResponding) := by
  constructor
  · intro hw
    simp [CommandChannelTransact, CommandChannelTransmit, hw, CreateInvalidResponse,
      DeviceCommand.ofFailed]
  · intro hw hr
    have hne : (DeviceCommand.ofRaw c 0 (CommandPayloadValue.ofWords 0 0) 0).responseError
        ≠ DeviceResponseError.DeviceNotResponding := by
      simp only [DeviceCommand.ofRaw, IsRawPacketValid]
      split_ifs <;> simp
    have e : (CommandChannelTransact c t dev command).2
        = (ErrorFlags.Unsuccessful,
            DeviceCommand.ofRaw c 0 (CommandPayloadValue.ofWords 0 0) 0) := by
      simp [CommandChannelTransact, CommandChannelTransmit, hw, CommandChannelReceive, hr]
    rw [e]
    exact ⟨rfl, rfl, hne⟩

/-- C21 at the failing input: the get-`Gain` request on channel 0, a write that succeeds and a
read that fails (status 1). Under the sample constants the response is classified
`FramingError`, not `DeviceNotResponding`. -/
theorem transact_no_response_packet_witness :
    (CommandChannelTransact sampleConstants (Transport.constant 0 1 []) RadioDevice.sampleSetUp
        (DeviceCommand.ofIntent sampleConstants CommandType.Gain RadioChannel.One false
          CommandPayloadValue.default)).2.2.responseError = DeviceResponseError.FramingError
    ∧ (CommandChannelTransact sampleConstants (Transport.constant 0 1 [])
        RadioDevice.sampleSetUp
        (DeviceCommand.ofIntent sampleConstants CommandType.Gain RadioChannel.One false
          CommandPayloadValue.default)).2.2.responseError
        ≠ DeviceResponseError.DeviceNotResponding :=
  ⟨by decide,
    ((transact_no_response_packet sampleConstants (Transport.constant 0 1 [])
      RadioDevice.sampleSetUp
      (DeviceCommand.ofIntent sampleConstants CommandType.Gain RadioChannel.One false
        CommandPayloadValue.default)).2 (by decide) (by decide)).2.2⟩

/-- C22: `GetSampleRate` reports the corrected value of the raw 64-bit rate `r` read from the
response. If `r` is odd and `r & 0x02 == 0x02` the reported rate is `r + 1` (a 64-bit addition:
`r + 1` for every `r` but `2^64 - 1`); if `r` is odd and `r & 0x02 == 0` it is `r - 1`; if `r` is
even it is `r`. Raw 999,999 and raw 1,000,001 are both reported as 1,000,000. -/
theorem sample_rate_read_correction (c : PacketConstants) (t : Transport) (dev : RadioDevice)
    (ch : Int) (r : Nat) (hr : r < 2 ^ 64) :
    (GetSampleRate c t dev ch).2
        = (ProcessCommand c t dev CommandType.SampleRate ch false
            CommandPayloadValue.default).2.map
          (fun x => (x.1, GetSampleRate.correct x.2.GetAsUInt64))
    ∧ (r % 2 = 1 → r &&& 0x02 = 0x02 →
        GetSampleRate.correct r = (r + 1) % 2 ^ 64
        ∧ (r < 2 ^ 64 - 1 → GetSampleRate.correct r = r + 1))
    ∧ (r % 2 = 1 → r &&& 0x02 = 0 → GetSampleRate.correct r = r - 1)
    ∧ (r % 2 = 0 → GetSampleRate.correct r = r)
    ∧ (r &&& 0x02 = 0x02 ∨ r &&& 0x02 = 0)
    ∧ GetSampleRate.correct 999999 = 1000000
    ∧ GetSampleRate.correct 1000001 = 1000000 := by
  refine ⟨rfl, fun h1 h2 => ?_, fun h1 h2 => ?_, fun h0 => ?_, ?_, by decide, by decide⟩
  · have e : GetSampleRate.correct r = (r + 1) % 2 ^ 64 := by
      simp [GetSampleRate.correct, h1, h2]
    refine ⟨e, fun hlt => ?_⟩
    rw [e]
    omega
  · have e : GetSampleRate.correct r = (r + (2 ^ 64 - 1)) % 2 ^ 64 := by
      simp [GetSampleRate.correct, h1, h2]
    rw [e]
    omega
  · simp [GetSampleRate.correct, h0]
  · have e := Nat.and_two_pow r 1
    simp only [pow_one] at e
    rw [e]
    cases r.testBit 1 <;> simp

/-- C22 at a device whose response carries the raw rate 999,999 (payload
`(0, 0x000F423F)`): `GetSampleRate` reports 1,000,000. -/
theorem sample_rate_read_correction_witness :
    (GetSampleRate sampleConstants
        (Transport.constant 0 0
          [0xA5, 0, 0, 0x70, 0, 0, 0, 0, 0x00, 0x0F, 0x42, 0x3F, 0x5A, 0, 0, 0])
        RadioDevice.sampleSetUp 0).2 = some (ErrorFlags.None, 1000000)
    ∧ GetSampleRate.correct 999999 = 999999 + 1
    ∧ GetSampleRate.correct 1000001 = 1000001 - 1 :=
  ⟨by decide,
    ((sample_rate_read_correction sampleConstants (Transport.constant 0 0 [])
      RadioDevice.sampleSetUp 0 999999 (by decide)).2.1 (by decide) (by decide)).2 (by decide),
    (sample_rate_read_correction sampleConstants (Transport.constant 0 0 [])
      RadioDevice.sampleSetUp 0 1000001 (by decide)).2.2.1 (by decide) (by decide)⟩

/-- C23: after a successful `SetSampleRate(rate)`, `GetIQStreamSize()` returns 65536 if
`rate <= 1,000,000`, 262144 if `1,000,000 < rate <= 2,000,000`, 1048576 if
`2,000,000 < rate < 30,000,000` and 4194304 if `rate >= 30,000,000`. -/
theorem sample_rate_write_sets_chunk_size (c : PacketConstants) (t : Transport)
    (dev : RadioDevice) (ch : Int) (rate : Nat)
    (hok : (SetSampleRate c t dev ch rate).2 = some ErrorFlags.None) :
    (rate ≤ 1000000 → GetIQStreamSize (SetSampleRate c t dev ch rate).1 = 65536)
    ∧ (1000000 < rate → rate ≤ 2000000 →
        GetIQStreamSize (SetSampleRate c t dev ch rate).1 = 262144)
    ∧ (2000000 < rate → rate < 30000000 →
        GetIQStreamSize (SetSampleRate c t dev ch rate).1 = 1048576)
    ∧ (30000000 ≤ rate → GetIQStreamSize (SetSampleRate c t dev ch rate).1 = 4194304) := by
  obtain ⟨result, rp, h⟩ := ProcessCommand_returns c t dev CommandType.SampleRate ch true
    (CommandPayloadValue.ofUInt64 rate)
  obtain ⟨h2, h1⟩ := SetSampleRate_of_result c t dev ch rate result rp h
  rw [hok] at h2
  have hres : result = ErrorFlags.None := by
    injection h2 with h2
    exact h2.symm
  simp only [GetIQStreamSize, h1, hres, if_true]
  refine ⟨fun a => ?_, fun a b => ?_, fun a b => ?_, fun a => ?_⟩
  · simp [a]
  · have n1 : ¬ rate ≤ 1000000 := by omega
    simp [n1, b]
  · have n1 : ¬ rate ≤ 1000000 := by omega
    have n2 : ¬ rate ≤ 2000000 := by omega
    simp [n1, n2, b]
  · have n1 : ¬ rate ≤ 1000000 := by omega
    have n2 : ¬ rate ≤ 2000000 := by omega
    have n3 : ¬ rate < 30000000 := by omega
    simp [n1, n2, n3]

/-- C23 at the six boundary rates, on a set-up device whose driver answers with a valid
response: 1,000,000 and 1,000,001, 2,000,000 and 2,000,001, 29,999,999 and 30,000,000 fall in
different buckets. -/
theorem sample_rate_write_sets_chunk_size_witness :
    GetIQStreamSize (SetSampleRate sampleConstants (Transport.constant 0 0 sampleResponse)
        RadioDevice.sampleSetUp 0 1000000).1 = 65536
    ∧ GetIQStreamSize (SetSampleRate sampleConstants (Transport.constant 0 0 sampleResponse)
        RadioDevice.sampleSetUp 0 1000001).1 = 262144
    ∧ GetIQStreamSize (SetSampleRate sampleConstants (Transport.constant 0 0 sampleResponse)
        RadioDevice.sampleSetUp 0 2000000).1 = 262144
    ∧ GetIQStreamSize (SetSampleRate sampleConstants (Transport.constant 0 0 sampleResponse)
        RadioDevice.sampleSetUp 0 2000001).1 = 1048576
    ∧ GetIQStreamSize (SetSampleRate sampleConstants (Transport.constant 0 0 sampleResponse)
        RadioDevice.sampleSetUp 0 29999999).1 = 1048576
    ∧ GetIQStreamSize (SetSampleRate sampleConstants (Transport.constant 0 0 sampleResponse)
        RadioDevice.sampleSetUp 0 30000000).1 = 4194304 :=
  ⟨(sample_rate_write_sets_chunk_size sampleConstants (Transport.constant 0 0 sampleResponse)
      RadioDevice.sampleSetUp 0 1000000 (by decide)).1 (by decide),
    (sample_rate_write_sets_chunk_size sampleConstants (Transport.constant 0 0 sampleResponse)
      RadioDevice.sampleSetUp 0 1000001 (by decide)).2.1 (by decide) (by decide),
    (sample_rate_write_sets_chunk_size sampleConstants (Transport.constant 0 0 sampleResponse)
      RadioDevice.sampleSetUp 0 2000000 (by decide)).2.1 (by decide) (by decide),
    (sample_rate_write_sets_chunk_size sampleConstants (Transport.constant 0 0 sampleResponse)
      RadioDevice.sampleSetUp 0 2000001 (by decide)).2.2.1 (by decide) (by decide),
    (sample_rate_write_sets_chunk_size sampleConstants (Transport.constant 0 0 sampleResponse)
      RadioDevice.sampleSetUp 0 29999999 (by decide)).2.2.1 (by decide) (by decide),
    (sample_rate_write_sets_chunk_size sampleConstants (Transport.constant 0 0 sampleResponse)
      RadioDevice.sampleSetUp 0 30000000 (by decide)).2.2.2 (by decide)⟩

/-- C24: if the transaction inside `SetSampleRate` returns an error other than `None`,
`GetIQStreamSize()` after the call equals `GetIQStreamSize()` before it, for every requested
rate, and `SetSampleRate` returns that error. -/
theorem failed_rate_write_keeps_chunk_size (c : PacketConstants) (t : Transport)
    (dev : RadioDevice) (ch : Int) (rate : Nat) (result : ErrorFlags) (rp : CommandPayloadValue)
    (h : (ProcessCommand c t dev CommandType.SampleRate ch true
      (CommandPayloadValue.ofUInt64 rate)).2 = some (result, rp))
    (hne : result ≠ ErrorFlags.None) :
    GetIQStreamSize (SetSampleRate c t dev ch rate).1 = GetIQStreamSize dev
    ∧ (SetSampleRate c t dev ch rate).2 = some result := by
  obtain ⟨h2, h1⟩ := SetSampleRate_of_result c t dev ch rate result rp h
  refine ⟨?_, h2⟩
  simp only [GetIQStreamSize, h1, hne, if_false]

/-- C24 on a set-up device whose driver fails the write: the rate 30,000,000 is refused with
`NotResponding` and the chunk size stays 1048576. -/
theorem failed_rate_write_keeps_chunk_size_witness :
    GetIQStreamSize (SetSampleRate sampleConstants (Transport.constant 1 0 [])
        RadioDevice.sampleSetUp 0 30000000).1 = 1048576
    ∧ (SetSampleRate sampleConstants (Transport.constant 1 0 [])
        RadioDevice.sampleSetUp 0 30000000).2 = some ErrorFlags.NotResponding :=
  failed_rate_write_keeps_chunk_size sampleConstants (Transport.constant 1 0 [])
    RadioDevice.sampleSetUp 0 30000000 ErrorFlags.NotResponding CommandPayloadValue.default
    (by decide) (by decide)

/-- C25: `SetLOFrequency(channel, f)` returns `InvalidParameter` and leaves the device as it was
(no event is added to the history) for every `f < 70,000,000` and every `f > 6,000,000,000`,
whether the device is set up or not; for every `f` in `[70,000,000, 6,000,000,000]` it is one
set transaction of type `LOFrequency` on that channel with payload `(f >> 32, f mod 2^32)`, and
it returns the flag of that transaction. -/
theorem lo_frequency_range_check (c : PacketConstants) (t : Transport) (dev : RadioDevice)
    (ch : Int) (f : Nat) :
    (f < 70000000 ∨ f > 6000000000 →
      SetLOFrequency c t dev ch f = (dev, some ErrorFlags.InvalidParameter))
    ∧ (70000000 ≤ f → f ≤ 6000000000 →
      SetLOFrequency c t dev ch f
        = ((ProcessCommand c t dev CommandType.LOFrequency ch true ⟨f >>> 32, f % 2 ^ 32⟩).1,
            (ProcessCommand c t dev CommandType.LOFrequency ch true
              ⟨f >>> 32, f % 2 ^ 32⟩).2.map fun x => x.1)) := by
  constructor
  · intro h
    simp [SetLOFrequency, h]
  · intro h1 h2
    have hn : ¬ (f < 70000000 ∨ f > 6000000000) := by omega
    have hp : CommandPayloadValue.ofUInt64 f = ⟨f >>> 32, f % 2 ^ 32⟩ := by
      have s : f >>> 32 = f / 2 ^ 32 := Nat.shiftRight_eq_div_pow f 32
      simp only [CommandPayloadValue.ofUInt64, s, CommandPayloadValue.mk.injEq, and_true]
      omega
    simp only [SetLOFrequency, hn, if_false, hp]

/-- C25 at the four boundary frequencies on a set-up device: 69,999,999 and 6,000,000,001 are
refused without an event; 70,000,000 and 6,000,000,000 are sent, the latter with payload
`(1, 0x65A0BC00)`. -/
theorem lo_frequency_range_check_witness :
    SetLOFrequency sampleConstants (Transport.constant 0 0 sampleResponse)
        RadioDevice.sampleSetUp 0 69999999
        = (RadioDevice.sampleSetUp, some ErrorFlags.InvalidParameter)
    ∧ SetLOFrequency sampleConstants (Transport.constant 0 0 sampleResponse)
        RadioDevice.sampleSetUp 0 6000000001
        = (RadioDevice.sampleSetUp, some ErrorFlags.InvalidParameter)
    ∧ (SetLOFrequency sampleConstants (Transport.constant 0 0 sampleResponse)
        RadioDevice.sampleSetUp 0 70000000).2 = some ErrorFlags.None
    ∧ (SetLOFrequency sampleConstants (Transport.constant 0 0 sampleResponse)
        RadioDevice.sampleSetUp 0 6000000000).1.channelLog
        = [ChannelEvent.lock,
            ChannelEvent.writePipe 3
              [0xA5, 0x01, 0x00, 0x30, 0, 0, 0, 1, 0x65, 0xA0, 0xBC, 0x00, 0x5A, 0, 0, 0] 16,
            ChannelEvent.readPipe 0x83 16, ChannelEvent.unlock] :=
  ⟨(lo_frequency_range_check sampleConstants (Transport.constant 0 0 sampleResponse)
      RadioDevice.sampleSetUp 0 69999999).1 (by decide),
    (lo_frequency_range_check sampleConstants (Transport.constant 0 0 sampleResponse)
      RadioDevice.sampleSetUp 0 6000000001).1 (by decide),
    by decide, by decide⟩

/-- C28: for every successful `ERMVersion` response payload `(high, low)`,
`GetERMSoftwareVersion` reports `high & 0x7FFF`, `IsDeviceInRecoveryMode` reports whether bit 15
of `high` is set, `GetFPGAType` reports `high >> 16` and `GetERMHardwareVersion` reports
`low & 0xFFFF`; and the three fields of the high word partition it:
`high = (fpgaType << 16) | (recovery ? 0x8000 : 0) | softwareVersion`. -/
theorem version_word_fields (c : PacketConstants) (t : Transport) (dev : RadioDevice)
    (rp : CommandPayloadValue)
    (h : (ProcessCommand c t dev CommandType.ERMVersion 0 false CommandPayloadValue.default).2
      = some (ErrorFlags.None, rp)) :
    (GetERMSoftwareVersion c t dev).2 = some (ErrorFlags.None, rp.payloadHigh &&& 0x7FFF)
    ∧ (IsDeviceInRecoveryMode c t dev).2 = some (ErrorFlags.None, rp.payloadHigh.testBit 15)
    ∧ (GetFPGAType c t dev).2 = some (ErrorFlags.None, rp.payloadHigh >>> 16)
    ∧ (GetERMHardwareVersion c t dev).2 = some (ErrorFlags.None, rp.payloadLow &&& 0xFFFF)
    ∧ rp.payloadHigh
        = ((rp.payloadHigh >>> 16) <<< 16) ||| (if rp.payloadHigh.testBit 15 then 0x8000 else 0)
            ||| (rp.payloadHigh &&& 0x7FFF) := by
  refine ⟨?_, ?_, ?_, ?_, version_word_partition rp.payloadHigh⟩
  · simp [GetERMSoftwareVersion, h, ERROR_FLAGS_SUCCESS, CommandPayloadValue.GetPayloadHigh]
  · simp only [IsDeviceInRecoveryMode, h, Option.map_some', ERROR_FLAGS_SUCCESS,
      beq_self_eq_true, if_true, CommandPayloadValue.GetPayloadHigh, and_0x8000_eq_iff]
    cases rp.payloadHigh.testBit 15 <;> simp
  · simp [GetFPGAType, h, ERROR_FLAGS_SUCCESS, CommandPayloadValue.GetPayloadHigh]
  · simp [GetERMHardwareVersion, h, ERROR_FLAGS_SUCCESS, CommandPayloadValue.GetPayloadLow]

/-- C28 at the response payload `(0x00038123, 0x00000042)`: software version `0x123`, recovery
mode on, FPGA type 3, hardware version `0x42`. -/
theorem version_word_fields_witness :
    (GetERMSoftwareVersion sampleConstants (Transport.constant 0 0 sampleResponse)
        RadioDevice.sampleSetUp).2 = some (ErrorFlags.None, 0x123)
    ∧ (IsDeviceInRecoveryMode sampleConstants (Transport.constant 0 0 sampleResponse)
        RadioDevice.sampleSetUp).2 = some (ErrorFlags.None, true)
    ∧ (GetFPGAType sampleConstants (Transport.constant 0 0 sampleResponse)
        RadioDevice.sampleSetUp).2 = some (ErrorFlags.None, 3)
    ∧ (GetERMHardwareVersion sampleConstants (Transport.constant 0 0 sampleResponse)
        RadioDevice.sampleSetUp).2 = some (ErrorFlags.None, 0x42) :=
  ⟨(version_word_fields sampleConstants (Transport.constant 0 0 sampleResponse)
      RadioDevice.sampleSetUp ⟨0x00038123, 0x00000042⟩ (by decide)).1,
    (version_word_fields sampleConstants (Transport.constant 0 0 sampleResponse)
      RadioDevice.sampleSetUp ⟨0x00038123, 0x00000042⟩ (by decide)).2.1,
    (version_word_fields sampleConstants (Transport.constant 0 0 sampleResponse)
      RadioDevice.sampleSetUp ⟨0x00038123, 0x00000042⟩ (by decide)).2.2.1,
    (version_word_fields sampleConstants (Transport.constant 0 0 sampleResponse)
      RadioDevice.sampleSetUp ⟨0x00038123, 0x00000042⟩ (by decide)).2.2.2.1⟩

/-- C29 as stated fails: on a set-up device whose driver answers every call with a valid
response, obtaining the software version, the hardware version, the FPGA type and the
recovery-mode flag through the four accessors leaves four writes in the history of the command
transport, not one. -/
theorem version_accessors_four_transactions :
    (GetERMSoftwareVersion sampleConstants (Transport.constant 0 0 sampleResponse)
        RadioDevice.sampleSetUp).2 = some (ErrorFlags.None, 0x123)
    ∧ writeCount RadioDevice.sampleSetUp.channelLog = 0
    ∧ writeCount
        (IsDeviceInRecoveryMode sampleConstants (Transport.constant 0 0 sampleResponse)
          (GetFPGAType sampleConstants (Transport.constant 0 0 sampleResponse)
            (GetERMHardwareVersion sampleConstants (Transport.constant 0 0 sampleResponse)
              (GetERMSoftwareVersion sampleConstants (Transport.constant 0 0 sampleResponse)
                RadioDevice.sampleSetUp).1).1).1).1.channelLog = 4 := by
  decide

/-- C29, amended: on a set-up device each of the four accessors issues one `ERMVersion`
transaction of its own (one write on the command transport), whatever the driver does, and
obtaining all four values through them issues four. -/
theorem version_accessors_one_transaction_each (c : PacketConstants) (t : Transport)
    (dev : RadioDevice) (hs : dev.isSetup = true) :
    writeCount (GetERMSoftwareVersion c t dev).1.channelLog = writeCount dev.channelLog + 1
    ∧ writeCount (GetERMHardwareVersion c t dev).1.channelLog = writeCount dev.channelLog + 1
    ∧ writeCount (GetFPGAType c t dev).1.channelLog = writeCount dev.channelLog + 1
    ∧ writeCount (IsDeviceInRecoveryMode c t dev).1.channelLog = writeCount dev.channelLog + 1
    ∧ writeCount (IsDeviceInRecoveryMode c t (GetFPGAType c t (GetERMHardwareVersion c t
        (GetERMSoftwareVersion c t dev).1).1).1).1.channelLog
        = writeCount dev.channelLog + 4 := by
  have step : ∀ d : RadioDevice, d.isSetup = true →
      writeCount (ProcessCommand c t d CommandType.ERMVersion 0 false
        CommandPayloadValue.default).1.channelLog = writeCount d.channelLog + 1
      ∧ (ProcessCommand c t d CommandType.ERMVersion 0 false
        CommandPayloadValue.default).1.isSetup = true := by
    intro d hd
    refine ⟨ProcessCommand_writeCount c t d _ 0 false _ hd rfl, ?_⟩
    rw [(ProcessCommand_frame c t d _ 0 false _).1, hd]
  have s1 := step dev hs
  have s2 := step _ s1.2
  have s3 := step _ s2.2
  have s4 := step _ s3.2
  refine ⟨s1.1, s1.1, s1.1, s1.1, ?_⟩
  have a1 := s1.1
  have a2 := s2.1
  have a3 := s3.1
  have a4 := s4.1
  simp only [IsDeviceInRecoveryMode, GetFPGAType, GetERMHardwareVersion, GetERMSoftwareVersion]
  omega

/-- C29, amended, on the sample set-up device with a driver whose reads fail: the four
accessors still issue four writes. -/
theorem version_accessors_one_transaction_each_witness :
    writeCount (IsDeviceInRecoveryMode sampleConstants (Transport.constant 0 1 [])
        (GetFPGAType sampleConstants (Transport.constant 0 1 [])
          (GetERMHardwareVersion sampleConstants (Transport.constant 0 1 [])
            (GetERMSoftwareVersion sampleConstants (Transport.constant 0 1 [])
              RadioDevice.sampleSetUp).1).1).1).1.channelLog
      = writeCount RadioDevice.sampleSetUp.channelLog + 4 :=
  (version_accessors_one_transaction_each sampleConstants (Transport.constant 0 1 [])
    RadioDevice.sampleSetUp rfl).2.2.2.2

/-- C30: `GetReferenceSource`, `SetReferenceSource` and `SetAdditionalAGCParameters` return
`OperationUnsupported` for every argument and every device state, and leave the device as it
was (no event is added to the history); `GetReferenceSource` reports `isInternal = true`. -/
theorem unsupported_operations_no_transport (dev : RadioDevice) (isInternal : Bool) (ch : Int)
    (paramList : Option (List Int)) :
    GetReferenceSource dev = (dev, ErrorFlags.OperationUnsupported, true)
    ∧ SetReferenceSource dev isInternal = (dev, ErrorFlags.OperationUnsupported)
    ∧ SetAdditionalAGCParameters dev ch paramList = (dev, ErrorFlags.OperationUnsupported)
    ∧ (GetReferenceSource dev).1.channelLog = dev.channelLog
    ∧ (SetReferenceSource dev isInternal).1.channelLog = dev.channelLog
    ∧ (SetAdditionalAGCParameters dev ch paramList).1.channelLog = dev.channelLog :=
  ⟨rfl, rfl, rfl, rfl, rfl, rfl⟩

end THR

/-! ## Further operations: auxiliary facts -/

set_option maxRecDepth 4096

namespace THR

open BinaryConverter DeviceCommand RadioDevice

/-- `ProcessCommand` returns one of seven flags, and a flag other than `None` comes with the
payload `(0, 0)`. -/
theorem ProcessCommand_result (c : PacketConstants) (t : Transport) (dev : RadioDevice)
    (ct : CommandType) (ch : Int) (isSet : Bool) (p : CommandPayloadValue) :
    ∃ result responsePayload,
      (ProcessCommand c t dev ct ch isSet p).2 = some (result, responsePayload)
      ∧ result ∈ [ErrorFlags.None, ErrorFlags.NotInitialized, ErrorFlags.Unsuccessful,
          ErrorFlags.NotResponding, ErrorFlags.ChecksumFailure, ErrorFlags.FramingError,
          ErrorFlags.InvalidState]
      ∧ (result ≠ ErrorFlags.None → responsePayload = CommandPayloadValue.default) := by
  cases hs : dev.isSetup
  · rw [ProcessCommand_not_set_up c t dev ct ch isSet p hs]
    exact ⟨_, _, rfl, by simp, fun _ => rfl⟩
  · cases hn : ct.isNamed
    · rw [ProcessCommand_unnamed c t dev ct ch isSet p hs hn]
      exact ⟨_, _, rfl, by simp, fun _ => rfl⟩
    · cases hw : FT_FAILED (t.writeStatus dev (requestBytes c ct ch isSet p))
      · rw [ProcessCommand_write_ok c t dev ct ch isSet p hs hn hw]
        cases hr : FT_FAILED (t.readResult dev (requestBytes c ct ch isSet p)).1
        · cases hv : (FromSerializedBytes c
              (t.readResult dev (requestBytes c ct ch isSet p)).2).isValid
          · simp only [Bool.false_eq_true, if_false]
            rcases FromSerializedBytes_invalid_error c _ hv with he | he | he <;> rw [he] <;>
              exact ⟨_, _, rfl, by simp, fun _ => rfl⟩
          · simp only [Bool.false_eq_true, if_false, if_true]
            exact ⟨_, _, rfl, by simp, fun h => absurd rfl h⟩
        · simp only [if_true]
          exact ⟨_, _, rfl, by simp, fun _ => rfl⟩
      · rw [ProcessCommand_write_failed c t dev ct ch isSet p hs hn hw]
        exact ⟨_, _, rfl, by simp, fun _ => rfl⟩

/-- A flag other than `None` comes with the payload `(0, 0)`. -/
theorem ProcessCommand_failure_payload (c : PacketConstants) (t : Transport) (dev : RadioDevice)
    (ct : CommandType) (ch : Int) (isSet : Bool) (p : CommandPayloadValue)
    (result : ErrorFlags) (rp : CommandPayloadValue)
    (h : (ProcessCommand c t dev ct ch isSet p).2 = some (result, rp))
    (hne : result ≠ ErrorFlags.None) : rp = CommandPayloadValue.default := by
  obtain ⟨r, q, h1, _, h3⟩ := ProcessCommand_result c t dev ct ch isSet p
  rw [h1] at h
  injection h with h
  injection h with ha hb
  subst ha hb
  exact h3 hne

/-- A packet parsed from bytes carries `None` or one of the three errors of the checks. -/
theorem FromSerializedBytes_error (c : PacketConstants) (b : List Nat) :
    (FromSerializedBytes c b).responseError ∈ [DeviceResponseError.None,
      DeviceResponseError.ChecksumFailure, DeviceResponseError.FramingError,
      DeviceResponseError.NotAcknowledged] := by
  cases hv : (FromSerializedBytes c b).isValid
  · rcases FromSerializedBytes_invalid_error c b hv with he | he | he <;> rw [he] <;> simp
  · have e : (FromSerializedBytes c b).responseError = DeviceResponseError.None :=
      (ofRaw_error_none_iff c _ _ _).2 hv
    rw [e]
    simp

/-- The corrected rate is even. -/
theorem GetSampleRate_correct_even (r : Nat) : GetSampleRate.correct r % 2 = 0 := by
  unfold GetSampleRate.correct
  split
  · split <;> omega
  · omega

/-- The test `GetSampleRate` makes on an odd rate is the test of bit 1. -/
theorem and_0x02_eq_iff (r : Nat) : (r &&& 0x02 = 0x02) ↔ r / 2 % 2 = 1 := by
  have e := Nat.and_two_pow r 1
  have e2 : (0x02 : Nat) = 2 ^ 1 := by norm_num
  rw [e2, e, Nat.testBit_to_div_mod]
  have hb : r / 2 ^ 1 % 2 = 0 ∨ r / 2 ^ 1 % 2 = 1 := by omega
  rcases hb with h | h <;> rw [h] <;> simp <;> omega

/-- An odd rate below `2^64 - 1` is moved by one to the multiple of 4 next to it. -/
theorem GetSampleRate_correct_odd (r : Nat) (hodd : r % 2 = 1) (hr : r < 2 ^ 64 - 1) :
    GetSampleRate.correct r % 4 = 0
    ∧ (GetSampleRate.correct r = r + 1 ∨ GetSampleRate.correct r + 1 = r) := by
  have hne : r % 2 ≠ 0 := by omega
  unfold GetSampleRate.correct
  rw [if_pos hne]
  by_cases h : r / 2 % 2 = 1
  · rw [if_pos ((and_0x02_eq_iff r).2 h)]
    omega
  · rw [if_neg (fun x => h ((and_0x02_eq_iff r).1 x))]
    omega

/-- `ProcessCommand` leaves `iqStreamSize` alone. -/
theorem ProcessCommand_iqStreamSize (c : PacketConstants) (t : Transport) (dev : RadioDevice)
    (ct : CommandType) (ch : Int) (isSet : Bool) (p : CommandPayloadValue) :
    (ProcessCommand c t dev ct ch isSet p).1.iqStreamSize = dev.iqStreamSize :=
  (ProcessCommand_frame c t dev ct ch isSet p).2

/-- `SetSampleRate` keeps `iqStreamSize` among the four chunk sizes. -/
theorem SetSampleRate_iqStreamSize (c : PacketConstants) (t : Transport) (dev : RadioDevice)
    (ch : Int) (rate : Nat) (h : dev.iqStreamSize ∈ [65536, 262144, 1048576, 4194304]) :
    (SetSampleRate c t dev ch rate).1.iqStreamSize ∈ [65536, 262144, 1048576, 4194304] := by
  obtain ⟨result, rp, hp⟩ := ProcessCommand_returns c t dev CommandType.SampleRate ch true
    (CommandPayloadValue.ofUInt64 rate)
  rw [(SetSampleRate_of_result c t dev ch rate result rp hp).2]
  split
  · split
    · simp
    · split
      · simp
      · split <;> simp
  · exact h

/-- Every call keeps `iqStreamSize` among the four chunk sizes. -/
theorem Operation_apply_iqStreamSize (c : PacketConstants) (dev : RadioDevice) (op : Operation)
    (h : dev.iqStreamSize ∈ [65536, 262144, 1048576, 4194304]) :
    (op.apply c dev).iqStreamSize ∈ [65536, 262144, 1048576, 4194304] := by
  cases op with
  | SetSampleRate t ch rate => exact SetSampleRate_iqStreamSize c t dev ch rate h
  | driver s f => exact h
  | ResetDevice t softReset =>
    simp only [Operation.apply, ResetDevice]
    obtain ⟨result, rp, hp⟩ := ProcessCommand_returns c t dev CommandType.Reset 0 true
      CommandPayloadValue.default
    rw [hp]
    dsimp only
    split
    · simp only [InitDevice, ProcessCommand_iqStreamSize]
      exact h
    · simp only [ProcessCommand_iqStreamSize]
      exact h
  | SetLOFrequency t ch f =>
    simp only [Operation.apply, SetLOFrequency]
    split
    · exact h
    · simp only [ProcessCommand_iqStreamSize]
      exact h
  | _ =>
    simp only [Operation.apply, InitDevice, GetMultiplexMode, SetMultiplexMode, GetDeviceStatus,
      GetLOFrequency, GetGain, SetGain, GetGainMode, GetTransmitAttenuation.transaction,
      GetComplexBandwidth, GetSampleRate, GetDeviceTemperature.transaction, GetReferenceSource,
      SetReferenceSource, SetAdditionalAGCParameters, GetERMSoftwareVersion,
      GetERMHardwareVersion, GetFPGAType, IsDeviceInRecoveryMode, ProcessCommand_iqStreamSize]
    exact h

/-- Every sequence of calls keeps `iqStreamSize` among the four chunk sizes. -/
theorem runOperations_iqStreamSize (c : PacketConstants) (ops : List Operation) :
    ∀ dev : RadioDevice, dev.iqStreamSize ∈ [65536, 262144, 1048576, 4194304] →
      (runOperations c ops dev).iqStreamSize ∈ [65536, 262144, 1048576, 4194304] := by
  induction ops with
  | nil => exact fun dev h => h
  | cons op ops ih =>
    intro dev h
    exact ih _ (Operation_apply_iqStreamSize c dev op h)

/-- A number below `2^(m + 1)` has binary logarithm at most `m`. -/
theorem ilog2_le (fuel : Nat) : ∀ n m : Nat, n < 2 ^ (m + 1) → ilog2 fuel n ≤ m := by
  induction fuel with
  | zero => intro n m _; simp [ilog2]
  | succ k ih =>
    intro n m h
    unfold ilog2
    split
    · omega
    · cases m with
      | zero => omega
      | succ j =>
        have h2 : n / 2 < 2 ^ (j + 1) := by
          rw [pow_succ] at h
          omega
        have := ih (n / 2) j h2
        omega

/-- Rounding a quotient does not pass an integer above it. -/
theorem roundHalfEven_le (n d b : Nat) (hd : 0 < d) (h : n ≤ b * d) : roundHalfEven n d ≤ b := by
  have hq : n / d ≤ b := Nat.div_le_of_le_mul (by rw [Nat.mul_comm]; exact h)
  have hdm := Nat.div_add_mod n d
  unfold roundHalfEven
  by_cases hb : n / d = b
  · have hr : n % d = 0 := by
      rw [hb, Nat.mul_comm] at hdm
      omega
    simp only [hr, Nat.mul_zero, hd, if_true]
    exact hq
  · have : n / d < b := by omega
    dsimp only
    split_ifs <;> omega

/-- Rounding a quotient does not pass an integer below it. -/
theorem le_roundHalfEven (n d b : Nat) (hd : 0 < d) (h : b * d ≤ n) : b ≤ roundHalfEven n d := by
  have hq : b ≤ n / d := (Nat.le_div_iff_mul_le hd).2 h
  unfold roundHalfEven
  dsimp only
  split_ifs <;> omega

/-- Rounding does not pass a multiple of `2^k` units with at most 24 significant bits that
lies above the value, nor a multiple of `2^k` units below it: such multiples are binary32
values of the binade of the value or of a finer one. -/
theorem Binary32.round_between (negative : Bool) (n d lo hi k : Nat) (hd : 0 < d)
    (hhi : hi < 2 ^ 24) (hmax : hi * 2 ^ k ≤ (2 ^ 24 - 1) * 2 ^ 253)
    (h1 : lo * 2 ^ k * d ≤ n) (h2 : n ≤ hi * 2 ^ k * d) :
    ∃ r, Binary32.round negative n d = Binary32.finite negative r
      ∧ lo * 2 ^ k ≤ r ∧ r ≤ hi * 2 ^ k := by
  have hq : n / d ≤ hi * 2 ^ k := Nat.div_le_of_le_mul (by rw [Nat.mul_comm]; exact h2)
  have key : ∀ s : Nat, s ≤ k →
      lo * 2 ^ k ≤ roundHalfEven n (d * 2 ^ s) * 2 ^ s
      ∧ roundHalfEven n (d * 2 ^ s) * 2 ^ s ≤ hi * 2 ^ k := by
    intro s hs
    have e : ∀ b : Nat, b * 2 ^ k = b * 2 ^ (k - s) * 2 ^ s := by
      intro b
      rw [Nat.mul_assoc, ← pow_add, Nat.sub_add_cancel hs]
    have hpos : 0 < d * 2 ^ s := Nat.mul_pos hd (Nat.pow_pos (by norm_num))
    have hle : roundHalfEven n (d * 2 ^ s) ≤ hi * 2 ^ (k - s) := by
      apply roundHalfEven_le _ _ _ hpos
      calc n ≤ hi * 2 ^ k * d := h2
        _ = hi * 2 ^ (k - s) * (d * 2 ^ s) := by rw [e]; ring
    have hge : lo * 2 ^ (k - s) ≤ roundHalfEven n (d * 2 ^ s) := by
      apply le_roundHalfEven _ _ _ hpos
      calc lo * 2 ^ (k - s) * (d * 2 ^ s) = lo * 2 ^ k * d := by rw [e lo]; ring
        _ ≤ n := h1
    rw [e lo, e hi]
    exact ⟨Nat.mul_le_mul_right _ hge, Nat.mul_le_mul_right _ hle⟩
  have hs : (if n / d < 2 ^ 24 then 0 else ilog2 (n / d) (n / d) - 23) ≤ k := by
    split
    · exact Nat.zero_le _
    · have hlt : n / d < 2 ^ (23 + k + 1) := by
        calc n / d ≤ hi * 2 ^ k := hq
          _ < 2 ^ 24 * 2 ^ k := Nat.mul_lt_mul_of_pos_right hhi (Nat.pow_pos (by norm_num))
          _ = 2 ^ (23 + k + 1) := by rw [← pow_add]; congr 1; omega
      have := ilog2_le (n / d) (n / d) (23 + k) hlt
      omega
  have hk := key _ hs
  refine ⟨_, ?_, hk⟩
  unfold Binary32.round
  dsimp only
  rw [if_neg (by omega)]

/-- The `int` 1000 converts to the `float` 1000, `1000 * 2^149` units. -/
theorem Binary32.ofInt_1000 : Binary32.ofInt 1000 = Binary32.finite false (1000 * 2 ^ 149) := by
  decide

/-- The range test of `SetTransmitAttenuation` holds for the finite values from 0 (either
zero) to `89.75`, and for nothing else. -/
theorem attenuation_in_range_iff (a : Binary32) :
    (Binary32.ge a MIN_ATTENUATION && Binary32.le a MAX_ATTENUATION) = true
      ↔ ∃ negative units, a = Binary32.finite negative units
          ∧ (units = 0 ∨ (negative = false ∧ units ≤ 359 * 2 ^ 147)) := by
  cases a with
  | nan => simp [Binary32.ge, Binary32.le]
  | inf s => cases s <;> simp [Binary32.ge, Binary32.le, MIN_ATTENUATION, MAX_ATTENUATION]
  | finite s u =>
    cases s <;> simp [Binary32.ge, Binary32.le, MIN_ATTENUATION, MAX_ATTENUATION]
    intro h0
    omega


/-- Rounding a value between two neighbouring multiples of `2^k` units. -/
theorem Binary32.round_near (negative : Bool) (x k N : Nat) (hN : N + 1 < 2 ^ 24)
    (hmax : (N + 1) * 2 ^ k ≤ (2 ^ 24 - 1) * 2 ^ 253)
    (h1 : N * 2 ^ k ≤ x) (h2 : x < (N + 1) * 2 ^ k) :
    ∃ r, Binary32.round negative (x * 2 ^ k) (2 ^ k) = Binary32.finite negative r
      ∧ N * 2 ^ k ≤ r ∧ r ≤ (N + 1) * 2 ^ k ∧ (x = N * 2 ^ k → r = x) := by
  have hP : 0 < 2 ^ k := Nat.pow_pos (by norm_num)
  by_cases hx : x = N * 2 ^ k
  · obtain ⟨r, hr, hlo, hhi⟩ := Binary32.round_between negative (x * 2 ^ k) (2 ^ k) N N k hP
      (by omega) (le_trans (Nat.mul_le_mul_right _ (Nat.le_succ N)) hmax)
      (by rw [hx]) (by rw [hx])
    exact ⟨r, hr, hlo, le_trans hhi (Nat.mul_le_mul_right _ (Nat.le_succ N)),
      fun _ => by rw [hx]; exact Nat.le_antisymm hhi hlo⟩
  · obtain ⟨r, hr, hlo, hhi⟩ := Binary32.round_between negative (x * 2 ^ k) (2 ^ k) N (N + 1) k
      hP hN hmax (Nat.mul_le_mul_right _ h1) (Nat.mul_le_mul_right _ (Nat.le_of_lt h2))
    exact ⟨r, hr, hlo, hhi, fun h => absurd h hx⟩

/-- For an attenuation in range, `(int)(attenuation * 1000)` is defined, at most 89750, and
equal to the integral part of the exact product or to that plus one. -/
theorem attenuation_index (negative : Bool) (units : Nat)
    (hu : units = 0 ∨ (negative = false ∧ units ≤ 359 * 2 ^ 147)) :
    ∃ n : Nat, n ≤ 89750
      ∧ Binary32.toInt (Binary32.mul (Binary32.finite negative units) (Binary32.ofInt 1000))
          = some (n : Int)
      ∧ units * 1000 / 2 ^ 149 ≤ n ∧ n ≤ units * 1000 / 2 ^ 149 + 1 := by
  rw [Binary32.ofInt_1000]
  simp only [Binary32.mul, Bool.xor_false]
  have hP : 0 < 2 ^ 149 := Nat.pow_pos (by norm_num)
  have hx : units * 1000 ≤ 89750 * 2 ^ 149 := by
    rcases hu with h0 | ⟨_, hle⟩
    · rw [h0]
      exact Nat.zero_le _
    · calc units * 1000 ≤ 359 * 2 ^ 147 * 1000 := Nat.mul_le_mul_right _ hle
        _ = 89750 * 2 ^ 149 := by norm_num
  have hN : units * 1000 / 2 ^ 149 ≤ 89750 := (Nat.div_le_iff_le_mul_add_pred hP).2 (by
    calc units * 1000 ≤ 89750 * 2 ^ 149 := hx
      _ = 2 ^ 149 * 89750 := Nat.mul_comm _ _
      _ ≤ 2 ^ 149 * 89750 + (2 ^ 149 - 1) := Nat.le_add_right _ _)
  have h1 : units * 1000 / 2 ^ 149 * 2 ^ 149 ≤ units * 1000 := Nat.div_mul_le_self _ _
  have h2 : units * 1000 < (units * 1000 / 2 ^ 149 + 1) * 2 ^ 149 := by
    calc units * 1000 < 2 ^ 149 * (units * 1000 / 2 ^ 149 + 1) := Nat.lt_mul_div_succ _ hP
      _ = (units * 1000 / 2 ^ 149 + 1) * 2 ^ 149 := Nat.mul_comm _ _
  have e : units * (1000 * 2 ^ 149) = units * 1000 * 2 ^ 149 := (Nat.mul_assoc _ _ _).symm
  rw [e]
  obtain ⟨r, hr, hlo, hhi, hex⟩ := Binary32.round_near negative (units * 1000) 149
    (units * 1000 / 2 ^ 149)
    (lt_of_le_of_lt (Nat.succ_le_succ hN) (by norm_num))
    (le_trans (Nat.mul_le_mul_right _ (Nat.succ_le_succ hN)) (by norm_num)) h1 h2
  rw [hr]
  have hr1 : units * 1000 / 2 ^ 149 ≤ r / 2 ^ 149 := (Nat.le_div_iff_mul_le hP).2 hlo
  have hr2 : r / 2 ^ 149 ≤ units * 1000 / 2 ^ 149 + 1 := (Nat.div_le_iff_le_mul_add_pred hP).2 (by
    calc r ≤ (units * 1000 / 2 ^ 149 + 1) * 2 ^ 149 := hhi
      _ = 2 ^ 149 * (units * 1000 / 2 ^ 149 + 1) := Nat.mul_comm _ _
      _ ≤ 2 ^ 149 * (units * 1000 / 2 ^ 149 + 1) + (2 ^ 149 - 1) := Nat.le_add_right _ _)
  have hr3 : r / 2 ^ 149 ≤ 89750 := by
    rcases Nat.lt_or_ge (units * 1000 / 2 ^ 149) 89750 with hlt | hge
    · exact le_trans hr2 hlt
    · have hNe : units * 1000 / 2 ^ 149 = 89750 := Nat.le_antisymm hN hge
      have hxe : units * 1000 = units * 1000 / 2 ^ 149 * 2 ^ 149 := by
        rw [hNe]
        rw [hNe] at h1
        exact Nat.le_antisymm hx h1
      rw [hex hxe, hNe]
  have hlt : r / 2 ^ 149 < 2 ^ 31 := lt_of_le_of_lt hr3 (by norm_num)
  rcases hu with h0 | ⟨hs, _⟩
  · have hr0 : r = 0 := by
      rw [hex (by rw [h0]; simp), h0]
    rw [hr0, h0]
    refine ⟨0, Nat.zero_le _, ?_, by simp, by simp⟩
    cases negative <;> simp [Binary32.toInt]
  · rw [hs]
    refine ⟨r / 2 ^ 149, hr3, ?_, hr1, hr2⟩
    simp only [Binary32.toInt, hlt, if_true]

/-- A multiple of `2^k` units with at most 24 significant bits is rounded to itself. -/
theorem Binary32.round_exact (negative : Bool) (N k d : Nat) (hd : 0 < d) (hN : N < 2 ^ 24)
    (hmax : N * 2 ^ k ≤ (2 ^ 24 - 1) * 2 ^ 253) :
    Binary32.round negative (N * 2 ^ k * d) d = Binary32.finite negative (N * 2 ^ k) := by
  obtain ⟨r, hr, hlo, hhi⟩ := Binary32.round_between negative (N * 2 ^ k * d) d N N k hd hN hmax
    (Nat.le_refl _) (Nat.le_refl _)
  rw [hr, Nat.le_antisymm hhi hlo]

/-- The `int` `1000 * m`, for `|m| <= 16777`, divided by `1000.0f` is the `float` `m`. -/
theorem temperature_whole (m : Int) (hm : m.natAbs ≤ 16777) :
    Binary32.div (Binary32.ofInt (1000 * m)) (Binary32.finite false (1000 * 2 ^ 149))
      = Binary32.finite (decide (m < 0)) (m.natAbs * 2 ^ 149) := by
  have hs : decide (1000 * m < 0) = decide (m < 0) := by
    congr 1
    apply propext
    constructor <;> intro h <;> omega
  have ha : (1000 * m).natAbs = 1000 * m.natAbs := by omega
  have h1 : Binary32.ofInt (1000 * m)
      = Binary32.finite (decide (m < 0)) (1000 * m.natAbs * 2 ^ 149) := by
    unfold Binary32.ofInt
    rw [hs, ha]
    have := Binary32.round_exact (decide (m < 0)) (1000 * m.natAbs) 149 1 (by norm_num)
      (by
        have : 1000 * m.natAbs ≤ 16777000 := by omega
        exact lt_of_le_of_lt this (by norm_num))
      (by
        have : 1000 * m.natAbs ≤ 16777000 := by omega
        exact le_trans (Nat.mul_le_mul_right _ this) (by norm_num))
    rw [Nat.mul_one] at this
    exact this
  rw [h1]
  have hy : ¬ (1000 * 2 ^ 149 = 0) := by norm_num
  simp only [Binary32.div, hy, if_false, Bool.xor_false]
  have e : 1000 * m.natAbs * 2 ^ 149 * 2 ^ 149 = m.natAbs * 2 ^ 149 * (1000 * 2 ^ 149) := by ring
  rw [e]
  exact Binary32.round_exact (decide (m < 0)) m.natAbs 149 (1000 * 2 ^ 149) (by norm_num)
    (lt_of_le_of_lt hm (by norm_num))
    (le_trans (Nat.mul_le_mul_right _ hm) (by norm_num))

/-- Bytes 4..11 of a request are the serialized payload of the call. -/
theorem requestBytes_payload (c : PacketConstants) (ct : CommandType) (ch : Int) (isSet : Bool)
    (p : CommandPayloadValue) :
    ((requestBytes c ct ch isSet p).drop 4).take 8 = p.ToSerializedBytes := by
  rw [requestBytes, ToSerializedBytes_eq_append]
  simp [GetBytes, CommandPayloadValue.ToSerializedBytes, ofIntent]

end THR

namespace sabrSDR

/-- The two bytes the sink writes for a `short` are read back by the source as that `short`. -/
theorem castInt16_bytes (v : Int) (hlo : -2 ^ 15 ≤ v) (hhi : v < 2 ^ 15) :
    castInt16 ((castUInt8 (v >>> (8 : Nat)) <<< 8 ||| castUInt8 v : Nat) : Int) = v := by
  have hb : castUInt8 v < 2 ^ 8 := by
    unfold castUInt8
    omega
  rw [Nat.shiftLeft_eq, Nat.mul_comm, BinaryConverter.or_eq_add_of_lt _ _ 8 hb,
    Int.shiftRight_eq_div_pow]
  unfold castInt16 castUInt8
  split <;> omega

end sabrSDR

/-! ## Claims C31 to C40 -/

namespace THR

open BinaryConverter DeviceCommand RadioDevice

/-- C31: `ResetDevice` first runs the set transaction `Reset` (channel 0, payload `(0, 0)`). If
that returns `None`, the set transaction `InitDevice` follows on the device the first one left,
and `ResetDevice` returns its flag; if it returns another flag, `ResetDevice` returns that flag
and the device is the one the first transaction left, so nothing more is sent. Device, history
and flag are the same for `softReset = true` and `softReset = false`. -/
theorem reset_then_init (c : PacketConstants) (t : Transport) (dev : RadioDevice)
    (softReset : Bool) (result : ErrorFlags) (rp : CommandPayloadValue)
    (h : (ProcessCommand c t dev CommandType.Reset 0 true CommandPayloadValue.default).2
      = some (result, rp)) :
    (result = ErrorFlags.None →
      ResetDevice c t dev softReset
        = ((ProcessCommand c t
            (ProcessCommand c t dev CommandType.Reset 0 true CommandPayloadValue.default).1
            CommandType.InitDevice 0 true CommandPayloadValue.default).1,
           (ProcessCommand c t
            (ProcessCommand c t dev CommandType.Reset 0 true CommandPayloadValue.default).1
            CommandType.InitDevice 0 true CommandPayloadValue.default).2.map fun x => x.1))
    ∧ (result ≠ ErrorFlags.None →
      ResetDevice c t dev softReset
        = ((ProcessCommand c t dev CommandType.Reset 0 true CommandPayloadValue.default).1,
            some result))
    ∧ ResetDevice c t dev true = ResetDevice c t dev false := by
  refine ⟨fun hr => ?_, fun hr => ?_, rfl⟩
  · subst hr
    simp [ResetDevice, h, ERROR_FLAGS_SUCCESS, InitDevice]
  · simp [ResetDevice, h, ERROR_FLAGS_SUCCESS, hr]

/-- C31 on a set-up device. With a driver that answers both transactions with a valid response,
`ResetDevice(true)` returns `None` after two writes, the `Reset` frame and the `InitDevice`
frame; with a driver that fails the write it returns `NotResponding` after one write. -/
theorem reset_then_init_witness :
    (ResetDevice sampleConstants (Transport.constant 0 0 sampleResponse)
        RadioDevice.sampleSetUp true).2 = some ErrorFlags.None
    ∧ writeCount (ResetDevice sampleConstants (Transport.constant 0 0 sampleResponse)
        RadioDevice.sampleSetUp true).1.channelLog = 2
    ∧ ResetDevice sampleConstants (Transport.constant 0 0 sampleResponse)
        RadioDevice.sampleSetUp true
      = ((ProcessCommand sampleConstants (Transport.constant 0 0 sampleResponse)
            (ProcessCommand sampleConstants (Transport.constant 0 0 sampleResponse)
              RadioDevice.sampleSetUp CommandType.Reset 0 true CommandPayloadValue.default).1
            CommandType.InitDevice 0 true CommandPayloadValue.default).1,
          (ProcessCommand sampleConstants (Transport.constant 0 0 sampleResponse)
            (ProcessCommand sampleConstants (Transport.constant 0 0 sampleResponse)
              RadioDevice.sampleSetUp CommandType.Reset 0 true CommandPayloadValue.default).1
            CommandType.InitDevice 0 true CommandPayloadValue.default).2.map fun x => x.1)
    ∧ writeCount (ResetDevice sampleConstants (Transport.constant 1 0 [])
        RadioDevice.sampleSetUp false).1.channelLog = 1
    ∧ ResetDevice sampleConstants (Transport.constant 1 0 []) RadioDevice.sampleSetUp false
      = ((ProcessCommand sampleConstants (Transport.constant 1 0 []) RadioDevice.sampleSetUp
            CommandType.Reset 0 true CommandPayloadValue.default).1,
          some ErrorFlags.NotResponding) :=
  ⟨by decide, by decide,
    (reset_then_init sampleConstants (Transport.constant 0 0 sampleResponse)
      RadioDevice.sampleSetUp true ErrorFlags.None ⟨0x00038123, 0x00000042⟩ (by decide)).1 rfl,
    by decide,
    (reset_then_init sampleConstants (Transport.constant 1 0 []) RadioDevice.sampleSetUp false
      ErrorFlags.NotResponding CommandPayloadValue.default (by decide)).2.1 (by decide)⟩

/-- C32: for every input and every driver, `ProcessCommand` returns, and the flag it returns is
one of `None`, `NotInitialized`, `Unsuccessful`, `NotResponding`, `ChecksumFailure`,
`FramingError`, `InvalidState`: the `throw;` of the response-error `switch` is not reached. A
packet parsed from bytes carries one of the errors `None`, `ChecksumFailure`, `FramingError`,
`NotAcknowledged`. -/
theorem process_returns_one_of_seven (c : PacketConstants) (t : Transport) (dev : RadioDevice)
    (ct : CommandType) (ch : Int) (isSet : Bool) (p : CommandPayloadValue) :
    (∃ result responsePayload,
      (ProcessCommand c t dev ct ch isSet p).2 = some (result, responsePayload)
      ∧ result ∈ [ErrorFlags.None, ErrorFlags.NotInitialized, ErrorFlags.Unsuccessful,
          ErrorFlags.NotResponding, ErrorFlags.ChecksumFailure, ErrorFlags.FramingError,
          ErrorFlags.InvalidState])
    ∧ ∀ b : List Nat,
        (FromSerializedBytes c b).responseError ∈ [DeviceResponseError.None,
          DeviceResponseError.ChecksumFailure, DeviceResponseError.FramingError,
          DeviceResponseError.NotAcknowledged] := by
  obtain ⟨result, rp, h, hm, _⟩ := ProcessCommand_result c t dev ct ch isSet p
  exact ⟨⟨result, rp, h, hm⟩, FromSerializedBytes_error c⟩

/-- C32 at concrete inputs: each of the seven flags is returned by some call, so none of them
can be dropped from the list. -/
theorem process_returns_one_of_seven_witness :
    (∃ result responsePayload,
      (ProcessCommand sampleConstants (Transport.constant 0 0 sampleResponse)
        RadioDevice.sampleSetUp CommandType.Gain 0 false CommandPayloadValue.default).2
        = some (result, responsePayload)
      ∧ result ∈ [ErrorFlags.None, ErrorFlags.NotInitialized, ErrorFlags.Unsuccessful,
          ErrorFlags.NotResponding, ErrorFlags.ChecksumFailure, ErrorFlags.FramingError,
          ErrorFlags.InvalidState])
    ∧ (ProcessCommand sampleConstants (Transport.constant 0 0 sampleResponse)
        RadioDevice.sampleSetUp CommandType.Gain 0 false CommandPayloadValue.default).2
        = some (ErrorFlags.None, ⟨0x00038123, 0x00000042⟩)
    ∧ (ProcessCommand sampleConstants (Transport.constant 0 0 sampleResponse)
        RadioDevice.sampleNotSetUp CommandType.Gain 0 false CommandPayloadValue.default).2
        = some (ErrorFlags.NotInitialized, ⟨0, 0⟩)
    ∧ (ProcessCommand sampleConstants (Transport.constant 0 0 sampleResponse)
        RadioDevice.sampleSetUp (CommandType.unnamed 999) 0 false CommandPayloadValue.default).2
        = some (ErrorFlags.Unsuccessful, ⟨0, 0⟩)
    ∧ (ProcessCommand sampleConstants (Transport.constant 1 0 [])
        RadioDevice.sampleSetUp CommandType.Gain 0 false CommandPayloadValue.default).2
        = some (ErrorFlags.NotResponding, ⟨0, 0⟩)
    ∧ (ProcessCommand sampleConstants
        (Transport.constant 0 0 [0xA5, 0, 0, 0x40, 0, 0, 0, 0, 0, 0, 0, 0, 0x5A, 0, 0, 1])
        RadioDevice.sampleSetUp CommandType.Gain 0 false CommandPayloadValue.default).2
        = some (ErrorFlags.ChecksumFailure, ⟨0, 0⟩)
    ∧ (ProcessCommand sampleConstants (Transport.constant 0 0 [])
        RadioDevice.sampleSetUp CommandType.Gain 0 false CommandPayloadValue.default).2
        = some (ErrorFlags.FramingError, ⟨0, 0⟩)
    ∧ (ProcessCommand sampleConstants
        (Transport.constant 0 0 [0xA5, 2, 0, 0x40, 0, 0, 0, 0, 0, 0, 0, 0, 0x5A, 0, 0, 0])
        RadioDevice.sampleSetUp CommandType.Gain 0 false CommandPayloadValue.default).2
        = some (ErrorFlags.InvalidState, ⟨0, 0⟩) :=
  ⟨(process_returns_one_of_seven sampleConstants (Transport.constant 0 0 sampleResponse)
      RadioDevice.sampleSetUp CommandType.Gain 0 false CommandPayloadValue.default).1,
    by decide, by decide, by decide, by decide, by decide, by decide, by decide⟩

/-- C33: when `ProcessCommand` returns a flag other than `None`, the response payload it hands
back is `(0, 0)`. So when `GetLOFrequency`, `GetComplexBandwidth`, `GetSampleRate` or `GetGain`
returns a flag other than `None`, the value it reports is 0; the same holds for
`GetERMSoftwareVersion`, `GetERMHardwareVersion` and `GetFPGAType`, and `IsDeviceInRecoveryMode`
reports `false`. -/
theorem failed_transaction_zero_payload (c : PacketConstants) (t : Transport)
    (dev : RadioDevice) (ch : Int) (result : ErrorFlags) (hne : result ≠ ErrorFlags.None) :
    (∀ ct isSet p rp, (ProcessCommand c t dev ct ch isSet p).2 = some (result, rp) →
      rp = CommandPayloadValue.ofWords 0 0)
    ∧ (((GetLOFrequency c t dev ch).2.map fun x => x.1) = some result →
        (GetLOFrequency c t dev ch).2 = some (result, 0))
    ∧ (((GetComplexBandwidth c t dev ch).2.map fun x => x.1) = some result →
        (GetComplexBandwidth c t dev ch).2 = some (result, 0))
    ∧ (((GetSampleRate c t dev ch).2.map fun x => x.1) = some result →
        (GetSampleRate c t dev ch).2 = some (result, 0))
    ∧ (((GetGain c t dev ch).2.map fun x => x.1) = some result →
        (GetGain c t dev ch).2 = some (result, 0))
    ∧ (((GetERMSoftwareVersion c t dev).2.map fun x => x.1) = some result →
        (GetERMSoftwareVersion c t dev).2 = some (result, 0))
    ∧ (((GetERMHardwareVersion c t dev).2.map fun x => x.1) = some result →
        (GetERMHardwareVersion c t dev).2 = some (result, 0))
    ∧ (((GetFPGAType c t dev).2.map fun x => x.1) = some result →
        (GetFPGAType c t dev).2 = some (result, 0))
    ∧ (((IsDeviceInRecoveryMode c t dev).2.map fun x => x.1) = some result →
        (IsDeviceInRecoveryMode c t dev).2 = some (result, false)) := by
  refine ⟨fun ct isSet p rp h =>
      ProcessCommand_failure_payload c t dev ct ch isSet p result rp h hne,
    fun h => ?_, fun h => ?_, fun h => ?_, fun h => ?_, fun h => ?_, fun h => ?_,
    fun h => ?_, fun h => ?_⟩
  · obtain ⟨r, q, h1, _, h3⟩ := ProcessCommand_result c t dev CommandType.LOFrequency ch false
      CommandPayloadValue.default
    simp only [GetLOFrequency, h1, Option.map_some'] at h ⊢
    injection h with h
    subst h
    rw [h3 hne]
    rfl
  · obtain ⟨r, q, h1, _, h3⟩ := ProcessCommand_result c t dev CommandType.Bandwidth ch false
      CommandPayloadValue.default
    simp only [GetComplexBandwidth, h1, Option.map_some'] at h ⊢
    injection h with h
    subst h
    rw [h3 hne]
    rfl
  · obtain ⟨r, q, h1, _, h3⟩ := ProcessCommand_result c t dev CommandType.SampleRate ch false
      CommandPayloadValue.default
    simp only [GetSampleRate, h1, Option.map_some'] at h ⊢
    injection h with h
    subst h
    rw [h3 hne]
    rfl
  · obtain ⟨r, q, h1, _, h3⟩ := ProcessCommand_result c t dev CommandType.Gain ch false
      CommandPayloadValue.default
    simp only [GetGain, h1, Option.map_some'] at h ⊢
    injection h with h
    subst h
    rw [h3 hne]
    rfl
  · obtain ⟨r, q, h1, _, _⟩ := ProcessCommand_result c t dev CommandType.ERMVersion 0 false
      CommandPayloadValue.default
    have hr : ERROR_FLAGS_SUCCESS result = false := by simp [ERROR_FLAGS_SUCCESS, hne]
    simp only [GetERMSoftwareVersion, h1, Option.map_some'] at h ⊢
    cases hs : ERROR_FLAGS_SUCCESS r <;>
      simp only [hs, if_true, Bool.false_eq_true, if_false] at h ⊢ <;>
      injection h with h <;> subst h
    · rfl
    · rw [hr] at hs
      exact absurd hs (by decide)
  · obtain ⟨r, q, h1, _, _⟩ := ProcessCommand_result c t dev CommandType.ERMVersion 0 false
      CommandPayloadValue.default
    have hr : ERROR_FLAGS_SUCCESS result = false := by simp [ERROR_FLAGS_SUCCESS, hne]
    simp only [GetERMHardwareVersion, h1, Option.map_some'] at h ⊢
    cases hs : ERROR_FLAGS_SUCCESS r <;>
      simp only [hs, if_true, Bool.false_eq_true, if_false] at h ⊢ <;>
      injection h with h <;> subst h
    · rfl
    · rw [hr] at hs
      exact absurd hs (by decide)
  · obtain ⟨r, q, h1, _, _⟩ := ProcessCommand_result c t dev CommandType.ERMVersion 0 false
      CommandPayloadValue.default
    have hr : ERROR_FLAGS_SUCCESS result = false := by simp [ERROR_FLAGS_SUCCESS, hne]
    simp only [GetFPGAType, h1, Option.map_some'] at h ⊢
    cases hs : ERROR_FLAGS_SUCCESS r <;>
      simp only [hs, if_true, Bool.false_eq_true, if_false] at h ⊢ <;>
      injection h with h <;> subst h
    · rfl
    · rw [hr] at hs
      exact absurd hs (by decide)
  · obtain ⟨r, q, h1, _, _⟩ := ProcessCommand_result c t dev CommandType.ERMVersion 0 false
      CommandPayloadValue.default
    have hr : ERROR_FLAGS_SUCCESS result = false := by simp [ERROR_FLAGS_SUCCESS, hne]
    simp only [IsDeviceInRecoveryMode, h1, Option.map_some'] at h ⊢
    cases hs : ERROR_FLAGS_SUCCESS r
    · simp only [hs, Bool.false_eq_true, if_false] at h ⊢
      injection h with h
      subst h
      rfl
    · simp only [hs, if_true] at h
      split at h <;> injection h with h <;> subst h <;> rw [hr] at hs <;>
        exact absurd hs (by decide)

/-- C33 on a set-up device whose driver delivers the frame
`A5 00 00 40 | 01 02 03 04 | 05 06 07 08 | 5A 00 00 01`, which fails the checksum check: the
transaction returns `ChecksumFailure` with the payload `(0, 0)`, not `(0x01020304,
0x05060708)`, and the getters report 0 or `false`. -/
theorem failed_transaction_zero_payload_witness :
    (ProcessCommand sampleConstants
        (Transport.constant 0 0 [0xA5, 0, 0, 0x40, 1, 2, 3, 4, 5, 6, 7, 8, 0x5A, 0, 0, 1])
        RadioDevice.sampleSetUp CommandType.Gain 0 false CommandPayloadValue.default).2
      = some (ErrorFlags.ChecksumFailure, CommandPayloadValue.ofWords 0 0)
    ∧ (GetLOFrequency sampleConstants
        (Transport.constant 0 0 [0xA5, 0, 0, 0x40, 1, 2, 3, 4, 5, 6, 7, 8, 0x5A, 0, 0, 1])
        RadioDevice.sampleSetUp 0).2 = some (ErrorFlags.ChecksumFailure, 0)
    ∧ (GetGain sampleConstants
        (Transport.constant 0 0 [0xA5, 0, 0, 0x40, 1, 2, 3, 4, 5, 6, 7, 8, 0x5A, 0, 0, 1])
        RadioDevice.sampleSetUp 0).2 = some (ErrorFlags.ChecksumFailure, 0)
    ∧ (GetFPGAType sampleConstants
        (Transport.constant 0 0 [0xA5, 0, 0, 0x40, 1, 2, 3, 4, 5, 6, 7, 8, 0x5A, 0, 0, 1])
        RadioDevice.sampleSetUp).2 = some (ErrorFlags.ChecksumFailure, 0)
    ∧ (IsDeviceInRecoveryMode sampleConstants
        (Transport.constant 0 0 [0xA5, 0, 0, 0x40, 1, 2, 3, 4, 5, 6, 7, 8, 0x5A, 0, 0, 1])
        RadioDevice.sampleSetUp).2 = some (ErrorFlags.ChecksumFailure, false) :=
  ⟨by decide,
    (failed_transaction_zero_payload sampleConstants
      (Transport.constant 0 0 [0xA5, 0, 0, 0x40, 1, 2, 3, 4, 5, 6, 7, 8, 0x5A, 0, 0, 1])
      RadioDevice.sampleSetUp 0 ErrorFlags.ChecksumFailure (by decide)).2.1 (by decide),
    (failed_transaction_zero_payload sampleConstants
      (Transport.constant 0 0 [0xA5, 0, 0, 0x40, 1, 2, 3, 4, 5, 6, 7, 8, 0x5A, 0, 0, 1])
      RadioDevice.sampleSetUp 0 ErrorFlags.ChecksumFailure (by decide)).2.2.2.2.1 (by decide),
    (failed_transaction_zero_payload sampleConstants
      (Transport.constant 0 0 [0xA5, 0, 0, 0x40, 1, 2, 3, 4, 5, 6, 7, 8, 0x5A, 0, 0, 1])
      RadioDevice.sampleSetUp 0 ErrorFlags.ChecksumFailure
      (by decide)).2.2.2.2.2.2.2.1 (by decide),
    (failed_transaction_zero_payload sampleConstants
      (Transport.constant 0 0 [0xA5, 0, 0, 0x40, 1, 2, 3, 4, 5, 6, 7, 8, 0x5A, 0, 0, 1])
      RadioDevice.sampleSetUp 0 ErrorFlags.ChecksumFailure
      (by decide)).2.2.2.2.2.2.2.2 (by decide)⟩

/-- C34: for every odd raw rate `r < 2^64 - 1` the corrected rate `c` satisfies `c mod 4 = 0`
and `|c - r| = 1`; and correcting a corrected rate changes nothing, for every raw rate. -/
theorem sample_rate_correction_multiple_of_four (r : Nat) :
    (r % 2 = 1 → r < 2 ^ 64 - 1 →
      GetSampleRate.correct r % 4 = 0
      ∧ ((GetSampleRate.correct r : Int) - (r : Int)).natAbs = 1)
    ∧ GetSampleRate.correct (GetSampleRate.correct r) = GetSampleRate.correct r := by
  constructor
  · intro hodd hlt
    obtain ⟨h4, h1⟩ := GetSampleRate_correct_odd r hodd hlt
    refine ⟨h4, ?_⟩
    rcases h1 with h | h <;> omega
  · have he := GetSampleRate_correct_even r
    generalize GetSampleRate.correct r = x at he
    unfold GetSampleRate.correct
    simp [he]

/-- C34 at the raw rates 999,999 and 1,000,001, both corrected to 1,000,000, and at the even
rate 1,000,002, which is kept although it is not a multiple of 4. -/
theorem sample_rate_correction_multiple_of_four_witness :
    (GetSampleRate.correct 999999 = 1000000 ∧ GetSampleRate.correct 1000001 = 1000000
      ∧ GetSampleRate.correct 1000002 = 1000002)
    ∧ (GetSampleRate.correct 999999 % 4 = 0
      ∧ ((GetSampleRate.correct 999999 : Int) - ((999999 : Nat) : Int)).natAbs = 1)
    ∧ (GetSampleRate.correct 1000001 % 4 = 0
      ∧ ((GetSampleRate.correct 1000001 : Int) - ((1000001 : Nat) : Int)).natAbs = 1)
    ∧ GetSampleRate.correct (GetSampleRate.correct 1000001) = GetSampleRate.correct 1000001 :=
  ⟨by decide,
    (sample_rate_correction_multiple_of_four 999999).1 (by decide) (by decide),
    (sample_rate_correction_multiple_of_four 1000001).1 (by decide) (by decide),
    (sample_rate_correction_multiple_of_four 1000001).2⟩

/-- C35: a constructed device has `GetIQStreamSize() = 1048576`; after any sequence of calls,
with any driver in each call, `GetIQStreamSize()` is one of 65536, 262144, 1048576, 4194304;
and of two successful rate writes, the one with the smaller rate leaves a chunk size that is
not larger. -/
theorem chunk_size_invariant (c : PacketConstants) (ops : List Operation) (ftStatus : Nat) :
    GetIQStreamSize (constructed ftStatus) = 1048576
    ∧ GetIQStreamSize (runOperations c ops (constructed ftStatus))
        ∈ [65536, 262144, 1048576, 4194304]
    ∧ ∀ (t1 t2 : Transport) (dev1 dev2 : RadioDevice) (ch1 ch2 : Int) (rate1 rate2 : Nat),
        (SetSampleRate c t1 dev1 ch1 rate1).2 = some ErrorFlags.None →
        (SetSampleRate c t2 dev2 ch2 rate2).2 = some ErrorFlags.None →
        rate1 ≤ rate2 →
        GetIQStreamSize (SetSampleRate c t1 dev1 ch1 rate1).1
          ≤ GetIQStreamSize (SetSampleRate c t2 dev2 ch2 rate2).1 := by
  refine ⟨rfl, runOperations_iqStreamSize c ops _
    (by simp [constructed, MED_RATE_STREAM_SIZE_BYTES]), ?_⟩
  intro t1 t2 dev1 dev2 ch1 ch2 rate1 rate2 h1 h2 hle
  obtain ⟨r1, p1, e1⟩ := ProcessCommand_returns c t1 dev1 CommandType.SampleRate ch1 true
    (CommandPayloadValue.ofUInt64 rate1)
  obtain ⟨r2, p2, e2⟩ := ProcessCommand_returns c t2 dev2 CommandType.SampleRate ch2 true
    (CommandPayloadValue.ofUInt64 rate2)
  obtain ⟨a1, b1⟩ := SetSampleRate_of_result c t1 dev1 ch1 rate1 r1 p1 e1
  obtain ⟨a2, b2⟩ := SetSampleRate_of_result c t2 dev2 ch2 rate2 r2 p2 e2
  rw [h1] at a1
  rw [h2] at a2
  injection a1 with a1
  injection a2 with a2
  subst a1 a2
  simp only [GetIQStreamSize, b1, b2, if_true]
  split_ifs <;> omega

/-- C35 on one run: a rate write before set-up (refused, chunk size kept), set-up, a successful
write of 40,000,000 (chunk size 4194304), a failed read of the gain and a failed write of
500,000 leave the chunk size 4194304; and the successful writes of 2,000,000 and 30,000,000
leave 262144 and 4194304. -/
theorem chunk_size_invariant_witness :
    GetIQStreamSize (runOperations sampleConstants
      [Operation.SetSampleRate (Transport.constant 0 0 sampleResponse) 0 40000000,
        Operation.driver true 0,
        Operation.SetSampleRate (Transport.constant 0 0 sampleResponse) 0 40000000,
        Operation.GetGain (Transport.constant 0 1 []) 0,
        Operation.SetSampleRate (Transport.constant 1 0 []) 0 500000]
      (constructed 0)) = 4194304
    ∧ GetIQStreamSize (runOperations sampleConstants
      [Operation.SetSampleRate (Transport.constant 0 0 sampleResponse) 0 40000000,
        Operation.driver true 0,
        Operation.SetSampleRate (Transport.constant 0 0 sampleResponse) 0 40000000,
        Operation.GetGain (Transport.constant 0 1 []) 0,
        Operation.SetSampleRate (Transport.constant 1 0 []) 0 500000]
      (constructed 0)) ∈ [65536, 262144, 1048576, 4194304]
    ∧ GetIQStreamSize (SetSampleRate sampleConstants (Transport.constant 0 0 sampleResponse)
          RadioDevice.sampleSetUp 0 2000000).1
        ≤ GetIQStreamSize (SetSampleRate sampleConstants
          (Transport.constant 0 0 sampleResponse) RadioDevice.sampleSetUp 1 30000000).1 :=
  ⟨by decide,
    (chunk_size_invariant sampleConstants
      [Operation.SetSampleRate (Transport.constant 0 0 sampleResponse) 0 40000000,
        Operation.driver true 0,
        Operation.SetSampleRate (Transport.constant 0 0 sampleResponse) 0 40000000,
        Operation.GetGain (Transport.constant 0 1 []) 0,
        Operation.SetSampleRate (Transport.constant 1 0 []) 0 500000] 0).2.1,
    (chunk_size_invariant sampleConstants [] 0).2.2
      (Transport.constant 0 0 sampleResponse) (Transport.constant 0 0 sampleResponse)
      RadioDevice.sampleSetUp RadioDevice.sampleSetUp 0 1 2000000 30000000
      (by decide) (by decide) (by decide)⟩

/-- C36: for every flag `isTDM` and every channel configuration `cfg` (a value that fits the
`uint32_t` it is cast to), `SetMultiplexMode` runs the `MultiplexMode` set transaction with the
payload `(high, low) = (cfg, isTDM ? 1 : 0)`; and `GetMultiplexMode` decodes that payload to
`(isTDM, cfg)`: whenever its `MultiplexMode` get transaction hands back that payload, and in
particular whenever the device answers it with a valid 16-byte frame whose bytes 4..11 are bytes
4..11 of the frame `SetMultiplexMode` writes. -/
theorem multiplex_payload_roundtrip (c : PacketConstants) (t1 t2 : Transport)
    (dev1 dev2 : RadioDevice) (isTDM : Bool) (cfg : IQChannelConfig) (h : cfg.raw < 2 ^ 32) :
    SetMultiplexMode c t1 dev1 isTDM cfg
      = ((ProcessCommand c t1 dev1 CommandType.MultiplexMode 0 true
            (CommandPayloadValue.ofWords cfg.raw (if isTDM then 1 else 0))).1,
          (ProcessCommand c t1 dev1 CommandType.MultiplexMode 0 true
            (CommandPayloadValue.ofWords cfg.raw (if isTDM then 1 else 0))).2.map fun x => x.1)
    ∧ (∀ result : ErrorFlags,
        (ProcessCommand c t2 dev2 CommandType.MultiplexMode 0 false
            CommandPayloadValue.default).2
          = some (result, CommandPayloadValue.ofWords cfg.raw (if isTDM then 1 else 0)) →
        (GetMultiplexMode c t2 dev2).2 = some (result, isTDM, cfg))
    ∧ (dev2.isSetup = true →
        FT_FAILED (t2.writeStatus dev2 (requestBytes c CommandType.MultiplexMode 0 false
          CommandPayloadValue.default)) = false →
        FT_FAILED (t2.readResult dev2 (requestBytes c CommandType.MultiplexMode 0 false
          CommandPayloadValue.default)).1 = false →
        (t2.readResult dev2 (requestBytes c CommandType.MultiplexMode 0 false
          CommandPayloadValue.default)).2.length = 16 →
        (FromSerializedBytes c (t2.readResult dev2 (requestBytes c CommandType.MultiplexMode 0
          false CommandPayloadValue.default)).2).isValid = true →
        (((t2.readResult dev2 (requestBytes c CommandType.MultiplexMode 0 false
            CommandPayloadValue.default)).2).drop 4).take 8
          = ((requestBytes c CommandType.MultiplexMode 0 true
              (CommandPayloadValue.ofWords cfg.raw (if isTDM then 1 else 0))).drop 4).take 8 →
        (GetMultiplexMode c t2 dev2).2 = some (ErrorFlags.None, isTDM, cfg)) := by
  have e : cfg.raw % 2 ^ 32 = cfg.raw := Nat.mod_eq_of_lt h
  have hdec : ∀ result : ErrorFlags,
      (ProcessCommand c t2 dev2 CommandType.MultiplexMode 0 false
          CommandPayloadValue.default).2
        = some (result, CommandPayloadValue.ofWords cfg.raw (if isTDM then 1 else 0)) →
      (GetMultiplexMode c t2 dev2).2 = some (result, isTDM, cfg) := by
    intro result hp
    simp only [GetMultiplexMode, hp, Option.map_some']
    cases isTDM <;> rfl
  refine ⟨?_, hdec, ?_⟩
  · simp only [SetMultiplexMode, e]
  · intro hs hw hr hlen hv hb
    apply hdec
    rw [ProcessCommand_write_ok c t2 dev2 CommandType.MultiplexMode 0 false
      CommandPayloadValue.default hs rfl hw]
    simp only [hr, hv, Bool.false_eq_true, if_false, if_true]
    rw [FromSerializedBytes_payload c _ hlen]
    rw [requestBytes_payload] at hb
    generalize (t2.readResult dev2 (requestBytes c CommandType.MultiplexMode 0 false
      CommandPayloadValue.default)).2 = b at hlen hb
    obtain ⟨b0, b1, b2, b3, b4, b5, b6, b7, b8, b9, b10, b11, b12, b13, b14, b15, rfl⟩ :=
      list_length_sixteen b hlen
    have h1 : [b4, b5, b6, b7] = GetBytes cfg.raw := by
      simp only [CommandPayloadValue.ToSerializedBytes, CommandPayloadValue.ofWords, GetBytes,
        List.drop, List.take, List.cons_append, List.nil_append, List.cons.injEq] at hb
      obtain ⟨a4, a5, a6, a7, _⟩ := hb
      simp only [GetBytes, a4, a5, a6, a7]
    have h2 : [b8, b9, b10, b11] = GetBytes (if isTDM then 1 else 0) := by
      simp only [CommandPayloadValue.ToSerializedBytes, CommandPayloadValue.ofWords, GetBytes,
        List.drop, List.take, List.cons_append, List.nil_append, List.cons.injEq] at hb
      obtain ⟨_, _, _, _, a8, a9, a10, a11, _⟩ := hb
      simp only [GetBytes, a8, a9, a10, a11]
    have hflag : (if isTDM then 1 else 0 : Nat) < 2 ^ 32 := by cases isTDM <;> decide
    have p1 : ToUInt32 [b4, b5, b6, b7] = cfg.raw := by rw [h1, ToUInt32_GetBytes _ h]
    have p2 : ToUInt32 [b8, b9, b10, b11] = (if isTDM then 1 else 0) := by
      rw [h2, ToUInt32_GetBytes _ hflag]
    simp only [List.drop, List.take, p1, p2, CommandPayloadValue.ofWords]

/-- C36 at the last enumerator, `R3T1 = 11`, with `isTDM = true`, on a set-up device:
`SetMultiplexMode` writes the frame `A5 01 00 B0 | 00 00 00 0B | 00 00 00 01 | 5A 00 00 00`,
and `GetMultiplexMode`, answered with the valid frame
`A5 00 00 B0 | 00 00 00 0B | 00 00 00 01 | 5A 00 00 00`, reports `(true, R3T1)`. Every
enumerator fits 32 bits. -/
theorem multiplex_payload_roundtrip_witness :
    (∀ cfg ∈ IQChannelConfig.enumerators, cfg.raw < 2 ^ 32)
    ∧ (SetMultiplexMode sampleConstants (Transport.constant 0 0 sampleResponse)
        RadioDevice.sampleSetUp true ⟨11⟩).1.channelLog
      = [ChannelEvent.lock,
          ChannelEvent.writePipe 0x03
            [0xA5, 0x01, 0x00, 0xB0, 0x00, 0x00, 0x00, 0x0B, 0x00, 0x00, 0x00, 0x01,
              0x5A, 0x00, 0x00, 0x00] 16,
          ChannelEvent.readPipe 0x83 16, ChannelEvent.unlock]
    ∧ (GetMultiplexMode sampleConstants
        (Transport.constant 0 0
          [0xA5, 0x00, 0x00, 0xB0, 0x00, 0x00, 0x00, 0x0B, 0x00, 0x00, 0x00, 0x01,
            0x5A, 0x00, 0x00, 0x00])
        RadioDevice.sampleSetUp).2 = some (ErrorFlags.None, true, ⟨11⟩) :=
  ⟨by decide, by decide,
    (multiplex_payload_roundtrip sampleConstants (Transport.constant 0 0 sampleResponse)
      (Transport.constant 0 0
        [0xA5, 0x00, 0x00, 0xB0, 0x00, 0x00, 0x00, 0x0B, 0x00, 0x00, 0x00, 0x01,
          0x5A, 0x00, 0x00, 0x00])
      RadioDevice.sampleSetUp RadioDevice.sampleSetUp true ⟨11⟩ (by decide)).2.2
      (by decide) (by decide) (by decide) (by decide) (by decide) (by decide)⟩

/-- C37, as the code has it: for every signed 32-bit gain `g` the payload `SetGain` sends has
`int32` view `g` and the low word of `CommandPayloadValue(int g)`; for `g >= 0` it is that
payload, but for `g < 0` its high word is `0xFFFFFFFF`, not 0: the cast `(uint64_t)gain`
extends the sign before the 64-bit constructor splits the value. -/
theorem set_gain_payload_sign_extended (g : Int) (hlo : -2 ^ 31 ≤ g) (hhi : g < 2 ^ 31) :
    (SetGain.payload g).GetAsInt32 = g
    ∧ (SetGain.payload g).GetPayloadLow = (CommandPayloadValue.ofInt g).GetPayloadLow
    ∧ (0 ≤ g → SetGain.payload g = CommandPayloadValue.ofInt g)
    ∧ (g < 0 → (SetGain.payload g).GetPayloadHigh = 0xFFFFFFFF
        ∧ SetGain.payload g ≠ CommandPayloadValue.ofInt g) := by
  have hs : ∀ n : Nat, n >>> 32 = n / 2 ^ 32 := fun n => Nat.shiftRight_eq_div_pow n 32
  simp only [SetGain.payload, castUInt64, CommandPayloadValue.ofUInt64,
    CommandPayloadValue.ofInt, CommandPayloadValue.GetAsInt32, castInt32, castUInt32,
    CommandPayloadValue.GetPayloadLow, CommandPayloadValue.GetPayloadHigh, hs]
  refine ⟨?_, ?_, fun h0 => ?_, fun h0 => ⟨?_, fun hc => ?_⟩⟩
  · split <;> omega
  · omega
  · congr 1 <;> omega
  · omega
  · injection hc with h1 h2
    omega

/-- C37 at `g = -1`: `SetGain` sends `(0xFFFFFFFF, 0xFFFFFFFF)` where `CommandPayloadValue(-1)`
is `(0, 0xFFFFFFFF)`; the frame on the wire has `FF FF FF FF` at bytes 4..7. -/
theorem set_gain_payload_sign_extended_witness :
    SetGain.payload (-1) = CommandPayloadValue.ofWords 0xFFFFFFFF 0xFFFFFFFF
    ∧ CommandPayloadValue.ofInt (-1) = CommandPayloadValue.ofWords 0 0xFFFFFFFF
    ∧ (SetGain sampleConstants (Transport.constant 0 0 sampleResponse)
        RadioDevice.sampleSetUp 0 (-1)).1.channelLog
      = [ChannelEvent.lock,
          ChannelEvent.writePipe 0x03
            [0xA5, 0x01, 0x00, 0x40, 0xFF, 0xFF, 0xFF, 0xFF, 0xFF, 0xFF, 0xFF, 0xFF,
              0x5A, 0x00, 0x00, 0x00] 16,
          ChannelEvent.readPipe 0x83 16, ChannelEvent.unlock]
    ∧ (SetGain.payload (-1)).GetPayloadHigh = 0xFFFFFFFF
    ∧ SetGain.payload (-1) ≠ CommandPayloadValue.ofInt (-1) :=
  ⟨by decide, by decide, by decide,
    (set_gain_payload_sign_extended (-1) (by decide) (by decide)).2.2.2 (by decide)⟩

/-- C38, as the code has it: the getters `GetMultiplexMode`, `GetDeviceStatus`,
`GetLOFrequency`, `GetGain`, `GetGainMode`, `GetComplexBandwidth`, `GetSampleRate`,
`GetDeviceTemperature` and the four `ERMVersion` accessors run a get transaction with the
request payload `(0, 0)`, and bytes 4..11 of such a request are zero; `GetTransmitAttenuation`
runs a get transaction with the request payload `(0, 1)`, and byte 11 of its request is 1. -/
theorem getter_request_payloads (c : PacketConstants) (t : Transport) (dev : RadioDevice)
    (ch : Int) :
    ((GetMultiplexMode c t dev).1
        = (ProcessCommand c t dev CommandType.MultiplexMode 0 false
            (CommandPayloadValue.ofWords 0 0)).1
      ∧ (GetDeviceStatus c t dev).1
        = (ProcessCommand c t dev CommandType.DeviceStatus 0 false
            (CommandPayloadValue.ofWords 0 0)).1
      ∧ (GetLOFrequency c t dev ch).1
        = (ProcessCommand c t dev CommandType.LOFrequency ch false
            (CommandPayloadValue.ofWords 0 0)).1
      ∧ (GetGain c t dev ch).1
        = (ProcessCommand c t dev CommandType.Gain ch false
            (CommandPayloadValue.ofWords 0 0)).1
      ∧ (GetGainMode c t dev ch).1
        = (ProcessCommand c t dev CommandType.GainMode ch false
            (CommandPayloadValue.ofWords 0 0)).1
      ∧ (GetComplexBandwidth c t dev ch).1
        = (ProcessCommand c t dev CommandType.Bandwidth ch false
            (CommandPayloadValue.ofWords 0 0)).1
      ∧ (GetSampleRate c t dev ch).1
        = (ProcessCommand c t dev CommandType.SampleRate ch false
            (CommandPayloadValue.ofWords 0 0)).1
      ∧ (GetDeviceTemperature.transaction c t dev).1
        = (ProcessCommand c t dev CommandType.Temperature 0 false
            (CommandPayloadValue.ofWords 0 0)).1
      ∧ (GetERMSoftwareVersion c t dev).1
        = (ProcessCommand c t dev CommandType.ERMVersion 0 false
            (CommandPayloadValue.ofWords 0 0)).1
      ∧ (GetERMHardwareVersion c t dev).1
        = (ProcessCommand c t dev CommandType.ERMVersion 0 false
            (CommandPayloadValue.ofWords 0 0)).1
      ∧ (GetFPGAType c t dev).1
        = (ProcessCommand c t dev CommandType.ERMVersion 0 false
            (CommandPayloadValue.ofWords 0 0)).1
      ∧ (IsDeviceInRecoveryMode c t dev).1
        = (ProcessCommand c t dev CommandType.ERMVersion 0 false
            (CommandPayloadValue.ofWords 0 0)).1)
    ∧ (∀ ct : CommandType,
        ((requestBytes c ct ch false (CommandPayloadValue.ofWords 0 0)).drop 4).take 8
          = [0, 0, 0, 0, 0, 0, 0, 0])
    ∧ (GetTransmitAttenuation.transaction c t dev ch).1
        = (ProcessCommand c t dev CommandType.Gain ch false
            (CommandPayloadValue.ofWords 0 1)).1
    ∧ ((requestBytes c CommandType.Gain ch false (CommandPayloadValue.ofWords 0 1)).drop 4).take 8
        = [0, 0, 0, 0, 0, 0, 0, 1] :=
  ⟨⟨rfl, rfl, rfl, rfl, rfl, rfl, rfl, rfl, rfl, rfl, rfl, rfl⟩,
    fun ct => (requestBytes_payload c ct ch false _).trans (by decide), rfl,
    (requestBytes_payload c _ ch false _).trans (by decide)⟩

/-- C38 on a set-up device, channel 0: the frame `GetTransmitAttenuation` hands to the driver is
`A5 00 00 40 | 00 00 00 00 | 00 00 00 01 | 5A 00 00 00`, the frame `GetGain` hands over is
`A5 00 00 40 | 00 00 00 00 | 00 00 00 00 | 5A 00 00 00`. -/
theorem getter_request_payloads_witness :
    (GetTransmitAttenuation.transaction sampleConstants (Transport.constant 0 0 sampleResponse)
        RadioDevice.sampleSetUp 0).1.channelLog
      = [ChannelEvent.lock,
          ChannelEvent.writePipe 0x03
            [0xA5, 0x00, 0x00, 0x40, 0x00, 0x00, 0x00, 0x00, 0x00, 0x00, 0x00, 0x01,
              0x5A, 0x00, 0x00, 0x00] 16,
          ChannelEvent.readPipe 0x83 16, ChannelEvent.unlock]
    ∧ (GetGain sampleConstants (Transport.constant 0 0 sampleResponse)
        RadioDevice.sampleSetUp 0).1.channelLog
      = [ChannelEvent.lock,
          ChannelEvent.writePipe 0x03
            [0xA5, 0x00, 0x00, 0x40, 0x00, 0x00, 0x00, 0x00, 0x00, 0x00, 0x00, 0x00,
              0x5A, 0x00, 0x00, 0x00] 16,
          ChannelEvent.readPipe 0x83 16, ChannelEvent.unlock]
    ∧ ((requestBytes sampleConstants CommandType.Gain 0 false
        (CommandPayloadValue.ofWords 0 1)).drop 4).take 8 = [0, 0, 0, 0, 0, 0, 0, 1] :=
  ⟨by decide, by decide,
    (getter_request_payloads sampleConstants (Transport.constant 0 0 sampleResponse)
      RadioDevice.sampleSetUp 0).2.2.2⟩

/-- C40: for every packet `command`, valid or not, `CreateInvalidResponse(command)` has the
header, the payload and the footer of `command`, serializes to the same 16 bytes, is invalid
and reports `DeviceNotResponding`. -/
theorem invalid_response_preserves_fields (command : DeviceCommand) :
    (CreateInvalidResponse command).header = command.header
    ∧ (CreateInvalidResponse command).payloadValue = command.payloadValue
    ∧ (CreateInvalidResponse command).footer = command.footer
    ∧ (CreateInvalidResponse command).ToSerializedBytes = command.ToSerializedBytes
    ∧ (CreateInvalidResponse command).ToSerializedBytes.length = 16
    ∧ (CreateInvalidResponse command).IsValid
        = (false, DeviceResponseError.DeviceNotResponding) :=
  ⟨rfl, rfl, rfl, rfl, rfl, rfl⟩

/-- C40 at a valid request (get `Gain`, channel 0) and at an invalid packet (the all-zero
frame, a framing error): both synthetic responses are invalid with `DeviceNotResponding` and
serialize to the bytes of the packet they were made from. -/
theorem invalid_response_preserves_fields_witness :
    ((CreateCommand sampleConstants CommandType.Gain RadioChannel.One false
        CommandPayloadValue.default).2.IsValid = (true, DeviceResponseError.None)
      ∧ (CreateInvalidResponse (CreateCommand sampleConstants CommandType.Gain RadioChannel.One
          false CommandPayloadValue.default).2).ToSerializedBytes
        = [0xA5, 0, 0, 0x40, 0, 0, 0, 0, 0, 0, 0, 0, 0x5A, 0, 0, 0])
    ∧ ((FromSerializedBytes sampleConstants []).IsValid
        = (false, DeviceResponseError.FramingError)
      ∧ (CreateInvalidResponse (FromSerializedBytes sampleConstants [])).ToSerializedBytes
        = [0, 0, 0, 0, 0, 0, 0, 0, 0, 0, 0, 0, 0, 0, 0, 0])
    ∧ (CreateInvalidResponse (FromSerializedBytes sampleConstants [])).IsValid
        = (false, DeviceResponseError.DeviceNotResponding) :=
  ⟨by decide, by decide,
    (invalid_response_preserves_fields (FromSerializedBytes sampleConstants [])).2.2.2.2.2⟩

end THR

namespace sabrSDR

/-- C39: for every pair of signed 16-bit values `(I, Q)`, negative ones included, the four bytes
the sink writes at `byteIndex`, `[I >> 8, I, Q >> 8, Q]` each truncated to 8 bits, are read by
the source at the same index of its buffer as `(I, Q)`. -/
theorem sample_bytes_roundtrip (I Q : Int) (hI : -2 ^ 15 ≤ I ∧ I < 2 ^ 15)
    (hQ : -2 ^ 15 ≤ Q ∧ Q < 2 ^ 15) (before after : List Nat) :
    sabr_source_impl.sample (before ++ sabr_sink_impl.sampleBytes I Q ++ after) before.length
      = (I, Q) := by
  have g0 : ∀ k x : Nat, ∀ l : List Nat,
      (before ++ l).getD (before.length + k) x = l.getD k x := by
    intro k x l
    simp [List.getD_eq_getElem?_getD, List.getElem?_append_right]
  have g : ∀ k : Nat,
      (before ++ sabr_sink_impl.sampleBytes I Q ++ after).getD (before.length + k) 0
        = (sabr_sink_impl.sampleBytes I Q ++ after).getD k 0 := by
    intro k
    rw [List.append_assoc, g0]
  have g1 := g 0
  rw [Nat.add_zero] at g1
  simp only [sabr_source_impl.sample, g, g1]
  simp only [sabr_sink_impl.sampleBytes, List.cons_append, List.getD_cons_zero,
    List.getD_cons_succ]
  rw [castInt16_bytes I hI.1 hI.2, castInt16_bytes Q hQ.1 hQ.2]

/-- C39 at `(I, Q) = (-2, 258)`, the second sample of a buffer: the sink writes
`FF FE 01 02` and the source reads `(-2, 258)` at index 4; and at the two ends of the range,
`(-32768, 32767)`. -/
theorem sample_bytes_roundtrip_witness :
    sabr_sink_impl.sampleBytes (-2) 258 = [0xFF, 0xFE, 0x01, 0x02]
    ∧ sabr_source_impl.sample ([7, 7, 7, 7] ++ sabr_sink_impl.sampleBytes (-2) 258 ++ [9]) 4
      = (-2, 258)
    ∧ sabr_sink_impl.sampleBytes (-32768) 32767 = [0x80, 0x00, 0x7F, 0xFF]
    ∧ sabr_source_impl.sample ([] ++ sabr_sink_impl.sampleBytes (-32768) 32767 ++ []) 0
      = (-32768, 32767) :=
  ⟨by decide, sample_bytes_roundtrip (-2) 258 (by decide) (by decide) [7, 7, 7, 7] [9],
    by decide, sample_bytes_roundtrip (-32768) 32767 (by decide) (by decide) [] []⟩

end sabrSDR

/-! ## Claims C26 and C27 -/

namespace THR

open BinaryConverter DeviceCommand RadioDevice

/-- C26: the range test of `SetTransmitAttenuation(channel, a)` holds exactly for the finite `a`
with `0.0 <= a <= 89.75`, both bounds and both zeros included. For every other `a`, a NaN and
the infinities included, the call returns `InvalidParameter` and leaves the device as it was,
set up or not: no event is added to the history. For every `a` in the range it runs one `Gain`
set transaction whose payload is `(0, n)`, `n = (int)(a * 1000)` with the `float` product:
`n <= 89750`, and `n` is the integral part of the exact product or, where the `float` product
rounds up to a whole number, one more. -/
theorem transmit_attenuation_range_check (c : PacketConstants) (t : Transport)
    (dev : RadioDevice) (ch : Int) (a : Binary32) :
    ((Binary32.ge a MIN_ATTENUATION && Binary32.le a MAX_ATTENUATION) = true
      ↔ ∃ negative units, a = Binary32.finite negative units
          ∧ (units = 0 ∨ (negative = false ∧ units ≤ 359 * 2 ^ 147)))
    ∧ ((Binary32.ge a MIN_ATTENUATION && Binary32.le a MAX_ATTENUATION) = false →
        SetTransmitAttenuation c t dev ch a = (dev, some ErrorFlags.InvalidParameter))
    ∧ (∀ negative units, a = Binary32.finite negative units →
        (units = 0 ∨ (negative = false ∧ units ≤ 359 * 2 ^ 147)) →
        ∃ n : Nat, n ≤ 89750
          ∧ Binary32.toInt (Binary32.mul a (Binary32.ofInt 1000)) = some (n : Int)
          ∧ units * 1000 / 2 ^ 149 ≤ n ∧ n ≤ units * 1000 / 2 ^ 149 + 1
          ∧ SetTransmitAttenuation c t dev ch a
            = ((ProcessCommand c t dev CommandType.Gain ch true
                  (CommandPayloadValue.ofWords 0 n)).1,
                (ProcessCommand c t dev CommandType.Gain ch true
                  (CommandPayloadValue.ofWords 0 n)).2.map fun x => x.1)) := by
  refine ⟨attenuation_in_range_iff a, fun h => ?_, fun negative units ha hu => ?_⟩
  · simp [SetTransmitAttenuation, h]
  · have h : (Binary32.ge a MIN_ATTENUATION && Binary32.le a MAX_ATTENUATION) = true :=
      (attenuation_in_range_iff a).2 ⟨negative, units, ha, hu⟩
    subst ha
    obtain ⟨n, hn, hi, hb1, hb2⟩ := attenuation_index negative units hu
    refine ⟨n, hn, hi, hb1, hb2, ?_⟩
    have hc : castUInt32 (n : Int) = n := by
      unfold castUInt32
      omega
    simp only [SetTransmitAttenuation, h, if_true, hi, CommandPayloadValue.ofInt, hc,
      CommandPayloadValue.ofWords]

/-- C26 at concrete values. `95.0` is refused on a set-up device and on one that is not, and so
are a NaN and the smallest negative number, the device unchanged. `89.75` is sent as
`(0, 89750)`, frame `A5 01 00 40 | 00 00 00 00 | 00 01 5E 96 | 5A 00 00 00`. For `0.009f`
(`0x3C1374BC`, a little below 0.009) the `float` product is `9.0`, so `(0, 9)` is sent, where
the integral part of the exact product is 8. -/
theorem transmit_attenuation_range_check_witness :
    SetTransmitAttenuation sampleConstants (Transport.constant 0 0 sampleResponse)
        RadioDevice.sampleSetUp 0 (Binary32.finite false (95 * 2 ^ 149))
      = (RadioDevice.sampleSetUp, some ErrorFlags.InvalidParameter)
    ∧ SetTransmitAttenuation sampleConstants (Transport.constant 0 0 sampleResponse)
        RadioDevice.sampleNotSetUp 0 (Binary32.finite false (95 * 2 ^ 149))
      = (RadioDevice.sampleNotSetUp, some ErrorFlags.InvalidParameter)
    ∧ SetTransmitAttenuation sampleConstants (Transport.constant 0 0 sampleResponse)
        RadioDevice.sampleSetUp 0 Binary32.nan
      = (RadioDevice.sampleSetUp, some ErrorFlags.InvalidParameter)
    ∧ SetTransmitAttenuation sampleConstants (Transport.constant 0 0 sampleResponse)
        RadioDevice.sampleSetUp 0 (Binary32.finite true 1)
      = (RadioDevice.sampleSetUp, some ErrorFlags.InvalidParameter)
    ∧ (SetTransmitAttenuation sampleConstants (Transport.constant 0 0 sampleResponse)
        RadioDevice.sampleSetUp 0 MAX_ATTENUATION).1.channelLog
      = [ChannelEvent.lock,
          ChannelEvent.writePipe 0x03
            [0xA5, 0x01, 0x00, 0x40, 0x00, 0x00, 0x00, 0x00, 0x00, 0x01, 0x5E, 0x96,
              0x5A, 0x00, 0x00, 0x00] 16,
          ChannelEvent.readPipe 0x83 16, ChannelEvent.unlock]
    ∧ Binary32.toInt (Binary32.mul (Binary32.finite false ((2 ^ 23 + 0x1374BC) * 2 ^ 119))
        (Binary32.ofInt 1000)) = some 9
    ∧ (2 ^ 23 + 0x1374BC) * 2 ^ 119 * 1000 / 2 ^ 149 = 8
    ∧ ∃ n : Nat, n ≤ 89750
        ∧ Binary32.toInt (Binary32.mul MAX_ATTENUATION (Binary32.ofInt 1000)) = some (n : Int)
        ∧ 359 * 2 ^ 147 * 1000 / 2 ^ 149 ≤ n ∧ n ≤ 359 * 2 ^ 147 * 1000 / 2 ^ 149 + 1
        ∧ SetTransmitAttenuation sampleConstants (Transport.constant 0 0 sampleResponse)
            RadioDevice.sampleSetUp 0 MAX_ATTENUATION
          = ((ProcessCommand sampleConstants (Transport.constant 0 0 sampleResponse)
                RadioDevice.sampleSetUp CommandType.Gain 0 true
                (CommandPayloadValue.ofWords 0 n)).1,
              (ProcessCommand sampleConstants (Transport.constant 0 0 sampleResponse)
                RadioDevice.sampleSetUp CommandType.Gain 0 true
                (CommandPayloadValue.ofWords 0 n)).2.map fun x => x.1) :=
  ⟨(transmit_attenuation_range_check sampleConstants (Transport.constant 0 0 sampleResponse)
      RadioDevice.sampleSetUp 0 (Binary32.finite false (95 * 2 ^ 149))).2.1 (by decide),
    (transmit_attenuation_range_check sampleConstants (Transport.constant 0 0 sampleResponse)
      RadioDevice.sampleNotSetUp 0 (Binary32.finite false (95 * 2 ^ 149))).2.1 (by decide),
    by decide, by decide, by decide, by decide, by decide,
    (transmit_attenuation_range_check sampleConstants (Transport.constant 0 0 sampleResponse)
      RadioDevice.sampleSetUp 0 MAX_ATTENUATION).2.2 false (359 * 2 ^ 147) rfl
      (Or.inr ⟨rfl, Nat.le_refl _⟩)⟩

/-- C27: whenever the `Temperature` transaction inside `GetDeviceTemperature` returns a flag
other than `None`, the reported temperature is exactly `-99.0` and that flag is returned. When
it returns `None`, the reported temperature is the signed 32-bit view of the response's low
word, converted to `float` and divided by `1000.0f`; a low word of `1000 * m` with
`|m| <= 16777` is reported as exactly `m`. -/
theorem temperature_sentinel_and_scaling (c : PacketConstants) (t : Transport)
    (dev : RadioDevice) (result : ErrorFlags) (rp : CommandPayloadValue)
    (h : (ProcessCommand c t dev CommandType.Temperature 0 false
      CommandPayloadValue.default).2 = some (result, rp)) :
    (result ≠ ErrorFlags.None →
      (GetDeviceTemperature c t dev).2
        = some (result, Binary32.finite true (99 * 2 ^ 149)))
    ∧ (result = ErrorFlags.None →
      (GetDeviceTemperature c t dev).2
        = some (ErrorFlags.None,
            Binary32.div (Binary32.ofInt (castInt32 rp.GetPayloadLow)) (Binary32.ofInt 1000))
      ∧ ∀ m : Int, m.natAbs ≤ 16777 → castInt32 rp.GetPayloadLow = 1000 * m →
          (GetDeviceTemperature c t dev).2
            = some (ErrorFlags.None, Binary32.finite (decide (m < 0)) (m.natAbs * 2 ^ 149)))
    ∧ (GetDeviceTemperature c t dev).1
        = (ProcessCommand c t dev CommandType.Temperature 0 false
            CommandPayloadValue.default).1 := by
  refine ⟨fun hne => ?_, fun he => ?_, rfl⟩
  · simp [GetDeviceTemperature, h, ERROR_FLAGS_FAILURE, hne]
  · subst he
    have h0 : (GetDeviceTemperature c t dev).2
        = some (ErrorFlags.None,
            Binary32.div (Binary32.ofInt (castInt32 rp.GetPayloadLow))
              (Binary32.ofInt 1000)) := by
      rw [Binary32.ofInt_1000]
      simp [GetDeviceTemperature, h, ERROR_FLAGS_FAILURE, CommandPayloadValue.GetAsInt32,
        CommandPayloadValue.GetPayloadLow]
    refine ⟨h0, fun m hm hlow => ?_⟩
    rw [h0, hlow, Binary32.ofInt_1000, temperature_whole m hm]

/-- C27 on a set-up device. A failed write gives `NotResponding` with `-99.0`; a response that
fails the checksum check gives `ChecksumFailure` with `-99.0` although its low word is 36600;
the valid response with low word 36600 gives `None` with the `float` nearest to 36.6
(`0x42126666`); the valid response with low word `0xFFFF9E58` (the `int` -25000) gives `None`
with exactly `-25.0`. -/
theorem temperature_sentinel_and_scaling_witness :
    (GetDeviceTemperature sampleConstants (Transport.constant 1 0 []) RadioDevice.sampleSetUp).2
      = some (ErrorFlags.NotResponding, Binary32.finite true (99 * 2 ^ 149))
    ∧ (GetDeviceTemperature sampleConstants
        (Transport.constant 0 0 [0xA5, 0, 1, 0x30, 0, 0, 0, 0, 0, 0, 0x8E, 0xF8, 0x5A, 0, 0, 1])
        RadioDevice.sampleSetUp).2
      = some (ErrorFlags.ChecksumFailure, Binary32.finite true (99 * 2 ^ 149))
    ∧ (GetDeviceTemperature sampleConstants
        (Transport.constant 0 0 [0xA5, 0, 1, 0x30, 0, 0, 0, 0, 0, 0, 0x8E, 0xF8, 0x5A, 0, 0, 0])
        RadioDevice.sampleSetUp).2
      = some (ErrorFlags.None, Binary32.finite false ((2 ^ 23 + 0x126666) * 2 ^ 131))
    ∧ (GetDeviceTemperature sampleConstants
        (Transport.constant 0 0
          [0xA5, 0, 1, 0x30, 0, 0, 0, 0, 0xFF, 0xFF, 0x9E, 0x58, 0x5A, 0, 0, 0])
        RadioDevice.sampleSetUp).2
      = some (ErrorFlags.None,
          Binary32.finite (decide ((-25 : Int) < 0)) ((-25 : Int).natAbs * 2 ^ 149)) :=
  ⟨(temperature_sentinel_and_scaling sampleConstants (Transport.constant 1 0 [])
      RadioDevice.sampleSetUp ErrorFlags.NotResponding CommandPayloadValue.default
      (by decide)).1 (by decide),
    (temperature_sentinel_and_scaling sampleConstants
      (Transport.constant 0 0 [0xA5, 0, 1, 0x30, 0, 0, 0, 0, 0, 0, 0x8E, 0xF8, 0x5A, 0, 0, 1])
      RadioDevice.sampleSetUp ErrorFlags.ChecksumFailure CommandPayloadValue.default
      (by decide)).1 (by decide),
    by decide,
    ((temperature_sentinel_and_scaling sampleConstants
      (Transport.constant 0 0
        [0xA5, 0, 1, 0x30, 0, 0, 0, 0, 0xFF, 0xFF, 0x9E, 0x58, 0x5A, 0, 0, 0])
      RadioDevice.sampleSetUp ErrorFlags.None ⟨0, 0xFFFF9E58⟩ (by decide)).2.1 rfl).2 (-25)
      (by decide) (by decide)⟩

end THR
